import Mathlib

/-!
# ClearCodec decoder (libfreerdp/codec/clear.c): shallow embedding

The decoder of `clear.c` is embedded as pure functions.

* Machine integers are natural numbers; every 32-bit operation that can wrap is
  written with `add32`, `mul32`, `sub32`, every 8-bit one with `% 256`.
* The stream `wStream` is the list of the bytes that have not been consumed;
  `Stream_GetRemainingLength` is its length.  A guarded read
  (`Stream_GetRemainingLength(s) < n` followed by reads of `n` bytes) is a
  pattern match on the first `n` bytes; an unguarded read of an empty stream
  is the fault `Fault.streamRead`.
* A pixel buffer of the context (TempBuffer, the pixel buffers of the glyph and
  VBar entries) is a function from the pixel index to the colour stored there;
  its capacity is kept in the size field next to it, and an access outside the
  capacity is a fault.  The values of cells that were never written stand for
  uninitialised memory.
* The destination image is the list of the pixels written, newest first, each
  with its column, its row and the colour handed to `WriteColor`; the byte
  address `y * nDstStep + x * GetBytesPerPixel(DstFormat)` is represented by
  the pair `(x, y)`.
* The pixel-format library (`color.h`), the NSCodec decoder and the contents of
  fresh heap memory are not part of `clear.c`; they are the fields of `Env`.
* Allocation failure (`calloc`, `malloc`, `realloc`, `Stream_New` returning
  NULL) is not modelled: allocation succeeds.
-/

namespace ClearCodec

/-! ## Machine arithmetic -/

/-- Addition of two UINT32 values. -/
def add32 (a b : Nat) : Nat := (a + b) % 4294967296

/-- Multiplication of two UINT32 values. -/
def mul32 (a b : Nat) : Nat := (a * b) % 4294967296

/-- Subtraction of two UINT32 values. -/
def sub32 (a b : Nat) : Nat := (a + 4294967296 - b % 4294967296) % 4294967296

/-- Little-endian UINT16 of two stream bytes (Stream_Read_UINT16). -/
def le16 (b0 b1 : Nat) : Nat := b0 % 256 + 256 * (b1 % 256)

/-- Little-endian UINT32 of four stream bytes (Stream_Read_UINT32). -/
def le32 (b0 b1 b2 b3 : Nat) : Nat :=
  b0 % 256 + 256 * (b1 % 256) + 65536 * (b2 % 256) + 16777216 * (b3 % 256)

/-! ## Constants and tables -/

/-- Table CLEAR_LOG2_FLOOR of clear.c, lines 36-54. -/
def CLEAR_LOG2_FLOOR : List Nat :=
  [0, 0, 1, 1, 2, 2, 2, 2, 3, 3, 3, 3, 3, 3, 3, 3,
   4, 4, 4, 4, 4, 4, 4, 4, 4, 4, 4, 4, 4, 4, 4, 4,
   5, 5, 5, 5, 5, 5, 5, 5, 5, 5, 5, 5, 5, 5, 5, 5,
   5, 5, 5, 5, 5, 5, 5, 5, 5, 5, 5, 5, 5, 5, 5, 5,
   6, 6, 6, 6, 6, 6, 6, 6, 6, 6, 6, 6, 6, 6, 6, 6,
   6, 6, 6, 6, 6, 6, 6, 6, 6, 6, 6, 6, 6, 6, 6, 6,
   6, 6, 6, 6, 6, 6, 6, 6, 6, 6, 6, 6, 6, 6, 6, 6,
   6, 6, 6, 6, 6, 6, 6, 6, 6, 6, 6, 6, 6, 6, 6, 6,
   7, 7, 7, 7, 7, 7, 7, 7, 7, 7, 7, 7, 7, 7, 7, 7,
   7, 7, 7, 7, 7, 7, 7, 7, 7, 7, 7, 7, 7, 7, 7, 7,
   7, 7, 7, 7, 7, 7, 7, 7, 7, 7, 7, 7, 7, 7, 7, 7,
   7, 7, 7, 7, 7, 7, 7, 7, 7, 7, 7, 7, 7, 7, 7, 7,
   7, 7, 7, 7, 7, 7, 7, 7, 7, 7, 7, 7, 7, 7, 7, 7,
   7, 7, 7, 7, 7, 7, 7, 7, 7, 7, 7, 7, 7, 7, 7, 7,
   7, 7, 7, 7, 7, 7, 7, 7, 7, 7, 7, 7, 7, 7, 7, 7,
   7, 7, 7, 7, 7, 7, 7, 7, 7, 7, 7, 7, 7, 7, 7, 7]

/-- Table CLEAR_8BIT_MASKS of clear.c, lines 56-59. -/
def CLEAR_8BIT_MASKS : List Nat :=
  [0x00, 0x01, 0x03, 0x07, 0x0F, 0x1F, 0x3F, 0x7F, 0xFF]

/-- Modelled from the spec: the constant CLEARCODEC_FLAG_GLYPH_INDEX of clear.h,
which is not among the sources; section 4.8 gives `GLYPH_INDEX = 0x01`. -/
def CLEARCODEC_FLAG_GLYPH_INDEX : Nat := 0x01

/-- Modelled from the spec: the constant CLEARCODEC_FLAG_GLYPH_HIT of clear.h,
which is not among the sources; section 4.8 gives `GLYPH_HIT = 0x02`. -/
def CLEARCODEC_FLAG_GLYPH_HIT : Nat := 0x02

/-- Modelled from the spec: the constant CLEARCODEC_FLAG_CACHE_RESET of clear.h,
which is not among the sources; section 4.8 gives `CACHE_RESET = 0x20`. -/
def CLEARCODEC_FLAG_CACHE_RESET : Nat := 0x20

/-- Modelled from the spec: the constant CLEARCODEC_VBAR_SIZE of clear.h, which is
not among the sources; section 3 gives 32768 slots. -/
def CLEARCODEC_VBAR_SIZE : Nat := 32768

/-- Modelled from the spec: the constant CLEARCODEC_VBAR_SHORT_SIZE of clear.h,
which is not among the sources; section 3 gives 16384 slots. -/
def CLEARCODEC_VBAR_SHORT_SIZE : Nat := 16384

/-! ## Data model -/

/-- The bytes of the stream that have not been consumed. -/
abbrev wStream := List Nat

/-- Stream_GetRemainingLength. -/
def Stream_GetRemainingLength (s : wStream) : Nat := s.length

/-- The destination image: the pixels written so far, newest first, as
(column, row, colour). -/
abbrev Image := List (Nat × Nat × Nat)

/-- A gdiPalette (never inspected by clear.c, only handed to ConvertColor). -/
abbrev gdiPalette := List Nat

/-- The kinds of undefined behaviour the embedding detects. -/
inductive Fault where
  /-- A Stream_Read past the end of the stream. -/
  | streamRead
  /-- A read outside CLEAR_LOG2_FLOOR, CLEAR_8BIT_MASKS or the local palette. -/
  | tableRead
  /-- A ReadColor outside the source buffer. -/
  | bufferRead
  /-- A WriteColor outside a pixel buffer of the context. -/
  | bufferWrite
  /-- The loop bound of the embedding was used up (never the case: theorem
  clear_decompress_fuel). -/
  | outOfFuel
  deriving DecidableEq, Repr

/-- The outcome of a function of clear.c that returns BOOL and works on a state. -/
inductive Res (σ : Type) where
  /-- The function returned TRUE. -/
  | ok (st : σ)
  /-- The function returned FALSE. -/
  | fail (st : σ)
  /-- The function ran into undefined behaviour. -/
  | fault (k : Fault)

/-- Change the state carried by an outcome. -/
def Res.map {σ τ : Type} (f : σ → τ) : Res σ → Res τ
  | .ok st => .ok (f st)
  | .fail st => .fail (f st)
  | .fault k => .fault k

/-- The collaborators of clear.c: the pixel-format library of color.h, the
NSCodec decoder, and the contents of memory that was allocated and not yet
written. -/
structure Env where
  /-- The constant PIXEL_FORMAT_BGRX32. -/
  PIXEL_FORMAT_BGRX32 : Nat
  /-- The constant PIXEL_FORMAT_BGR24. -/
  PIXEL_FORMAT_BGR24 : Nat
  /-- GetBytesPerPixel(format). -/
  GetBytesPerPixel : Nat → Nat
  /-- GetColor(format, r, g, b, a). -/
  GetColor : Nat → Nat → Nat → Nat → Nat → Nat
  /-- ConvertColor(color, srcFormat, dstFormat, palette). -/
  ConvertColor : Nat → Nat → Nat → Option gdiPalette → Nat
  /-- ReadColor(src, format) on the bytes of one pixel. -/
  ReadColor : List Nat → Nat → Nat
  /-- WriteColor(dst, format, color): whether the colour can be written in the
  format; when it cannot, nothing is written. -/
  WriteColor : Nat → Nat → Bool
  /-- The call nsc_process_message(nsc, 32, width, height, data, length, pDstData,
  DstFormat, nDstStep, nXDst, nYDst, width, height, FREERDP_FLIP_NONE): its
  result and the destination it leaves. -/
  nsc_process_message : Nat → Nat → List Nat → Nat → Nat → Nat → Image → Bool × Image
  /-- The contents of heap memory that was allocated and never written. -/
  heap : Nat → Nat

/-- An entry of GlyphCache: capacity and count in 32-bit pixels. -/
structure CLEAR_GLYPH_ENTRY where
  size : Nat
  count : Nat
  pixels : Option (Nat → Nat)

/-- An entry of VBarStorage or ShortVBarStorage: capacity and count in pixels. -/
structure CLEAR_VBAR_ENTRY where
  size : Nat
  count : Nat
  pixels : Option (Nat → Nat)

/-- The decoder context CLEAR_CONTEXT (the fields Compressor and nsc are not
read by the decoder paths embedded here). -/
structure CLEAR_CONTEXT where
  seqNumber : Nat
  format : Nat
  TempBuffer : Nat → Nat
  TempSize : Nat
  GlyphCache : Nat → CLEAR_GLYPH_ENTRY
  VBarStorageCursor : Nat
  VBarStorage : Nat → CLEAR_VBAR_ENTRY
  ShortVBarStorageCursor : Nat
  ShortVBarStorage : Nat → CLEAR_VBAR_ENTRY

/-- The state the stages of a frame work on: the context, the stream and the
destination image. -/
structure St where
  clear : CLEAR_CONTEXT
  s : wStream
  dst : Image

/-- A source buffer of convert_color: ReadColor at a byte offset, none when the
pixel does not lie inside the buffer. -/
abbrev PixelSource := Nat → Option Nat

/-- A pixel buffer of the context of `sizeBytes` bytes, read at a byte offset. -/
def cellSource (bpp sizeBytes : Nat) (cells : Nat → Nat) : PixelSource :=
  fun off => if off + bpp ≤ sizeBytes then some (cells (off / bpp)) else none

/-- The stream pointer Stream_Pointer(s) as a source buffer in format `fmt`. -/
def streamSource (env : Env) (fmt : Nat) (s : wStream) : PixelSource :=
  fun off =>
    if off + env.GetBytesPerPixel fmt ≤ s.length then
      some (env.ReadColor (((s.drop off).take (env.GetBytesPerPixel fmt)).map (· % 256)) fmt)
    else none

/-! ## convert_color (lines 61-95) -/

/-- The inner loop of convert_color (lines 79-91) from column `x` on, `n` columns
left; `lineOff` is the byte offset of pSrcLine and `yDst` the destination row. -/
def convert_color_row (env : Env) (DstFormat nXDst : Nat) (src : PixelSource)
    (lineOff SrcFormat : Nat) (palette : Option gdiPalette) (yDst : Nat) :
    Nat → Nat → Image → Res Image
  | 0, _, dst => .ok dst
  | n + 1, x, dst =>
    match src (lineOff + mul32 x (env.GetBytesPerPixel SrcFormat)) with
    | none => .fault .bufferRead
    | some c =>
      let color := env.ConvertColor c SrcFormat DstFormat palette
      if env.WriteColor DstFormat color then
        convert_color_row env DstFormat nXDst src lineOff SrcFormat palette yDst n (x + 1)
          ((add32 nXDst x, yDst, color) :: dst)
      else .fail dst

/-- The outer loop of convert_color (lines 74-92) from row `y` on, `n` rows left. -/
def convert_color_rows (env : Env) (DstFormat nXDst nYDst nWidth : Nat) (src : PixelSource)
    (nSrcStep SrcFormat : Nat) (palette : Option gdiPalette) :
    Nat → Nat → Image → Res Image
  | 0, _, dst => .ok dst
  | n + 1, y, dst =>
    match convert_color_row env DstFormat nXDst src (mul32 y nSrcStep) SrcFormat palette
        (add32 nYDst y) nWidth 0 dst with
    | .ok dst1 =>
      convert_color_rows env DstFormat nXDst nYDst nWidth src nSrcStep SrcFormat palette n (y + 1) dst1
    | .fail dst1 => .fail dst1
    | .fault k => .fault k

/-- Function convert_color (lines 61-95). -/
def convert_color (env : Env) (dst : Image) (DstFormat nXDst nYDst nWidth nHeight : Nat)
    (src : PixelSource) (nSrcStep SrcFormat nDstWidth nDstHeight : Nat)
    (palette : Option gdiPalette) : Res Image :=
  let nWidth := if add32 nWidth nXDst > nDstWidth then sub32 nDstWidth nXDst else nWidth
  let nHeight := if add32 nHeight nYDst > nDstHeight then sub32 nDstHeight nYDst else nHeight
  convert_color_rows env DstFormat nXDst nYDst nWidth src nSrcStep SrcFormat palette nHeight 0 dst

/-! ## The run-length escape ladder (lines 191-215 and 358-382) -/

/-- The escape ladder of the run length: from the first factor `f1` and the
stream after it, the effective runLengthFactor, the number of bytes read and
the stream left; none when the stream is too short. -/
def read_runLengthFactor (f1 : Nat) (s : wStream) : Option (Nat × Nat × wStream) :=
  if f1 ≥ 0xFF then
    match s with
    | lo :: hi :: s1 =>
      if le16 lo hi ≥ 0xFFFF then
        match s1 with
        | b0 :: b1 :: b2 :: b3 :: s2 => some (le32 b0 b1 b2 b3, 6, s2)
        | _ => none
      else some (le16 lo hi, 2, s1)
    | _ => none
  else some (f1, 0, s)

/-! ## clear_decompress_nscodec (lines 97-117) -/

/-- Function clear_decompress_nscodec (lines 97-117) on the stream and the
destination. -/
def clear_decompress_nscodec (env : Env) (width height : Nat) (s : wStream)
    (bitmapDataByteCount : Nat) (dst : Image) (DstFormat nXDstRel nYDstRel : Nat) :
    Res (wStream × Image) :=
  if Stream_GetRemainingLength s < bitmapDataByteCount then .fail (s, dst)
  else
    let r := env.nsc_process_message width height
      ((s.take bitmapDataByteCount).map (· % 256)) DstFormat nXDstRel nYDstRel dst
    if r.1 then .ok (s.drop bitmapDataByteCount, r.2)
    else .fail (s.drop bitmapDataByteCount, r.2)

/-! ## clear_decompress_subcode_rlex (lines 119-308) -/

/-- The palette loop (lines 156-165) from entry `i` on, `n` entries left: none
when a read leaves the stream. -/
def rlex_read_palette (env : Env) (DstFormat : Nat) :
    Nat → Nat → wStream → (Nat → Nat) → Option ((Nat → Nat) × wStream)
  | 0, _, s, palette => some (palette, s)
  | n + 1, i, b :: g :: r :: s, palette =>
    rlex_read_palette env DstFormat n (i + 1) s
      (Function.update palette i
        (env.ConvertColor
          (env.GetColor env.PIXEL_FORMAT_BGR24 (r % 256) (g % 256) (b % 256) 0xFF)
          env.PIXEL_FORMAT_BGR24 DstFormat none))
  | _ + 1, _, _, _ => none

/-- The cursor step `if (++x >= width) { y++; x = 0; }` (lines 255-259, 289-293). -/
def rlex_advance (width x y : Nat) : Nat × Nat :=
  if add32 x 1 ≥ width then (0, add32 y 1) else (add32 x 1, y)

/-- The guarded write of one pixel (lines 252-253 and 286-287). -/
def rlex_put (env : Env) (DstFormat nXDstRel nYDstRel nDstWidth nDstHeight : Nat)
    (color x y : Nat) (dst : Image) : Image :=
  if add32 nXDstRel x < nDstWidth ∧ add32 nYDstRel y < nDstHeight then
    if env.WriteColor DstFormat color then (add32 nXDstRel x, add32 nYDstRel y, color) :: dst
    else dst
  else dst

/-- The run loop (lines 247-260), `n` pixels left: the cursor and the destination
it leaves. -/
def rlex_run (env : Env) (DstFormat nXDstRel nYDstRel nDstWidth nDstHeight width color : Nat) :
    Nat → Nat → Nat → Image → Nat × Nat × Image
  | 0, x, y, dst => (x, y, dst)
  | n + 1, x, y, dst =>
    rlex_run env DstFormat nXDstRel nYDstRel nDstWidth nDstHeight width color n
      (rlex_advance width x y).1 (rlex_advance width x y).2
      (rlex_put env DstFormat nXDstRel nYDstRel nDstWidth nDstHeight color x y dst)

/-- The suite loop (lines 272-294), `n` pixels left, from palette index
`suiteIndex` on.  The local palette has 128 entries: reading it at an index
above 127 (line 276, before the check of line 278) is a fault. -/
def rlex_suite (env : Env) (DstFormat nXDstRel nYDstRel nDstWidth nDstHeight width : Nat)
    (palette : Nat → Nat) :
    Nat → Nat → Nat → Nat → Image → Res (Nat × Nat × Image)
  | 0, _, x, y, dst => .ok (x, y, dst)
  | n + 1, suiteIndex, x, y, dst =>
    if suiteIndex > 127 then .fault .tableRead
    else
      rlex_suite env DstFormat nXDstRel nYDstRel nDstWidth nDstHeight width palette n
        ((suiteIndex + 1) % 256) (rlex_advance width x y).1 (rlex_advance width x y).2
        (rlex_put env DstFormat nXDstRel nYDstRel nDstWidth nDstHeight (palette suiteIndex) x y dst)

/-- The loop variables of the record loop of clear_decompress_subcode_rlex. -/
structure RlexState where
  s : wStream
  bitmapDataOffset : Nat
  pixelIndex : Nat
  x : Nat
  y : Nat
  dst : Image

/-- The record loop (lines 171-297).  Every pass takes at least two bytes from
the stream, so the fuel `Stream_GetRemainingLength(s) + 1` is never used up. -/
def rlex_loop (env : Env) (bitmapDataByteCount width : Nat)
    (DstFormat nXDstRel nYDstRel nDstWidth nDstHeight : Nat)
    (paletteCount numBits pixelCount : Nat) (palette : Nat → Nat) :
    Nat → RlexState → Res RlexState
  | 0, _ => .fault .outOfFuel
  | fuel + 1, st =>
    if st.bitmapDataOffset < bitmapDataByteCount then
      match st.s with
      | tmp :: f1 :: s1 =>
        match CLEAR_8BIT_MASKS[8 - numBits]?, CLEAR_8BIT_MASKS[numBits]? with
        | some maskHi, some maskLo =>
          let suiteDepth := (((tmp % 256) >>> numBits) &&& maskHi) % 256
          let stopIndex := ((tmp % 256) &&& maskLo) % 256
          let startIndex := (stopIndex + 256 - suiteDepth) % 256
          match read_runLengthFactor (f1 % 256) s1 with
          | none => .fail { st with s := s1, bitmapDataOffset := add32 st.bitmapDataOffset 2 }
          | some (runLengthFactor, nread, s2) =>
            let st1 : RlexState :=
              { st with s := s2, bitmapDataOffset := add32 (add32 st.bitmapDataOffset 2) nread }
            if startIndex ≥ paletteCount then .fail st1
            else if stopIndex ≥ paletteCount then .fail st1
            else if startIndex > 127 then .fail st1
            else if add32 st.pixelIndex runLengthFactor > pixelCount then .fail st1
            else
              let run := rlex_run env DstFormat nXDstRel nYDstRel nDstWidth nDstHeight width
                (palette startIndex) runLengthFactor st.x st.y st.dst
              let pixelIndex := add32 st.pixelIndex runLengthFactor
              let st2 : RlexState :=
                { st1 with pixelIndex := pixelIndex, x := run.1, y := run.2.1, dst := run.2.2 }
              if add32 pixelIndex (suiteDepth + 1) > pixelCount then .fail st2
              else
                match rlex_suite env DstFormat nXDstRel nYDstRel nDstWidth nDstHeight width
                    palette (suiteDepth + 1) startIndex run.1 run.2.1 run.2.2 with
                | .ok (x, y, dst) =>
                  rlex_loop env bitmapDataByteCount width DstFormat nXDstRel nYDstRel
                    nDstWidth nDstHeight paletteCount numBits pixelCount palette fuel
                    { st1 with pixelIndex := add32 pixelIndex (suiteDepth + 1),
                               x := x, y := y, dst := dst }
                | .fail (x, y, dst) => .fail { st2 with x := x, y := y, dst := dst }
                | .fault k => .fault k
        | _, _ => .fault .tableRead
      | _ => .fail st
    else .ok st

/-- Function clear_decompress_subcode_rlex (lines 119-308) on the stream and the
destination.  The reads of paletteCount (line 147) and of the palette (lines
160-162) are not guarded; the index `paletteCount - 1` of line 169 is -1 for
paletteCount = 0. -/
def clear_decompress_subcode_rlex (env : Env) (s : wStream) (bitmapDataByteCount : Nat)
    (width height : Nat) (dst : Image)
    (DstFormat nXDstRel nYDstRel nDstWidth nDstHeight : Nat) : Res (wStream × Image) :=
  if Stream_GetRemainingLength s < bitmapDataByteCount then .fail (s, dst)
  else
    match s with
    | [] => .fault .streamRead
    | pc :: s1 =>
      let paletteCount := pc % 256
      let bitmapDataOffset := add32 1 (paletteCount * 3)
      if paletteCount > 127 then .fail (s1, dst)
      else
        match rlex_read_palette env DstFormat paletteCount 0 s1 (fun _ => 0) with
        | none => .fault .streamRead
        | some (palette, s2) =>
          let pixelCount := mul32 width height
          if paletteCount = 0 then .fault .tableRead
          else
            match CLEAR_LOG2_FLOOR[paletteCount - 1]? with
            | none => .fault .tableRead
            | some l =>
              let numBits := add32 l 1
              match rlex_loop env bitmapDataByteCount width DstFormat nXDstRel nYDstRel
                  nDstWidth nDstHeight paletteCount numBits pixelCount palette
                  (Stream_GetRemainingLength s2 + 1)
                  { s := s2, bitmapDataOffset := bitmapDataOffset, pixelIndex := 0,
                    x := 0, y := 0, dst := dst } with
              | .ok st =>
                if st.pixelIndex ≠ pixelCount then .fail (st.s, st.dst) else .ok (st.s, st.dst)
              | .fail st => .fail (st.s, st.dst)
              | .fault k => .fault k

/-! ## clear_decompress_residual_data (lines 310-413) -/

/-- The write loop of one run (lines 392-396), `n` pixels left, `p` the pixel
index of dstBuffer inside TempBuffer: none when a pixel is written outside the
first TempSize bytes. -/
def residual_run (env : Env) (format TempSize color : Nat) :
    Nat → Nat → (Nat → Nat) → Option (Nat × (Nat → Nat))
  | 0, p, buf => some (p, buf)
  | n + 1, p, buf =>
    if env.WriteColor format color then
      if (p + 1) * env.GetBytesPerPixel format ≤ TempSize then
        residual_run env format TempSize color n (p + 1) (Function.update buf p color)
      else none
    else residual_run env format TempSize color n (p + 1) buf

/-- The loop variables of the record loop of clear_decompress_residual_data;
`p` is the pixel index of dstBuffer inside TempBuffer. -/
structure ResidualState where
  s : wStream
  suboffset : Nat
  pixelIndex : Nat
  p : Nat
  TempBuffer : Nat → Nat

/-- The record loop (lines 338-399).  Every pass takes at least four bytes from
the stream, so the fuel `Stream_GetRemainingLength(s) + 1` is never used up. -/
def residual_loop (env : Env) (format TempSize residualByteCount pixelCount : Nat) :
    Nat → ResidualState → Res ResidualState
  | 0, _ => .fault .outOfFuel
  | fuel + 1, st =>
    if st.suboffset < residualByteCount then
      match st.s with
      | b :: g :: r :: f1 :: s1 =>
        let color := env.GetColor format (r % 256) (g % 256) (b % 256) 0xFF
        match read_runLengthFactor (f1 % 256) s1 with
        | none => .fail { st with s := s1, suboffset := add32 st.suboffset 4 }
        | some (runLengthFactor, nread, s2) =>
          let st1 : ResidualState :=
            { st with s := s2, suboffset := add32 (add32 st.suboffset 4) nread }
          if add32 st.pixelIndex runLengthFactor > pixelCount then .fail st1
          else
            match residual_run env format TempSize color runLengthFactor st.p st.TempBuffer with
            | none => .fault .bufferWrite
            | some (p, buf) =>
              residual_loop env format TempSize residualByteCount pixelCount fuel
                { st1 with pixelIndex := add32 st.pixelIndex runLengthFactor,
                           p := p, TempBuffer := buf }
      | _ => .fail st
    else .ok st

/-- Function clear_decompress_residual_data (lines 310-413). -/
def clear_decompress_residual_data (env : Env) (clear : CLEAR_CONTEXT) (s : wStream)
    (residualByteCount nWidth nHeight : Nat) (dst : Image)
    (DstFormat nXDst nYDst nDstWidth nDstHeight : Nat) (palette : Option gdiPalette) :
    Res St :=
  if Stream_GetRemainingLength s < residualByteCount then .fail ⟨clear, s, dst⟩
  else
    match residual_loop env clear.format clear.TempSize residualByteCount (mul32 nWidth nHeight)
        (Stream_GetRemainingLength s + 1)
        { s := s, suboffset := 0, pixelIndex := 0, p := 0, TempBuffer := clear.TempBuffer } with
    | .fault k => .fault k
    | .fail st => .fail ⟨{ clear with TempBuffer := st.TempBuffer }, st.s, dst⟩
    | .ok st =>
      let clear1 := { clear with TempBuffer := st.TempBuffer }
      if st.pixelIndex ≠ mul32 nWidth nHeight then .fail ⟨clear1, st.s, dst⟩
      else
        (convert_color env dst DstFormat nXDst nYDst nWidth nHeight
          (cellSource (env.GetBytesPerPixel clear.format) clear.TempSize st.TempBuffer)
          (mul32 nWidth (env.GetBytesPerPixel clear.format)) clear.format
          nDstWidth nDstHeight palette).map (fun d => ⟨clear1, st.s, d⟩)

/-! ## clear_decompress_subcodecs_data (lines 415-548) -/

/-- The loop variables of the tile loop of clear_decompress_subcodecs_data. -/
structure SubcodecState where
  s : wStream
  suboffset : Nat
  TempSize : Nat
  dst : Image

/-- The tile loop (lines 438-545).  Every pass takes at least thirteen bytes from
the stream, so the fuel `Stream_GetRemainingLength(s) + 1` is never used up. -/
def subcodecs_loop (env : Env) (format subcodecByteCount nWidth nHeight : Nat)
    (DstFormat nXDst nYDst nDstWidth nDstHeight : Nat) (palette : Option gdiPalette) :
    Nat → SubcodecState → Res SubcodecState
  | 0, _ => .fault .outOfFuel
  | fuel + 1, st =>
    if st.suboffset < subcodecByteCount then
      match st.s with
      | x0 :: x1 :: y0 :: y1 :: w0 :: w1 :: h0 :: h1 :: c0 :: c1 :: c2 :: c3 :: id :: s1 =>
        let xStart := le16 x0 x1
        let yStart := le16 y0 y1
        let width := le16 w0 w1
        let height := le16 h0 h1
        let bitmapDataByteCount := le32 c0 c1 c2 c3
        let subcodecId := id % 256
        let st1 : SubcodecState := { st with s := s1, suboffset := add32 st.suboffset 13 }
        if Stream_GetRemainingLength s1 < bitmapDataByteCount then .fail st1
        else
          let nXDstRel := add32 nXDst xStart
          let nYDstRel := add32 nYDst yStart
          if width > nWidth then .fail st1
          else if height > nHeight then .fail st1
          else
            let need := mul32 (mul32 width height) (env.GetBytesPerPixel format)
            let st2 : SubcodecState :=
              if need > st.TempSize then { st1 with TempSize := need } else st1
            let next (r : Res (wStream × Image)) : Res SubcodecState :=
              match r with
              | .ok (s2, dst2) =>
                subcodecs_loop env format subcodecByteCount nWidth nHeight DstFormat nXDst nYDst
                  nDstWidth nDstHeight palette fuel
                  { st2 with s := s2, dst := dst2,
                             suboffset := add32 st2.suboffset bitmapDataByteCount }
              | .fail (s2, dst2) => .fail { st2 with s := s2, dst := dst2 }
              | .fault k => .fault k
            if subcodecId = 0 then
              let nSrcStep := mul32 width (env.GetBytesPerPixel env.PIXEL_FORMAT_BGR24)
              let nSrcSize := mul32 nSrcStep height
              if bitmapDataByteCount ≠ nSrcSize then .fail st2
              else
                next ((convert_color env st.dst DstFormat nXDstRel nYDstRel width height
                  (streamSource env env.PIXEL_FORMAT_BGR24 s1) nSrcStep env.PIXEL_FORMAT_BGR24
                  nDstWidth nDstHeight palette).map (fun d => (s1.drop bitmapDataByteCount, d)))
            else if subcodecId = 1 then
              next (clear_decompress_nscodec env width height s1 bitmapDataByteCount st.dst
                DstFormat nXDstRel nYDstRel)
            else if subcodecId = 2 then
              next (clear_decompress_subcode_rlex env s1 bitmapDataByteCount width height st.dst
                DstFormat nXDstRel nYDstRel nDstWidth nDstHeight)
            else .fail st2
      | _ => .fail st
    else .ok st

/-- Function clear_decompress_subcodecs_data (lines 415-548). -/
def clear_decompress_subcodecs_data (env : Env) (clear : CLEAR_CONTEXT) (s : wStream)
    (subcodecByteCount nWidth nHeight : Nat) (dst : Image)
    (DstFormat nXDst nYDst nDstWidth nDstHeight : Nat) (palette : Option gdiPalette) :
    Res St :=
  if Stream_GetRemainingLength s < subcodecByteCount then .fail ⟨clear, s, dst⟩
  else
    (subcodecs_loop env clear.format subcodecByteCount nWidth nHeight DstFormat nXDst nYDst
      nDstWidth nDstHeight palette (Stream_GetRemainingLength s + 1)
      { s := s, suboffset := 0, TempSize := clear.TempSize, dst := dst }).map
      (fun st => ⟨{ clear with TempSize := st.TempSize }, st.s, st.dst⟩)

/-! ## resize_vbar_entry (lines 550-580) -/

/-- Function resize_vbar_entry (lines 550-580): the result and the entry it
leaves.  The cells from the old size up to the new count are set to zero. -/
def resize_vbar_entry (env : Env) (e : CLEAR_VBAR_ENTRY) : Bool × CLEAR_VBAR_ENTRY :=
  let e1 : CLEAR_VBAR_ENTRY :=
    if e.count > e.size then
      { size := e.count, count := e.count,
        pixels := some (fun i =>
          if e.size ≤ i ∧ i < e.count then 0 else (e.pixels.getD env.heap) i) }
    else e
  (if e1.pixels.isNone ∧ e1.size ≠ 0 then false else true, e1)

/-! ## clear_decompress_bands_data (lines 582-882) -/

/-- The loop variables of clear_decompress_bands_data together with the fields
of the context it reads and writes. -/
structure BandsState where
  s : wStream
  suboffset : Nat
  VBarStorageCursor : Nat
  VBarStorage : Nat → CLEAR_VBAR_ENTRY
  ShortVBarStorageCursor : Nat
  ShortVBarStorage : Nat → CLEAR_VBAR_ENTRY
  dst : Image

/-- The pixel loop of a SHORT_VBAR_CACHE_MISS (lines 738-751), `n` pixels left,
writing cell `y` of a buffer of capacity `size`. -/
def bands_read_short (env : Env) (format size : Nat) :
    Nat → Nat → wStream → (Nat → Nat) → Res ((Nat → Nat) × wStream)
  | 0, _, s, px => .ok (px, s)
  | n + 1, y, b :: g :: r :: s, px =>
    if env.WriteColor format (env.GetColor format (r % 256) (g % 256) (b % 256) 0xFF) then
      if y < size then
        bands_read_short env format size n (y + 1) s
          (Function.update px y (env.GetColor format (r % 256) (g % 256) (b % 256) 0xFF))
      else .fault .bufferWrite
    else .fail (px, s)
  | _ + 1, _, _, _ => .fault .streamRead

/-- A fill loop of the rebuild (lines 798-802 with `checked = false`, lines
833-839 with `checked = true`), `n` pixels left, `p` the index of dstBuffer in a
buffer of capacity `size`. -/
def vbar_fill (env : Env) (format color size : Nat) (checked : Bool) :
    Nat → Nat → (Nat → Nat) → Res (Nat × (Nat → Nat))
  | 0, p, px => .ok (p, px)
  | n + 1, p, px =>
    if env.WriteColor format color then
      if p < size then
        vbar_fill env format color size checked n (p + 1) (Function.update px p color)
      else .fault .bufferWrite
    else if checked then .fail (p, px)
    else vbar_fill env format color size checked n (p + 1) px

/-- The copy loop of the rebuild (lines 817-827), `n` pixels left, reading cell
`x` of the short entry. -/
def vbar_copy_short (env : Env) (format : Nat) (short : CLEAR_VBAR_ENTRY) (size : Nat) :
    Nat → Nat → Nat → (Nat → Nat) → Res (Nat × (Nat → Nat))
  | 0, _, p, px => .ok (p, px)
  | n + 1, x, p, px =>
    match short.pixels with
    | none => .fault .bufferRead
    | some sp =>
      if x < short.size then
        if env.WriteColor format (sp x) then
          if p < size then
            vbar_copy_short env format short size n (x + 1) (p + 1) (Function.update px p (sp x))
          else .fault .bufferWrite
        else .fail (p, px)
      else .fault .bufferRead

/-- The write-out loop of one column (lines 864-876), `n` rows left. -/
def bands_writeout (env : Env) (format DstFormat nXDstRel nYDstRel i : Nat)
    (vBarEntry : CLEAR_VBAR_ENTRY) : Nat → Nat → Image → Res Image
  | 0, _, dst => .ok dst
  | n + 1, y, dst =>
    match vBarEntry.pixels with
    | none => .fault .bufferRead
    | some px =>
      if y < vBarEntry.size then
        if env.WriteColor DstFormat (env.ConvertColor (px y) format DstFormat none) then
          bands_writeout env format DstFormat nXDstRel nYDstRel i vBarEntry n (y + 1)
            ((add32 nXDstRel i, add32 nYDstRel y,
              env.ConvertColor (px y) format DstFormat none) :: dst)
        else .fail dst
      else .fault .bufferRead

/-- The case SHORT_VBAR_CACHE_HIT (lines 677-696): the state, vBarYOn,
vBarShortPixelCount and the short entry (of a FALSE result only the state is
used). -/
def bands_short_hit (st : BandsState) (vBarHeader : Nat) :
    Res (BandsState × Nat × Nat × CLEAR_VBAR_ENTRY) :=
  let vBarIndex := vBarHeader &&& 0x3FFF
  let vBarShortEntry := st.ShortVBarStorage vBarIndex
  match st.s with
  | yOn :: s1 =>
    .ok ({ st with s := s1, suboffset := add32 st.suboffset 1 }, yOn % 256,
         vBarShortEntry.count, vBarShortEntry)
  | _ => .fail (st, 0, 0, vBarShortEntry)

/-- The case SHORT_VBAR_CACHE_MISS (lines 700-756): the state, vBarYOn,
vBarShortPixelCount and the short entry (of a FALSE result only the state is
used). -/
def bands_short_miss (env : Env) (format : Nat) (st : BandsState) (vBarHeader : Nat) :
    Res (BandsState × Nat × Nat × CLEAR_VBAR_ENTRY) :=
  let vBarYOn := vBarHeader &&& 0xFF
  let vBarYOff := (vBarHeader >>> 8) &&& 0x3F
  let old := st.ShortVBarStorage st.ShortVBarStorageCursor
  if vBarYOff < vBarYOn then .fail (st, 0, 0, old)
  else
    let vBarShortPixelCount := vBarYOff - vBarYOn
    if vBarShortPixelCount > 52 then .fail (st, 0, 0, old)
    else if Stream_GetRemainingLength st.s < vBarShortPixelCount * 3 then .fail (st, 0, 0, old)
    else if st.ShortVBarStorageCursor ≥ CLEARCODEC_VBAR_SHORT_SIZE then .fail (st, 0, 0, old)
    else
      let r := resize_vbar_entry env { old with count := vBarShortPixelCount }
      let put (e : CLEAR_VBAR_ENTRY) : BandsState :=
        { st with ShortVBarStorage :=
            Function.update st.ShortVBarStorage st.ShortVBarStorageCursor e }
      if r.1 = false then .fail (put r.2, 0, 0, r.2)
      else
        match bands_read_short env format r.2.size vBarShortPixelCount 0 st.s
            (r.2.pixels.getD env.heap) with
        | .fault k => .fault k
        | .fail (px, s1) =>
          .fail ({ put { r.2 with pixels := r.2.pixels.map (fun _ => px) } with s := s1 }, 0, 0,
                 { r.2 with pixels := r.2.pixels.map (fun _ => px) })
        | .ok (px, s1) =>
          let e : CLEAR_VBAR_ENTRY := { r.2 with pixels := r.2.pixels.map (fun _ => px) }
          .ok ({ put e with
                  s := s1,
                  suboffset := add32 st.suboffset (vBarShortPixelCount * 3),
                  ShortVBarStorageCursor :=
                    (st.ShortVBarStorageCursor + 1) % CLEARCODEC_VBAR_SHORT_SIZE },
               vBarYOn, vBarShortPixelCount, e)

/-- The three zones of the rebuild (lines 790-839) on the pixel buffer `px` of
capacity `size`. -/
def vbar_zones (env : Env) (format colorBkg vBarPixelCount vBarYOn vBarShortPixelCount : Nat)
    (vBarShortEntry : CLEAR_VBAR_ENTRY) (size : Nat) (px : Nat → Nat) :
    Res (Nat × (Nat → Nat)) :=
  let count1 := if 0 + vBarYOn > vBarPixelCount then
      (if vBarPixelCount > 0 then vBarPixelCount - 0 else 0) else vBarYOn
  match vbar_fill env format colorBkg size false count1 0 px with
  | .fault k => .fault k
  | .fail r => .fail r
  | .ok (p1, px1) =>
    let count2 := if vBarYOn + vBarShortPixelCount > vBarPixelCount then
        (if vBarPixelCount > vBarYOn then vBarPixelCount - vBarYOn else 0)
      else vBarShortPixelCount
    match vbar_copy_short env format vBarShortEntry size count2 0 p1 px1 with
    | .fault k => .fault k
    | .fail r => .fail r
    | .ok (p2, px2) =>
      let count3 := if vBarPixelCount > vBarYOn + vBarShortPixelCount then
          vBarPixelCount - (vBarYOn + vBarShortPixelCount) else 0
      vbar_fill env format colorBkg size true count3 p2 px2

/-- The rebuild of a full VBar (lines 769-844): the state and the new vBarEntry
(of a FALSE result only the state is used). -/
def bands_rebuild (env : Env) (format colorBkg vBarHeight : Nat) (st : BandsState)
    (vBarYOn vBarShortPixelCount : Nat) (vBarShortEntry : CLEAR_VBAR_ENTRY) :
    Res (BandsState × CLEAR_VBAR_ENTRY) :=
  if st.VBarStorageCursor ≥ CLEARCODEC_VBAR_SIZE then .fail (st, vBarShortEntry)
  else
    let r := resize_vbar_entry env
      { (st.VBarStorage st.VBarStorageCursor) with count := vBarHeight }
    let put (e : CLEAR_VBAR_ENTRY) : BandsState :=
      { st with VBarStorage := Function.update st.VBarStorage st.VBarStorageCursor e }
    if r.1 = false then .fail (put r.2, r.2)
    else
      match r.2.pixels with
      | none => .fault .bufferWrite
      | some px =>
        match vbar_zones env format colorBkg vBarHeight vBarYOn vBarShortPixelCount
            vBarShortEntry r.2.size px with
        | .fault k => .fault k
        | .fail (_, px1) => .fail (put { r.2 with pixels := some px1 }, { r.2 with pixels := some px1 })
        | .ok (_, px1) =>
          let e : CLEAR_VBAR_ENTRY := { r.2 with pixels := some px1, count := vBarHeight }
          .ok ({ put e with
                  VBarStorageCursor := (st.VBarStorageCursor + 1) % CLEARCODEC_VBAR_SIZE }, e)

/-- The resolution of one vBarHeader (lines 675-844): the state and vBarEntry
(of a FALSE result only the state is used). -/
def bands_resolve (env : Env) (format colorBkg vBarHeight : Nat) (st : BandsState)
    (vBarHeader : Nat) : Res (BandsState × CLEAR_VBAR_ENTRY) :=
  let update (r : Res (BandsState × Nat × Nat × CLEAR_VBAR_ENTRY)) :
      Res (BandsState × CLEAR_VBAR_ENTRY) :=
    match r with
    | .fault k => .fault k
    | .fail (st1, _, _, e) => .fail (st1, e)
    | .ok (st1, vBarYOn, vBarShortPixelCount, e) =>
      bands_rebuild env format colorBkg vBarHeight st1 vBarYOn vBarShortPixelCount e
  if vBarHeader &&& 0xC000 = 0x4000 then update (bands_short_hit st vBarHeader)
  else if vBarHeader &&& 0xC000 = 0x0000 then update (bands_short_miss env format st vBarHeader)
  else if vBarHeader &&& 0x8000 = 0x8000 then .ok (st, st.VBarStorage (vBarHeader &&& 0x7FFF))
  else .fail (st, st.VBarStorage 0)

/-- One pass of the column loop (lines 652-877) for column `i`. -/
def bands_column (env : Env) (format nWidth nHeight DstFormat nXDst nYDst : Nat)
    (xStart yStart yEnd colorBkg i : Nat) (st : BandsState) : Res BandsState :=
  match st.s with
  | h0 :: h1 :: s1 =>
    let vBarHeader := le16 h0 h1
    let st1 : BandsState := { st with s := s1, suboffset := add32 st.suboffset 2 }
    let vBarHeight := yEnd - yStart + 1
    if vBarHeight > 52 then .fail st1
    else
      match bands_resolve env format colorBkg vBarHeight st1 vBarHeader with
      | .fault k => .fault k
      | .fail (st2, _) => .fail st2
      | .ok (st2, vBarEntry) =>
        if vBarEntry.count ≠ vBarHeight then .fail st2
        else if i < nWidth then
          (bands_writeout env format DstFormat (add32 nXDst xStart) (add32 nYDst yStart) i
            vBarEntry (if vBarEntry.count > nHeight then nHeight else vBarEntry.count) 0
            st2.dst).map (fun d => { st2 with dst := d })
        else .ok st2
  | _ => .fail st

/-- The column loop (lines 650-878) from column `i` on, `n` columns left. -/
def bands_columns (env : Env) (format nWidth nHeight DstFormat nXDst nYDst : Nat)
    (xStart yStart yEnd colorBkg : Nat) : Nat → Nat → BandsState → Res BandsState
  | 0, _, st => .ok st
  | n + 1, i, st =>
    match bands_column env format nWidth nHeight DstFormat nXDst nYDst xStart yStart yEnd
        colorBkg i st with
    | .ok st1 =>
      bands_columns env format nWidth nHeight DstFormat nXDst nYDst xStart yStart yEnd colorBkg
        n (i + 1) st1
    | .fail st1 => .fail st1
    | .fault k => .fault k

/-- The band loop (lines 603-879).  Every pass takes at least eleven bytes from
the stream, so the fuel `Stream_GetRemainingLength(s) + 1` is never used up. -/
def bands_loop (env : Env) (format bandsByteCount nWidth nHeight DstFormat nXDst nYDst : Nat) :
    Nat → BandsState → Res BandsState
  | 0, _ => .fault .outOfFuel
  | fuel + 1, st =>
    if st.suboffset < bandsByteCount then
      match st.s with
      | x0 :: x1 :: x2 :: x3 :: y0 :: y1 :: y2 :: y3 :: b :: g :: r :: s1 =>
        let xStart := le16 x0 x1
        let xEnd := le16 x2 x3
        let yStart := le16 y0 y1
        let yEnd := le16 y2 y3
        let st1 : BandsState := { st with s := s1, suboffset := add32 st.suboffset 11 }
        let colorBkg := env.GetColor format (r % 256) (g % 256) (b % 256) 0xFF
        if xEnd < xStart then .fail st1
        else if yEnd < yStart then .fail st1
        else
          match bands_columns env format nWidth nHeight DstFormat nXDst nYDst xStart yStart yEnd
              colorBkg (xEnd - xStart + 1) 0 st1 with
          | .ok st2 =>
            bands_loop env format bandsByteCount nWidth nHeight DstFormat nXDst nYDst fuel st2
          | .fail st2 => .fail st2
          | .fault k => .fault k
      | _ => .fail st
    else .ok st

/-- Function clear_decompress_bands_data (lines 582-882). -/
def clear_decompress_bands_data (env : Env) (clear : CLEAR_CONTEXT) (s : wStream)
    (bandsByteCount nWidth nHeight : Nat) (dst : Image) (DstFormat nXDst nYDst : Nat) :
    Res St :=
  if Stream_GetRemainingLength s < bandsByteCount then .fail ⟨clear, s, dst⟩
  else
    (bands_loop env clear.format bandsByteCount nWidth nHeight DstFormat nXDst nYDst
      (Stream_GetRemainingLength s + 1)
      { s := s, suboffset := 0,
        VBarStorageCursor := clear.VBarStorageCursor, VBarStorage := clear.VBarStorage,
        ShortVBarStorageCursor := clear.ShortVBarStorageCursor,
        ShortVBarStorage := clear.ShortVBarStorage, dst := dst }).map
      (fun st =>
        ⟨{ clear with
            VBarStorageCursor := st.VBarStorageCursor, VBarStorage := st.VBarStorage,
            ShortVBarStorageCursor := st.ShortVBarStorageCursor,
            ShortVBarStorage := st.ShortVBarStorage }, st.s, st.dst⟩)

/-! ## clear_decompress_glyph_data (lines 884-998) -/

/-- Function clear_decompress_glyph_data (lines 884-998).  The pixel buffer of a
glyph entry has `size * 4` bytes (line 970). -/
def clear_decompress_glyph_data (env : Env) (clear : CLEAR_CONTEXT) (s : wStream)
    (glyphFlags nWidth nHeight : Nat) (dst : Image)
    (DstFormat nXDst nYDst nDstWidth nDstHeight : Nat) (palette : Option gdiPalette) :
    Res St :=
  if glyphFlags &&& CLEARCODEC_FLAG_GLYPH_HIT ≠ 0 ∧
      glyphFlags &&& CLEARCODEC_FLAG_GLYPH_INDEX = 0 then .fail ⟨clear, s, dst⟩
  else if glyphFlags &&& CLEARCODEC_FLAG_GLYPH_INDEX = 0 then .ok ⟨clear, s, dst⟩
  else if mul32 nWidth nHeight > 1024 * 1024 then .fail ⟨clear, s, dst⟩
  else
    match s with
    | g0 :: g1 :: s1 =>
      let glyphIndex := le16 g0 g1
      if glyphIndex ≥ 4000 then .fail ⟨clear, s1, dst⟩
      else if glyphFlags &&& CLEARCODEC_FLAG_GLYPH_HIT ≠ 0 then
        let glyphEntry := clear.GlyphCache glyphIndex
        match glyphEntry.pixels with
        | none => .fail ⟨clear, s1, dst⟩
        | some glyphData =>
          if mul32 nWidth nHeight > glyphEntry.count then .fail ⟨clear, s1, dst⟩
          else
            (convert_color env dst DstFormat nXDst nYDst nWidth nHeight
              (cellSource (env.GetBytesPerPixel clear.format) (mul32 glyphEntry.size 4) glyphData)
              (mul32 nWidth (env.GetBytesPerPixel clear.format)) clear.format
              nDstWidth nDstHeight palette).map (fun d => ⟨clear, s1, d⟩)
      else
        let old := clear.GlyphCache glyphIndex
        let glyphEntry : CLEAR_GLYPH_ENTRY :=
          if mul32 nWidth nHeight > old.size then
            { size := mul32 nWidth nHeight, count := mul32 nWidth nHeight,
              pixels := some (old.pixels.getD env.heap) }
          else { old with count := mul32 nWidth nHeight }
        let clear1 : CLEAR_CONTEXT :=
          { clear with GlyphCache := Function.update clear.GlyphCache glyphIndex glyphEntry }
        match glyphEntry.pixels with
        | none => .fail ⟨clear1, s1, dst⟩
        | some glyphData =>
          (convert_color env dst DstFormat nXDst nYDst nWidth nHeight
            (cellSource (env.GetBytesPerPixel clear.format) (mul32 glyphEntry.size 4) glyphData)
            (mul32 nWidth (env.GetBytesPerPixel clear.format)) clear.format
            nDstWidth nDstHeight palette).map (fun d => ⟨clear1, s1, d⟩)
    | _ => .fail ⟨clear, s, dst⟩

/-! ## clear_decompress (lines 1000-1121) -/

/-- What a call of clear_decompress leaves: the return value, the context and
the destination (none for a NULL pDstData). -/
structure Decoded where
  rc : Int
  clear : CLEAR_CONTEXT
  dst : Option Image

/-- The sequence check (lines 1039-1050): FALSE when the frame is refused
(`goto fail` of line 1047), else TRUE with the context after line 1050. -/
def clear_decompress_seq (clear : CLEAR_CONTEXT) (seqNumber : Nat) : Res CLEAR_CONTEXT :=
  let clear1 : CLEAR_CONTEXT :=
    if clear.seqNumber = 0 ∧ seqNumber ≠ 0 then { clear with seqNumber := seqNumber } else clear
  if seqNumber ≠ clear1.seqNumber then .fail clear1
  else .ok { clear1 with seqNumber := (seqNumber + 1) % 256 }

/-- The cache reset (lines 1052-1056). -/
def clear_decompress_cache_reset (clear : CLEAR_CONTEXT) (glyphFlags : Nat) : CLEAR_CONTEXT :=
  if glyphFlags &&& CLEARCODEC_FLAG_CACHE_RESET ≠ 0 then
    { clear with VBarStorageCursor := 0, ShortVBarStorageCursor := 0 }
  else clear

/-- The three payloads (lines 1083-1114) after the composition payload header. -/
def clear_decompress_payloads (env : Env) (st : St)
    (residualByteCount bandsByteCount subcodecByteCount nWidth nHeight : Nat)
    (DstFormat nXDst nYDst nDstWidth nDstHeight : Nat) (palette : Option gdiPalette) :
    Res St :=
  let r1 : Res St :=
    if residualByteCount > 0 then
      clear_decompress_residual_data env st.clear st.s residualByteCount nWidth nHeight st.dst
        DstFormat nXDst nYDst nDstWidth nDstHeight palette
    else .ok st
  match r1 with
  | .fault k => .fault k
  | .fail st1 => .fail st1
  | .ok st1 =>
    let r2 : Res St :=
      if bandsByteCount > 0 then
        clear_decompress_bands_data env st1.clear st1.s bandsByteCount nWidth nHeight st1.dst
          DstFormat nXDst nYDst
      else .ok st1
    match r2 with
    | .fault k => .fault k
    | .fail st2 => .fail st2
    | .ok st2 =>
      if subcodecByteCount > 0 then
        clear_decompress_subcodecs_data env st2.clear st2.s subcodecByteCount nWidth nHeight
          st2.dst DstFormat nXDst nYDst nDstWidth nDstHeight palette
      else .ok st2

/-- The part of clear_decompress after the glyph stage (lines 1067-1121). -/
def clear_decompress_composition (env : Env) (st : St) (glyphFlags nWidth nHeight : Nat)
    (DstFormat nXDst nYDst nDstWidth nDstHeight : Nat) (palette : Option gdiPalette) :
    Except Fault Decoded :=
  match st.s with
  | r0 :: r1 :: r2 :: r3 :: b0 :: b1 :: b2 :: b3 :: c0 :: c1 :: c2 :: c3 :: s1 =>
    match clear_decompress_payloads env { st with s := s1 } (le32 r0 r1 r2 r3)
        (le32 b0 b1 b2 b3) (le32 c0 c1 c2 c3) nWidth nHeight DstFormat nXDst nYDst
        nDstWidth nDstHeight palette with
    | .fault k => .error k
    | .fail st1 => .ok ⟨-1, st1.clear, some st1.dst⟩
    | .ok st1 => .ok ⟨0, st1.clear, some st1.dst⟩
  | _ =>
    if glyphFlags &&& (CLEARCODEC_FLAG_GLYPH_HIT ||| CLEARCODEC_FLAG_GLYPH_INDEX) =
        (CLEARCODEC_FLAG_GLYPH_HIT ||| CLEARCODEC_FLAG_GLYPH_INDEX) then
      .ok ⟨0, st.clear, some st.dst⟩
    else .ok ⟨-1, st.clear, some st.dst⟩

/-- Function clear_decompress (lines 1000-1121); pSrcData holds SrcSize bytes. -/
def clear_decompress (env : Env) (clear : CLEAR_CONTEXT) (pSrcData : List Nat)
    (nWidth nHeight : Nat) (pDstData : Option Image)
    (DstFormat nXDst nYDst nDstWidth nDstHeight : Nat) (palette : Option gdiPalette) :
    Except Fault Decoded :=
  match pDstData with
  | none => .ok ⟨-1002, clear, none⟩
  | some dst =>
    if nDstWidth = 0 ∨ nDstHeight = 0 then .ok ⟨-1022, clear, some dst⟩
    else if nWidth > 0xFFFF ∨ nHeight > 0xFFFF then .ok ⟨-1004, clear, some dst⟩
    else
      match pSrcData with
      | gf :: sq :: s =>
        let glyphFlags := gf % 256
        let seqNumber := sq % 256
        match clear_decompress_seq clear seqNumber with
        | .fault k => .error k
        | .fail clear1 => .ok ⟨-1, clear1, some dst⟩
        | .ok clear1 =>
          match clear_decompress_glyph_data env (clear_decompress_cache_reset clear1 glyphFlags)
              s glyphFlags nWidth nHeight dst DstFormat nXDst nYDst nDstWidth nDstHeight
              palette with
          | .fault k => .error k
          | .fail st => .ok ⟨-1, st.clear, some st.dst⟩
          | .ok st =>
            clear_decompress_composition env st glyphFlags nWidth nHeight DstFormat nXDst nYDst
              nDstWidth nDstHeight palette
      | _ => .ok ⟨-1, clear, some dst⟩

/-! ## clear_context_reset and clear_context_new (lines 1129-1168) -/

/-- Function clear_context_reset (lines 1129-1138) on a non-NULL context. -/
def clear_context_reset (clear : CLEAR_CONTEXT) : CLEAR_CONTEXT :=
  { clear with seqNumber := 0, VBarStorageCursor := 0, ShortVBarStorageCursor := 0 }

/-- Function clear_context_new (lines 1139-1168): calloc clears every field, the
scratch buffer of 512 * 512 * 4 bytes is not initialised. -/
def clear_context_new (env : Env) : CLEAR_CONTEXT :=
  clear_context_reset
    { seqNumber := 0
      format := env.PIXEL_FORMAT_BGRX32
      TempBuffer := env.heap
      TempSize := 512 * 512 * 4
      GlyphCache := fun _ => { size := 0, count := 0, pixels := none }
      VBarStorageCursor := 0
      VBarStorage := fun _ => { size := 0, count := 0, pixels := none }
      ShortVBarStorageCursor := 0
      ShortVBarStorage := fun _ => { size := 0, count := 0, pixels := none } }

/-! ## A concrete pixel-format library for the evaluation of frames -/

/-- Modelled from the spec: the pixel-format collaborator of section 6, which is
not among the sources, in a concrete form for the evaluation of frames: a
format is named by its number of bits per pixel (BGRX32 is 32, BGR24 is 24),
a colour is the number `a r g b` in base 256, a pixel is read from its bytes
in little-endian order, ConvertColor keeps the colour, every format can be
written, the NSCodec decoder accepts every tile and writes nothing, and memory
that was never written holds 0xCDCDCDCD. -/
def refEnv : Env where
  PIXEL_FORMAT_BGRX32 := 32
  PIXEL_FORMAT_BGR24 := 24
  GetBytesPerPixel := fun f => (f + 7) / 8
  GetColor := fun _ r g b a => 16777216 * a + 65536 * r + 256 * g + b
  ConvertColor := fun c _ _ _ => c
  ReadColor := fun bytes _ => bytes.foldr (fun b acc => b + 256 * acc) 0
  WriteColor := fun _ _ => true
  nsc_process_message := fun _ _ _ _ _ _ dst => (true, dst)
  heap := fun _ => 0xCDCDCDCD

/-- What can be observed of a call of clear_decompress without looking into the
caches: the return value, seqNumber, the two cursors and the destination. -/
structure View where
  rc : Int
  seqNumber : Nat
  VBarStorageCursor : Nat
  ShortVBarStorageCursor : Nat
  dst : Option Image
  deriving DecidableEq, Repr

/-- The observable part of what a call of clear_decompress leaves. -/
def Decoded.view (d : Decoded) : View :=
  ⟨d.rc, d.clear.seqNumber, d.clear.VBarStorageCursor, d.clear.ShortVBarStorageCursor, d.dst⟩

/-- The context a call of clear_decompress leaves for the next call; the context
`clear0` when the call ran into undefined behaviour. -/
def Decoded.context (r : Except Fault Decoded) (clear0 : CLEAR_CONTEXT) : CLEAR_CONTEXT :=
  match r with
  | .ok d => d.clear
  | .error _ => clear0

/-- A property of the state an outcome carries; nothing is said of a fault. -/
def Res.Holds {σ : Type} (P : σ → Prop) : Res σ → Prop
  | .ok st => P st
  | .fail st => P st
  | .fault _ => True

/-- The pixel buffer of a glyph entry after a call is the buffer it was before,
or, for an entry that had none, fresh heap memory. -/
def GlyphPixelsKept (env : Env) (c c1 : CLEAR_CONTEXT) : Prop :=
  ∀ g, (c1.GlyphCache g).pixels = (c.GlyphCache g).pixels ∨
    ((c.GlyphCache g).pixels = none ∧ (c1.GlyphCache g).pixels = some env.heap)

/-! ## Invariants of the VBar storages and reachable contexts -/

/-- The state of an outcome TRUE, none for FALSE and for a fault. -/
def Res.toOption {σ : Type} : Res σ → Option σ
  | .ok st => some st
  | .fail _ => none
  | .fault _ => none

/-- A property of the two VBar storages and their cursors, in the order
VBarStorageCursor, VBarStorage, ShortVBarStorageCursor, ShortVBarStorage. -/
abbrev VBarProp := Nat → (Nat → CLEAR_VBAR_ENTRY) → Nat → (Nat → CLEAR_VBAR_ENTRY) → Prop

/-- The VBar storages and cursors of a context have the property `P`. -/
def CLEAR_CONTEXT.Sat (P : VBarProp) (c : CLEAR_CONTEXT) : Prop :=
  P c.VBarStorageCursor c.VBarStorage c.ShortVBarStorageCursor c.ShortVBarStorage

/-- The VBar storages and cursors of the bands decoder have the property `P`. -/
def BandsState.Sat (P : VBarProp) (st : BandsState) : Prop :=
  P st.VBarStorageCursor st.VBarStorage st.ShortVBarStorageCursor st.ShortVBarStorage

/-- The property `P` is kept by the three places of clear.c that write a VBar
storage or a cursor: the case SHORT_VBAR_CACHE_MISS, the rebuild, and the resets
of the cursors (lines 1052-1056 and clear_context_reset). -/
structure VBarInvariant (env : Env) (P : VBarProp) : Prop where
  miss : ∀ (format : Nat) (st : BandsState) (vBarHeader : Nat), st.Sat P →
    (bands_short_miss env format st vBarHeader).Holds (fun r => r.1.Sat P)
  rebuild : ∀ (format colorBkg vBarHeight : Nat) (st : BandsState)
    (vBarYOn vBarShortPixelCount : Nat) (vBarShortEntry : CLEAR_VBAR_ENTRY), st.Sat P →
    (bands_rebuild env format colorBkg vBarHeight st vBarYOn vBarShortPixelCount
      vBarShortEntry).Holds (fun r => r.1.Sat P)
  reset : ∀ (c : Nat) (v : Nat → CLEAR_VBAR_ENTRY) (sc : Nat) (sv : Nat → CLEAR_VBAR_ENTRY),
    P c v sc sv → P 0 v 0 sv

/-- The cursors lie inside their storages. -/
def CursorsInRange : VBarProp :=
  fun c _ sc _ => c < CLEARCODEC_VBAR_SIZE ∧ sc < CLEARCODEC_VBAR_SHORT_SIZE

/-- An entry whose count does not exceed its capacity and that has a pixel
buffer unless its capacity is 0. -/
def VBarEntryAllocated (e : CLEAR_VBAR_ENTRY) : Prop :=
  e.count ≤ e.size ∧ (e.size ≠ 0 → e.pixels ≠ none)

/-- Every entry of VBarStorage is allocated. -/
def VBarStorageAllocated : VBarProp :=
  fun _ v _ _ => ∀ i, VBarEntryAllocated (v i)

/-- The contexts a program can hold: the one clear_context_new returns, and
every context that clear_context_reset or a call of clear_decompress (whatever
its arguments and its return value) leaves from such a context. -/
inductive Reachable (env : Env) : CLEAR_CONTEXT → Prop where
  | new : Reachable env (clear_context_new env)
  | reset (c : CLEAR_CONTEXT) : Reachable env c → Reachable env (clear_context_reset c)
  | decompress (c : CLEAR_CONTEXT) (pSrcData : List Nat) (nWidth nHeight : Nat)
      (pDstData : Option Image) (DstFormat nXDst nYDst nDstWidth nDstHeight : Nat)
      (palette : Option gdiPalette) (d : Decoded) :
      Reachable env c →
      clear_decompress env c pSrcData nWidth nHeight pDstData DstFormat nXDst nYDst
        nDstWidth nDstHeight palette = .ok d →
      Reachable env d.clear

/-! ## The specification of the RLEX index sequence -/

theorem Res.holds_map {σ τ : Type} (f : σ → τ) (P : τ → Prop) (r : Res σ) :
    (r.map f).Holds P ↔ r.Holds (fun a => P (f a)) := by
  cases r <;> simp [Res.map, Res.Holds]

theorem Res.holds_of_forall {σ : Type} {P : σ → Prop} (r : Res σ) (h : ∀ a, P a) :
    r.Holds P := by
  cases r <;> simp [Res.Holds, h]

theorem Res.holds_mono {σ : Type} {P Q : σ → Prop} (r : Res σ) (h : ∀ a, P a → Q a)
    (hr : r.Holds P) : r.Holds Q := by
  cases r <;> simp_all [Res.Holds]

/-- The glyph stage writes no field of the context but GlyphCache. -/
theorem glyph_data_frame (env : Env) (clear : CLEAR_CONTEXT) (s : wStream)
    (glyphFlags nWidth nHeight : Nat) (dst : Image)
    (DstFormat nXDst nYDst nDstWidth nDstHeight : Nat) (palette : Option gdiPalette) :
    (clear_decompress_glyph_data env clear s glyphFlags nWidth nHeight dst DstFormat nXDst nYDst
      nDstWidth nDstHeight palette).Holds
      (fun st => ∃ gc, st.clear = { clear with GlyphCache := gc }) := by
  unfold clear_decompress_glyph_data
  try dsimp only
  repeat' split
  all_goals first
    | exact ⟨_, rfl⟩
    | (rw [Res.holds_map]; exact Res.holds_of_forall _ (fun _ => ⟨_, rfl⟩))

/-- The residual stage writes no field of the context but TempBuffer. -/
theorem residual_data_frame (env : Env) (clear : CLEAR_CONTEXT) (s : wStream)
    (residualByteCount nWidth nHeight : Nat) (dst : Image)
    (DstFormat nXDst nYDst nDstWidth nDstHeight : Nat) (palette : Option gdiPalette) :
    (clear_decompress_residual_data env clear s residualByteCount nWidth nHeight dst DstFormat
      nXDst nYDst nDstWidth nDstHeight palette).Holds
      (fun st => ∃ tb, st.clear = { clear with TempBuffer := tb }) := by
  unfold clear_decompress_residual_data
  try dsimp only
  repeat' split
  all_goals first
    | trivial
    | exact ⟨_, rfl⟩
    | (rw [Res.holds_map]; exact Res.holds_of_forall _ (fun _ => ⟨_, rfl⟩))

/-- The bands stage writes no field of the context but the two VBar storages
and their cursors. -/
theorem bands_data_frame (env : Env) (clear : CLEAR_CONTEXT) (s : wStream)
    (bandsByteCount nWidth nHeight : Nat) (dst : Image) (DstFormat nXDst nYDst : Nat) :
    (clear_decompress_bands_data env clear s bandsByteCount nWidth nHeight dst DstFormat
      nXDst nYDst).Holds
      (fun st => ∃ c v sc sv, st.clear =
        { clear with VBarStorageCursor := c, VBarStorage := v,
                     ShortVBarStorageCursor := sc, ShortVBarStorage := sv }) := by
  unfold clear_decompress_bands_data
  try dsimp only
  repeat' split
  all_goals first
    | exact ⟨_, _, _, _, rfl⟩
    | (rw [Res.holds_map]; exact Res.holds_of_forall _ (fun _ => ⟨_, _, _, _, rfl⟩))

/-- The subcodec stage writes no field of the context but TempSize. -/
theorem subcodecs_data_frame (env : Env) (clear : CLEAR_CONTEXT) (s : wStream)
    (subcodecByteCount nWidth nHeight : Nat) (dst : Image)
    (DstFormat nXDst nYDst nDstWidth nDstHeight : Nat) (palette : Option gdiPalette) :
    (clear_decompress_subcodecs_data env clear s subcodecByteCount nWidth nHeight dst DstFormat
      nXDst nYDst nDstWidth nDstHeight palette).Holds
      (fun st => ∃ ts, st.clear = { clear with TempSize := ts }) := by
  unfold clear_decompress_subcodecs_data
  try dsimp only
  repeat' split
  all_goals first
    | exact ⟨_, rfl⟩
    | (rw [Res.holds_map]; exact Res.holds_of_forall _ (fun _ => ⟨_, rfl⟩))

theorem Res.holds_ok {σ : Type} {P : σ → Prop} {r : Res σ} {a : σ} (h : r.Holds P)
    (e : r = .ok a) : P a := by
  subst e; exact h

theorem Res.holds_fail {σ : Type} {P : σ → Prop} {r : Res σ} {a : σ} (h : r.Holds P)
    (e : r = .fail a) : P a := by
  subst e; exact h

/-- The three payloads write neither seqNumber nor format nor GlyphCache. -/
theorem payloads_frame (env : Env) (st : St)
    (residualByteCount bandsByteCount subcodecByteCount nWidth nHeight : Nat)
    (DstFormat nXDst nYDst nDstWidth nDstHeight : Nat) (palette : Option gdiPalette) :
    (clear_decompress_payloads env st residualByteCount bandsByteCount subcodecByteCount
      nWidth nHeight DstFormat nXDst nYDst nDstWidth nDstHeight palette).Holds
      (fun st1 => st1.clear.seqNumber = st.clear.seqNumber ∧ st1.clear.format = st.clear.format ∧
        st1.clear.GlyphCache = st.clear.GlyphCache) := by
  have hres : ∀ (a : St), (if residualByteCount > 0 then
      clear_decompress_residual_data env st.clear st.s residualByteCount nWidth nHeight st.dst
        DstFormat nXDst nYDst nDstWidth nDstHeight palette else Res.ok st) = .ok a ∨
      (if residualByteCount > 0 then
      clear_decompress_residual_data env st.clear st.s residualByteCount nWidth nHeight st.dst
        DstFormat nXDst nYDst nDstWidth nDstHeight palette else Res.ok st) = .fail a →
      a.clear.seqNumber = st.clear.seqNumber ∧ a.clear.format = st.clear.format ∧
        a.clear.GlyphCache = st.clear.GlyphCache := by
    intro a h
    split at h
    · have := residual_data_frame env st.clear st.s residualByteCount nWidth nHeight st.dst
        DstFormat nXDst nYDst nDstWidth nDstHeight palette
      rcases h with h | h
      · obtain ⟨tb, e⟩ := Res.holds_ok this h
        simp [e]
      · obtain ⟨tb, e⟩ := Res.holds_fail this h
        simp [e]
    · simp at h; subst h; simp
  have hbands : ∀ (b a : St), (if bandsByteCount > 0 then
      clear_decompress_bands_data env b.clear b.s bandsByteCount nWidth nHeight b.dst
        DstFormat nXDst nYDst else Res.ok b) = .ok a ∨
      (if bandsByteCount > 0 then
      clear_decompress_bands_data env b.clear b.s bandsByteCount nWidth nHeight b.dst
        DstFormat nXDst nYDst else Res.ok b) = .fail a →
      a.clear.seqNumber = b.clear.seqNumber ∧ a.clear.format = b.clear.format ∧
        a.clear.GlyphCache = b.clear.GlyphCache := by
    intro b a h
    split at h
    · have := bands_data_frame env b.clear b.s bandsByteCount nWidth nHeight b.dst
        DstFormat nXDst nYDst
      rcases h with h | h
      · obtain ⟨_, _, _, _, e⟩ := Res.holds_ok this h
        simp [e]
      · obtain ⟨_, _, _, _, e⟩ := Res.holds_fail this h
        simp [e]
    · simp at h; subst h; simp
  have hsub : ∀ (b : St), (if subcodecByteCount > 0 then
      clear_decompress_subcodecs_data env b.clear b.s subcodecByteCount nWidth nHeight b.dst
        DstFormat nXDst nYDst nDstWidth nDstHeight palette else Res.ok b).Holds
      (fun a => a.clear.seqNumber = b.clear.seqNumber ∧ a.clear.format = b.clear.format ∧
        a.clear.GlyphCache = b.clear.GlyphCache) := by
    intro b
    split
    · refine Res.holds_mono _ ?_ (subcodecs_data_frame env b.clear b.s subcodecByteCount nWidth
        nHeight b.dst DstFormat nXDst nYDst nDstWidth nDstHeight palette)
      rintro a ⟨ts, e⟩
      simp [e]
    · simp [Res.Holds]
  unfold clear_decompress_payloads
  dsimp only
  split
  · trivial
  · rename_i st1 h1
    exact hres st1 (Or.inr h1)
  · rename_i st1 h1
    have e1 := hres st1 (Or.inl h1)
    split
    · trivial
    · rename_i st2 h2
      have e2 := hbands st1 st2 (Or.inr h2)
      exact ⟨e2.1.trans e1.1, e2.2.1.trans e1.2.1, e2.2.2.trans e1.2.2⟩
    · rename_i st2 h2
      have e2 := hbands st1 st2 (Or.inl h2)
      refine Res.holds_mono _ ?_ (hsub st2)
      rintro a ⟨h1, h2, h3⟩
      exact ⟨h1.trans (e2.1.trans e1.1), h2.trans (e2.2.1.trans e1.2.1),
        h3.trans (e2.2.2.trans e1.2.2)⟩

/-- What the sequence check leaves in seqNumber when it accepts a frame. -/
theorem seq_ok_seqNumber (clear clear1 : CLEAR_CONTEXT) (seqNumber : Nat)
    (h : clear_decompress_seq clear seqNumber = .ok clear1) :
    clear1.seqNumber = (seqNumber + 1) % 256 := by
  unfold clear_decompress_seq at h
  dsimp only at h
  split_ifs at h <;> (cases h; rfl)

/-- The cache reset does not write seqNumber. -/
theorem cache_reset_seqNumber (clear : CLEAR_CONTEXT) (glyphFlags : Nat) :
    (clear_decompress_cache_reset clear glyphFlags).seqNumber = clear.seqNumber := by
  unfold clear_decompress_cache_reset
  split <;> rfl

/-- The part of a frame after the glyph stage does not write seqNumber. -/
theorem composition_seqNumber (env : Env) (st : St) (glyphFlags nWidth nHeight : Nat)
    (DstFormat nXDst nYDst nDstWidth nDstHeight : Nat) (palette : Option gdiPalette)
    (d : Decoded)
    (h : clear_decompress_composition env st glyphFlags nWidth nHeight DstFormat nXDst nYDst
      nDstWidth nDstHeight palette = .ok d) :
    d.clear.seqNumber = st.clear.seqNumber := by
  unfold clear_decompress_composition at h
  split at h
  · rename_i r0 r1 r2 r3 b0 b1 b2 b3 c0 c1 c2 c3 s1 hs
    have hp := payloads_frame env { st with s := s1 } (le32 r0 r1 r2 r3)
        (le32 b0 b1 b2 b3) (le32 c0 c1 c2 c3) nWidth nHeight DstFormat nXDst nYDst
        nDstWidth nDstHeight palette
    split at h
    · cases h
    · rename_i st1 h1
      cases h
      exact (Res.holds_fail hp h1).1
    · rename_i st1 h1
      cases h
      exact (Res.holds_ok hp h1).1
  · split at h <;> cases h <;> rfl

/-- C1: whenever clear_decompress returns 0, the frame has a seqNumber byte and
the seqNumber of the context afterwards is that byte plus one, modulo 256. -/
theorem clear_decompress_success_seqNumber (env : Env) (clear : CLEAR_CONTEXT)
    (pSrcData : List Nat) (nWidth nHeight : Nat) (pDstData : Option Image)
    (DstFormat nXDst nYDst nDstWidth nDstHeight : Nat) (palette : Option gdiPalette)
    (d : Decoded)
    (h : clear_decompress env clear pSrcData nWidth nHeight pDstData DstFormat nXDst nYDst
      nDstWidth nDstHeight palette = .ok d)
    (h0 : d.rc = 0) :
    ∃ gf sq s, pSrcData = gf :: sq :: s ∧ d.clear.seqNumber = (sq % 256 + 1) % 256 := by
  unfold clear_decompress at h
  split at h
  · cases h; simp at h0
  · rename_i dst
    split at h
    · cases h; simp at h0
    · split at h
      · cases h; simp at h0
      · split at h
        · rename_i gf sq s
          refine ⟨gf, sq, s, rfl, ?_⟩
          dsimp only at h
          split at h
          · cases h
          · cases h; simp at h0
          · rename_i clear1 hseq
            have e1 := seq_ok_seqNumber _ _ _ hseq
            have hg := glyph_data_frame env (clear_decompress_cache_reset clear1 (gf % 256)) s
              (gf % 256) nWidth nHeight dst DstFormat nXDst nYDst nDstWidth nDstHeight palette
            split at h
            · cases h
            · cases h; simp at h0
            · rename_i st hst
              obtain ⟨gc, e⟩ := Res.holds_ok hg hst
              rw [composition_seqNumber env st _ _ _ _ _ _ _ _ _ d h, e]
              simp [cache_reset_seqNumber, e1]
        · cases h; simp at h0

/-- C1, witness: the frame with seqNumber byte 255 and no payload returns 0 on a
fresh context and leaves seqNumber 0. -/
theorem clear_decompress_success_seqNumber_witness :
    ∃ gf sq s, ([0, 255, 0, 0, 0, 0, 0, 0, 0, 0, 0, 0, 0, 0] : List Nat) = gf :: sq :: s ∧
      ({ clear_context_new refEnv with seqNumber := 0 } : CLEAR_CONTEXT).seqNumber =
        (sq % 256 + 1) % 256 :=
  clear_decompress_success_seqNumber refEnv (clear_context_new refEnv)
    [0, 255, 0, 0, 0, 0, 0, 0, 0, 0, 0, 0, 0, 0] 16 16 (some []) 32 0 0 16 16 none
    ⟨0, { clear_context_new refEnv with seqNumber := 0 }, some []⟩ rfl rfl

/-! ## The sequence check, the preflight and the end of a glyph frame -/

set_option maxRecDepth 100000 in
/-- The test of line 1072 on every byte. -/
theorem glyph_mask_byte : ∀ g : Fin 256,
    ((g.val &&& (CLEARCODEC_FLAG_GLYPH_HIT ||| CLEARCODEC_FLAG_GLYPH_INDEX) =
        (CLEARCODEC_FLAG_GLYPH_HIT ||| CLEARCODEC_FLAG_GLYPH_INDEX)) ↔
      (g.val &&& CLEARCODEC_FLAG_GLYPH_HIT ≠ 0 ∧ g.val &&& CLEARCODEC_FLAG_GLYPH_INDEX ≠ 0)) := by
  decide

/-- The test of line 1072 on a glyphFlags byte. -/
theorem glyph_mask_iff (f : Nat) :
    ((f % 256) &&& (CLEARCODEC_FLAG_GLYPH_HIT ||| CLEARCODEC_FLAG_GLYPH_INDEX) =
        (CLEARCODEC_FLAG_GLYPH_HIT ||| CLEARCODEC_FLAG_GLYPH_INDEX)) ↔
      ((f % 256) &&& CLEARCODEC_FLAG_GLYPH_HIT ≠ 0 ∧
        (f % 256) &&& CLEARCODEC_FLAG_GLYPH_INDEX ≠ 0) := by
  exact glyph_mask_byte ⟨f % 256, Nat.mod_lt _ (by norm_num)⟩

/-- C2: a frame whose seqNumber byte differs from the non-zero seqNumber of the
context is refused with -1, and the context (seqNumber, the two cursors also
under CACHE_RESET, the three caches) and the destination are left as they
were. -/
theorem clear_decompress_seq_mismatch (env : Env) (clear : CLEAR_CONTEXT) (gf sq : Nat)
    (s : List Nat) (nWidth nHeight : Nat) (dst : Image)
    (DstFormat nXDst nYDst nDstWidth nDstHeight : Nat) (palette : Option gdiPalette)
    (hW : nDstWidth ≠ 0) (hH : nDstHeight ≠ 0) (hw : nWidth ≤ 0xFFFF) (hh : nHeight ≤ 0xFFFF)
    (hctx : clear.seqNumber ≠ 0) (hne : sq % 256 ≠ clear.seqNumber) :
    clear_decompress env clear (gf :: sq :: s) nWidth nHeight (some dst) DstFormat nXDst nYDst
      nDstWidth nDstHeight palette = .ok ⟨-1, clear, some dst⟩ := by
  have hseq : clear_decompress_seq clear (sq % 256) = .fail clear := by
    simp [clear_decompress_seq, hctx, hne]
  simp [clear_decompress, hW, hH, Nat.not_lt.mpr hw, Nat.not_lt.mpr hh, hseq]

/-- C2, witness: a context that expects 2 refuses the frame with seqNumber byte 5
and CACHE_RESET, and keeps its cursors. -/
theorem clear_decompress_seq_mismatch_witness :
    clear_decompress refEnv
      { clear_context_new refEnv with
          seqNumber := 2, VBarStorageCursor := 7, ShortVBarStorageCursor := 3 }
      [0x20, 5, 0, 0, 0, 0, 0, 0, 0, 0, 0, 0, 0, 0] 16 16 (some [(1, 1, 9)]) 32 0 0 16 16 none =
      .ok ⟨-1, { clear_context_new refEnv with
                  seqNumber := 2, VBarStorageCursor := 7, ShortVBarStorageCursor := 3 },
            some [(1, 1, 9)]⟩ :=
  clear_decompress_seq_mismatch refEnv
    { clear_context_new refEnv with
        seqNumber := 2, VBarStorageCursor := 7, ShortVBarStorageCursor := 3 }
    0x20 5 [0, 0, 0, 0, 0, 0, 0, 0, 0, 0, 0, 0] 16 16 [(1, 1, 9)] 32 0 0 16 16 none
    (by decide) (by decide) (by decide) (by decide) (by decide) (by decide)

/-- C3: a context whose seqNumber is 0, as clear_context_new and
clear_context_reset leave it, accepts every seqNumber byte in the sequence
check, and the check leaves that byte plus one, modulo 256, in seqNumber. -/
theorem clear_decompress_seq_adopts (clear : CLEAR_CONTEXT) (sq : Nat)
    (h : clear.seqNumber = 0) :
    clear_decompress_seq clear (sq % 256) =
        .ok { clear with seqNumber := (sq % 256 + 1) % 256 } ∧
      (∀ env : Env, (clear_context_new env).seqNumber = 0) ∧
      (∀ c : CLEAR_CONTEXT, (clear_context_reset c).seqNumber = 0) := by
  refine ⟨?_, fun _ => rfl, fun _ => rfl⟩
  unfold clear_decompress_seq
  by_cases h0 : sq % 256 = 0
  · simp [h, h0]
  · simp [h, h0]

/-- C3, witness: a fresh context accepts the seqNumber byte 7 and then expects 8. -/
theorem clear_decompress_seq_adopts_witness :
    clear_decompress_seq (clear_context_new refEnv) (7 % 256) =
      .ok { clear_context_new refEnv with seqNumber := (7 % 256 + 1) % 256 } :=
  (clear_decompress_seq_adopts (clear_context_new refEnv) 7 rfl).1

/-- C4: the preflight checks of clear_decompress in their order: a NULL
destination gives -1002; else a zero nDstWidth or nDstHeight gives -1022; else
nWidth or nHeight above 0xFFFF gives -1004; each whatever the input bytes are,
with the context and the destination left as they were. -/
theorem clear_decompress_preflight (env : Env) (clear : CLEAR_CONTEXT) (pSrcData : List Nat)
    (nWidth nHeight : Nat) (pDstData : Option Image)
    (DstFormat nXDst nYDst nDstWidth nDstHeight : Nat) (palette : Option gdiPalette) :
    (pDstData = none →
      clear_decompress env clear pSrcData nWidth nHeight pDstData DstFormat nXDst nYDst
        nDstWidth nDstHeight palette = .ok ⟨-1002, clear, none⟩) ∧
    (∀ dst, pDstData = some dst → (nDstWidth = 0 ∨ nDstHeight = 0) →
      clear_decompress env clear pSrcData nWidth nHeight pDstData DstFormat nXDst nYDst
        nDstWidth nDstHeight palette = .ok ⟨-1022, clear, some dst⟩) ∧
    (∀ dst, pDstData = some dst → nDstWidth ≠ 0 → nDstHeight ≠ 0 →
      (nWidth > 0xFFFF ∨ nHeight > 0xFFFF) →
      clear_decompress env clear pSrcData nWidth nHeight pDstData DstFormat nXDst nYDst
        nDstWidth nDstHeight palette = .ok ⟨-1004, clear, some dst⟩) := by
  refine ⟨?_, ?_, ?_⟩
  · rintro rfl
    rfl
  · rintro dst rfl h
    simp [clear_decompress, h]
  · rintro dst rfl hW hH h
    simp [clear_decompress, hW, hH, h]

/-- C4, witness: the three preflight results on a fresh context. -/
theorem clear_decompress_preflight_witness :
    clear_decompress refEnv (clear_context_new refEnv) [0, 1] 16 16 none 32 0 0 0 16 none =
        .ok ⟨-1002, clear_context_new refEnv, none⟩ ∧
      clear_decompress refEnv (clear_context_new refEnv) [0, 1] 65536 16 (some []) 32 0 0 16 0
          none = .ok ⟨-1022, clear_context_new refEnv, some []⟩ ∧
      clear_decompress refEnv (clear_context_new refEnv) [0, 1] 16 65536 (some []) 32 0 0 16 16
          none = .ok ⟨-1004, clear_context_new refEnv, some []⟩ :=
  ⟨(clear_decompress_preflight refEnv (clear_context_new refEnv) [0, 1] 16 16 none 32 0 0 0 16
      none).1 rfl,
   (clear_decompress_preflight refEnv (clear_context_new refEnv) [0, 1] 65536 16 (some []) 32 0 0
      16 0 none).2.1 [] rfl (Or.inr rfl),
   (clear_decompress_preflight refEnv (clear_context_new refEnv) [0, 1] 16 65536 (some []) 32 0 0
      16 16 none).2.2 [] rfl (by decide) (by decide) (Or.inr (by decide))⟩

/-- C5: when the sequence check and the glyph stage succeed and fewer than 12
bytes are left, clear_decompress returns 0 if GLYPH_HIT and GLYPH_INDEX are both
set in glyphFlags and -1 otherwise. -/
theorem clear_decompress_short_composition (env : Env) (clear clear1 : CLEAR_CONTEXT)
    (gf sq : Nat) (s : List Nat) (nWidth nHeight : Nat) (dst : Image)
    (DstFormat nXDst nYDst nDstWidth nDstHeight : Nat) (palette : Option gdiPalette) (st : St)
    (hW : nDstWidth ≠ 0) (hH : nDstHeight ≠ 0) (hw : nWidth ≤ 0xFFFF) (hh : nHeight ≤ 0xFFFF)
    (hseq : clear_decompress_seq clear (sq % 256) = .ok clear1)
    (hglyph : clear_decompress_glyph_data env (clear_decompress_cache_reset clear1 (gf % 256)) s
      (gf % 256) nWidth nHeight dst DstFormat nXDst nYDst nDstWidth nDstHeight palette = .ok st)
    (hlen : Stream_GetRemainingLength st.s < 12) :
    clear_decompress env clear (gf :: sq :: s) nWidth nHeight (some dst) DstFormat nXDst nYDst
      nDstWidth nDstHeight palette =
      .ok ⟨if (gf % 256) &&& CLEARCODEC_FLAG_GLYPH_HIT ≠ 0 ∧
              (gf % 256) &&& CLEARCODEC_FLAG_GLYPH_INDEX ≠ 0 then 0 else -1,
           st.clear, some st.dst⟩ := by
  have hcomp : clear_decompress_composition env st (gf % 256) nWidth nHeight DstFormat nXDst
      nYDst nDstWidth nDstHeight palette =
      .ok ⟨if (gf % 256) &&& CLEARCODEC_FLAG_GLYPH_HIT ≠ 0 ∧
              (gf % 256) &&& CLEARCODEC_FLAG_GLYPH_INDEX ≠ 0 then 0 else -1,
           st.clear, some st.dst⟩ := by
    unfold clear_decompress_composition
    split
    · rename_i hs
      simp [Stream_GetRemainingLength, hs] at hlen
      omega
    · by_cases hm : (gf % 256) &&& CLEARCODEC_FLAG_GLYPH_HIT ≠ 0 ∧
              (gf % 256) &&& CLEARCODEC_FLAG_GLYPH_INDEX ≠ 0
      · rw [if_pos ((glyph_mask_iff gf).mpr hm), if_pos hm]
      · rw [if_neg (fun h => hm ((glyph_mask_iff gf).mp h)), if_neg hm]
  simp only [clear_decompress, hW, hH, Nat.not_lt.mpr hw, Nat.not_lt.mpr hh, hseq, hglyph, hcomp,
    or_self, if_false, gt_iff_lt]

/-- C5, witness: a 1x1 GLYPH_HIT frame on a context whose glyph slot 0 holds one
pixel ends after the glyph stage and returns 0. -/
theorem clear_decompress_short_composition_witness :
    clear_decompress refEnv
      { clear_context_new refEnv with
          GlyphCache := fun _ => { size := 1, count := 1, pixels := some (fun _ => 7) } }
      [3, 1, 0, 0] 1 1 (some []) 32 0 0 16 16 none =
      .ok ⟨if (3 % 256) &&& CLEARCODEC_FLAG_GLYPH_HIT ≠ 0 ∧
              (3 % 256) &&& CLEARCODEC_FLAG_GLYPH_INDEX ≠ 0 then 0 else -1,
           { clear_context_new refEnv with
               seqNumber := 2,
               GlyphCache := fun _ => { size := 1, count := 1, pixels := some (fun _ => 7) } },
           some [(0, 0, 7)]⟩ :=
  clear_decompress_short_composition refEnv
    { clear_context_new refEnv with
        GlyphCache := fun _ => { size := 1, count := 1, pixels := some (fun _ => 7) } }
    { clear_context_new refEnv with
        seqNumber := 2,
        GlyphCache := fun _ => { size := 1, count := 1, pixels := some (fun _ => 7) } }
    3 1 [0, 0] 1 1 [] 32 0 0 16 16 none
    ⟨{ clear_context_new refEnv with
         seqNumber := 2,
         GlyphCache := fun _ => { size := 1, count := 1, pixels := some (fun _ => 7) } },
     [], [(0, 0, 7)]⟩
    (by decide) (by decide) (by decide) (by decide) rfl rfl (by decide)

/-! ## The glyph stage -/

/-- The inner loop of convert_color does not fault when every pixel it reads
lies inside the source buffer. -/
theorem convert_color_row_no_fault (env : Env) (DstFormat nXDst : Nat) (src : PixelSource)
    (lineOff SrcFormat : Nat) (palette : Option gdiPalette) (yDst : Nat) :
    ∀ (n x : Nat) (dst : Image),
      (∀ i, x ≤ i → i < x + n → src (lineOff + mul32 i (env.GetBytesPerPixel SrcFormat)) ≠ none) →
      ∀ k, convert_color_row env DstFormat nXDst src lineOff SrcFormat palette yDst n x dst
        ≠ .fault k := by
  intro n
  induction n with
  | zero => intro x dst _ k; simp [convert_color_row]
  | succ n ih =>
    intro x dst h k
    unfold convert_color_row
    have hx := h x (le_refl _) (by omega)
    split
    · rename_i e; exact absurd e hx
    · dsimp only
      split
      · exact ih (x + 1) _ (fun i h1 h2 => h i (by omega) (by omega)) k
      · simp

/-- The outer loop of convert_color does not fault when every pixel it reads
lies inside the source buffer. -/
theorem convert_color_rows_no_fault (env : Env) (DstFormat nXDst nYDst nWidth : Nat)
    (src : PixelSource) (nSrcStep SrcFormat : Nat) (palette : Option gdiPalette) :
    ∀ (n y : Nat) (dst : Image),
      (∀ j, y ≤ j → j < y + n → ∀ i, i < nWidth →
        src (mul32 j nSrcStep + mul32 i (env.GetBytesPerPixel SrcFormat)) ≠ none) →
      ∀ k, convert_color_rows env DstFormat nXDst nYDst nWidth src nSrcStep SrcFormat palette
        n y dst ≠ .fault k := by
  intro n
  induction n with
  | zero => intro y dst _ k; simp [convert_color_rows]
  | succ n ih =>
    intro y dst h k
    unfold convert_color_rows
    have hrow := convert_color_row_no_fault env DstFormat nXDst src (mul32 y nSrcStep) SrcFormat
      palette (add32 nYDst y) nWidth 0 dst
      (fun i _ h2 => h y (le_refl _) (by omega) i (by omega))
    split
    · exact ih (y + 1) _ (fun j h1 h2 => h j (by omega) (by omega)) k
    · simp
    · rename_i k1 e; exact absurd e (hrow k1)

/-- C6, as stated, fails: on a fresh context the frame 01 01 00 00 decoded with
nWidth = nHeight = 16 does not return 0 (it returns -1). -/
theorem glyph_insert_frame_returns_zero_refuted :
    ¬ ∃ d, clear_decompress refEnv (clear_context_new refEnv) [1, 1, 0, 0] 16 16 (some [])
      32 0 0 16 16 none = .ok d ∧ d.rc = 0 ∧ (d.clear.GlyphCache 0).count = 256 := by
  rintro ⟨d, h, h0, -⟩
  have e : (clear_decompress refEnv (clear_context_new refEnv) [1, 1, 0, 0] 16 16 (some [])
      32 0 0 16 16 none).toOption.map (fun d => d.rc) = some (-1) := by decide
  rw [h] at e
  simp [Except.toOption, h0] at e

/-- C6, amended: on a fresh context, with 4 bytes per pixel in the working
format, the frame 01 01 00 00 decoded with nWidth = nHeight = 16 into a 16x16
destination at (0,0) returns -1, because it ends without a composition payload
header and GLYPH_HIT is not set, and leaves GlyphCache[0].count = 256. -/
theorem glyph_insert_frame_fails (env : Env) (dst : Image) (DstFormat : Nat)
    (palette : Option gdiPalette)
    (hbpp : env.GetBytesPerPixel env.PIXEL_FORMAT_BGRX32 = 4) :
    ∃ d, clear_decompress env (clear_context_new env) [1, 1, 0, 0] 16 16 (some dst) DstFormat
      0 0 16 16 palette = .ok d ∧ d.rc = -1 ∧ (d.clear.GlyphCache 0).count = 256 := by
  have hnf := convert_color_rows_no_fault env DstFormat 0 0 16
    (cellSource 4 (mul32 256 4) env.heap) (mul32 16 4) env.PIXEL_FORMAT_BGRX32 palette 16 0 dst
    (by
      intro j _ hj i hi
      simp only [cellSource, mul32, hbpp]
      have : j * (16 * 4 % 4294967296) % 4294967296 + i * 4 % 4294967296 + 4 ≤ 256 * 4 % 4294967296 := by
        omega
      simp [this])
  have e1 : mul32 16 16 = 256 := rfl
  have e2 : mul32 256 4 = 1024 := rfl
  have e3 : mul32 16 4 = 64 := rfl
  rw [e2, e3] at hnf
  simp [clear_decompress, clear_decompress_seq, clear_context_new, clear_context_reset,
    clear_decompress_cache_reset, clear_decompress_glyph_data, CLEARCODEC_FLAG_GLYPH_HIT,
    CLEARCODEC_FLAG_GLYPH_INDEX, CLEARCODEC_FLAG_CACHE_RESET, le16, hbpp, convert_color, add32,
    sub32, e1, e2, e3]
  rcases hcc : convert_color_rows env DstFormat 0 0 16 (cellSource 4 1024 env.heap) 64
      env.PIXEL_FORMAT_BGRX32 palette 16 0 dst with d1 | d1 | k
  · simp [Res.map, clear_decompress_composition, CLEARCODEC_FLAG_GLYPH_HIT,
      CLEARCODEC_FLAG_GLYPH_INDEX]
  · simp [Res.map]
  · exact absurd hcc (hnf k)

/-- C6, amended, witness: the frame 01 01 00 00 on a fresh context of the
reference library. -/
theorem glyph_insert_frame_fails_witness :
    ∃ d, clear_decompress refEnv (clear_context_new refEnv) [1, 1, 0, 0] 16 16 (some []) 32
      0 0 16 16 none = .ok d ∧ d.rc = -1 ∧ (d.clear.GlyphCache 0).count = 256 :=
  glyph_insert_frame_fails refEnv [] 32 none rfl

theorem glyphPixelsKept_refl (env : Env) (c : CLEAR_CONTEXT) : GlyphPixelsKept env c c :=
  fun _ => Or.inl rfl

theorem glyphPixelsKept_update (env : Env) (c : CLEAR_CONTEXT) (i : Nat)
    (e : CLEAR_GLYPH_ENTRY)
    (he : e.pixels = (c.GlyphCache i).pixels ∨
      e.pixels = some ((c.GlyphCache i).pixels.getD env.heap)) :
    GlyphPixelsKept env c { c with GlyphCache := Function.update c.GlyphCache i e } := by
  intro g
  by_cases hg : g = i
  · subst hg
    simp only [Function.update_same]
    rcases he with he | he
    · left; exact he
    · cases hp : (c.GlyphCache g).pixels with
      | none => right; simp [he, hp]
      | some f => left; simp [he, hp]
  · left
    simp [Function.update_noteq hg]

/-- The glyph stage stores no pixel in GlyphCache. -/
theorem glyph_data_pixels_kept (env : Env) (clear : CLEAR_CONTEXT) (s : wStream)
    (glyphFlags nWidth nHeight : Nat) (dst : Image)
    (DstFormat nXDst nYDst nDstWidth nDstHeight : Nat) (palette : Option gdiPalette) :
    (clear_decompress_glyph_data env clear s glyphFlags nWidth nHeight dst DstFormat nXDst nYDst
      nDstWidth nDstHeight palette).Holds (fun st => GlyphPixelsKept env clear st.clear) := by
  unfold clear_decompress_glyph_data
  dsimp only
  repeat' split
  all_goals first
    | exact glyphPixelsKept_refl env clear
    | (rw [Res.holds_map]; exact Res.holds_of_forall _ (fun _ => glyphPixelsKept_refl env clear))
    | exact glyphPixelsKept_update env clear _ _ (Or.inl rfl)
    | exact glyphPixelsKept_update env clear _ _ (Or.inr rfl)
    | (rw [Res.holds_map]
       exact Res.holds_of_forall _ (fun _ => glyphPixelsKept_update env clear _ _ (Or.inl rfl)))
    | (rw [Res.holds_map]
       exact Res.holds_of_forall _ (fun _ => glyphPixelsKept_update env clear _ _ (Or.inr rfl)))

/-- The sequence check does not write GlyphCache. -/
theorem seq_glyphCache (clear : CLEAR_CONTEXT) (seqNumber : Nat) :
    (clear_decompress_seq clear seqNumber).Holds (fun c => c.GlyphCache = clear.GlyphCache) := by
  unfold clear_decompress_seq
  dsimp only
  split_ifs <;> simp [Res.Holds]

/-- The cache reset does not write GlyphCache. -/
theorem cache_reset_glyphCache (clear : CLEAR_CONTEXT) (glyphFlags : Nat) :
    (clear_decompress_cache_reset clear glyphFlags).GlyphCache = clear.GlyphCache := by
  unfold clear_decompress_cache_reset
  split <;> rfl

/-- The part of a frame after the glyph stage does not write GlyphCache. -/
theorem composition_glyphCache (env : Env) (st : St) (glyphFlags nWidth nHeight : Nat)
    (DstFormat nXDst nYDst nDstWidth nDstHeight : Nat) (palette : Option gdiPalette)
    (d : Decoded)
    (h : clear_decompress_composition env st glyphFlags nWidth nHeight DstFormat nXDst nYDst
      nDstWidth nDstHeight palette = .ok d) :
    d.clear.GlyphCache = st.clear.GlyphCache := by
  unfold clear_decompress_composition at h
  split at h
  · rename_i r0 r1 r2 r3 b0 b1 b2 b3 c0 c1 c2 c3 s1 hs
    have hp := payloads_frame env { st with s := s1 } (le32 r0 r1 r2 r3)
        (le32 b0 b1 b2 b3) (le32 c0 c1 c2 c3) nWidth nHeight DstFormat nXDst nYDst
        nDstWidth nDstHeight palette
    split at h
    · cases h
    · rename_i st1 h1
      cases h
      exact (Res.holds_fail hp h1).2.2
    · rename_i st1 h1
      cases h
      exact (Res.holds_ok hp h1).2.2
  · split at h <;> cases h <;> rfl

/-- No call of clear_decompress stores a pixel in GlyphCache: after every frame,
whatever its payloads render, the pixel buffer of every glyph entry is the
buffer it was before the frame or, for an entry that had none, fresh heap
memory. -/
theorem clear_decompress_glyph_pixels_kept (env : Env) (clear : CLEAR_CONTEXT)
    (pSrcData : List Nat) (nWidth nHeight : Nat) (pDstData : Option Image)
    (DstFormat nXDst nYDst nDstWidth nDstHeight : Nat) (palette : Option gdiPalette)
    (d : Decoded)
    (h : clear_decompress env clear pSrcData nWidth nHeight pDstData DstFormat nXDst nYDst
      nDstWidth nDstHeight palette = .ok d) :
    GlyphPixelsKept env clear d.clear := by
  unfold clear_decompress at h
  split at h
  · cases h; exact glyphPixelsKept_refl env clear
  · rename_i dst
    split at h
    · cases h; exact glyphPixelsKept_refl env clear
    · split at h
      · cases h; exact glyphPixelsKept_refl env clear
      · split at h
        · rename_i gf sq s
          dsimp only at h
          have hs := seq_glyphCache clear (sq % 256)
          split at h
          · cases h
          · rename_i c1 hseq
            cases h
            intro g
            left
            show (c1.GlyphCache g).pixels = _
            rw [Res.holds_fail hs hseq]
          · rename_i clear1 hseq
            have e1 : (clear_decompress_cache_reset clear1 (gf % 256)).GlyphCache =
                clear.GlyphCache := by
              rw [cache_reset_glyphCache, Res.holds_ok hs hseq]
            have hg := glyph_data_pixels_kept env (clear_decompress_cache_reset clear1 (gf % 256))
              s (gf % 256) nWidth nHeight dst DstFormat nXDst nYDst nDstWidth nDstHeight palette
            split at h
            · cases h
            · rename_i st hst
              cases h
              intro g
              have := Res.holds_fail hg hst g
              rw [e1] at this
              exact this
            · rename_i st hst
              intro g
              have := Res.holds_ok hg hst g
              rw [e1] at this
              rw [composition_glyphCache env st _ _ _ _ _ _ _ _ _ d h]
              exact this
        · cases h; exact glyphPixelsKept_refl env clear

/-- C7 at the failing input: on a fresh context a 1x1 frame with GLYPH_INDEX for
slot 0 and a residual payload renders the pixel 0xFF0000FF at (0,0); the next
frame, GLYPH_HIT for slot 0 and 1x1, returns 0 and writes at (0,0) the contents
of the never written glyph buffer, 0xCDCDCDCD, not 0xFF0000FF. -/
theorem glyph_hit_blits_unwritten_pixels :
    (clear_decompress refEnv (clear_context_new refEnv)
        [0x01, 0x01, 0x00, 0x00, 0x04, 0, 0, 0, 0, 0, 0, 0, 0, 0, 0, 0, 0xFF, 0x00, 0x00, 0x01]
        1 1 (some []) 32 0 0 16 16 none).toOption.map Decoded.view =
      some ⟨0, 2, 0, 0, some [(0, 0, 0xFF0000FF), (0, 0, 0xCDCDCDCD)]⟩ ∧
    (clear_decompress refEnv
        (Decoded.context (clear_decompress refEnv (clear_context_new refEnv)
          [0x01, 0x01, 0x00, 0x00, 0x04, 0, 0, 0, 0, 0, 0, 0, 0, 0, 0, 0, 0xFF, 0x00, 0x00, 0x01]
          1 1 (some []) 32 0 0 16 16 none) (clear_context_new refEnv))
        [0x03, 0x02, 0x00, 0x00] 1 1 (some []) 32 0 0 16 16 none).toOption.map Decoded.view =
      some ⟨0, 3, 0, 0, some [(0, 0, 0xCDCDCDCD)]⟩ := by
  constructor <;> decide

/-- The sequence check does not fault. -/
theorem seq_no_fault (clear : CLEAR_CONTEXT) (seqNumber : Nat) (k : Fault) :
    clear_decompress_seq clear seqNumber ≠ .fault k := by
  unfold clear_decompress_seq
  dsimp only
  split_ifs <;> simp

/-- C8: the glyph stage returns FALSE, and the frame -1, when GLYPH_HIT is set
without GLYPH_INDEX; with GLYPH_INDEX set it returns TRUE only if
nWidth * nHeight is at most 1024 * 1024, two bytes are left, the glyphIndex read
is below 4000 and, under GLYPH_HIT, the entry has a pixel buffer and a count of
at least nWidth * nHeight. -/
theorem glyph_stage_requirements (env : Env) (clear : CLEAR_CONTEXT) (s : wStream)
    (glyphFlags nWidth nHeight : Nat) (dst : Image)
    (DstFormat nXDst nYDst nDstWidth nDstHeight : Nat) (palette : Option gdiPalette)
    (hw : nWidth ≤ 0xFFFF) (hh : nHeight ≤ 0xFFFF) :
    (glyphFlags &&& CLEARCODEC_FLAG_GLYPH_HIT ≠ 0 →
      glyphFlags &&& CLEARCODEC_FLAG_GLYPH_INDEX = 0 →
      clear_decompress_glyph_data env clear s glyphFlags nWidth nHeight dst DstFormat nXDst nYDst
        nDstWidth nDstHeight palette = .fail ⟨clear, s, dst⟩) ∧
    (∀ (ctx : CLEAR_CONTEXT) (gf sq : Nat) (rest : List Nat), nDstWidth ≠ 0 → nDstHeight ≠ 0 →
      (gf % 256) &&& CLEARCODEC_FLAG_GLYPH_HIT ≠ 0 →
      (gf % 256) &&& CLEARCODEC_FLAG_GLYPH_INDEX = 0 →
      ∃ d, clear_decompress env ctx (gf :: sq :: rest) nWidth nHeight (some dst) DstFormat
        nXDst nYDst nDstWidth nDstHeight palette = .ok d ∧ d.rc = -1) ∧
    (glyphFlags &&& CLEARCODEC_FLAG_GLYPH_INDEX ≠ 0 →
      ∀ st, clear_decompress_glyph_data env clear s glyphFlags nWidth nHeight dst DstFormat
        nXDst nYDst nDstWidth nDstHeight palette = .ok st →
      nWidth * nHeight ≤ 1024 * 1024 ∧
      ∃ g0 g1 s1, s = g0 :: g1 :: s1 ∧ le16 g0 g1 < 4000 ∧
        (glyphFlags &&& CLEARCODEC_FLAG_GLYPH_HIT ≠ 0 →
          (clear.GlyphCache (le16 g0 g1)).pixels ≠ none ∧
          nWidth * nHeight ≤ (clear.GlyphCache (le16 g0 g1)).count)) := by
  have hmul : mul32 nWidth nHeight = nWidth * nHeight := by
    unfold mul32
    apply Nat.mod_eq_of_lt
    calc nWidth * nHeight ≤ 0xFFFF * 0xFFFF := Nat.mul_le_mul hw hh
      _ < 4294967296 := by norm_num
  refine ⟨?_, ?_, ?_⟩
  · intro h1 h2
    simp [clear_decompress_glyph_data, h1, h2]
  · intro ctx gf sq rest hW hH h1 h2
    simp only [clear_decompress, hW, hH, Nat.not_lt.mpr hw, Nat.not_lt.mpr hh, or_self, if_false,
      gt_iff_lt]
    rcases hseq : clear_decompress_seq ctx (sq % 256) with c1 | c1 | k
    · simp [clear_decompress_glyph_data, h1, h2]
    · simp
    · exact absurd hseq (seq_no_fault _ _ _)
  · intro hidx st h
    unfold clear_decompress_glyph_data at h
    rw [hmul] at h
    have hnot : ¬ (glyphFlags &&& CLEARCODEC_FLAG_GLYPH_HIT ≠ 0 ∧
        glyphFlags &&& CLEARCODEC_FLAG_GLYPH_INDEX = 0) := fun hc => hidx hc.2
    rw [if_neg hnot, if_neg hidx] at h
    split at h
    · cases h
    · rename_i hsz
      refine ⟨Nat.not_lt.mp hsz, ?_⟩
      split at h
      · rename_i g0 g1 s1
        refine ⟨g0, g1, s1, rfl, ?_⟩
        dsimp only at h
        split at h
        · cases h
        · rename_i hlt
          refine ⟨Nat.not_le.mp hlt, ?_⟩
          intro hhit
          rw [if_pos hhit] at h
          split at h
          · cases h
          · rename_i px hpx
            split at h
            · cases h
            · rename_i hcnt
              exact ⟨by rw [hpx]; simp, Nat.not_lt.mp hcnt⟩
      · cases h

/-- C8, witness: on a context whose glyph slot 0 holds one pixel, the 1x1 glyph
stage with GLYPH_HIT alone fails, the frame 02 01 returns -1, and the glyph
stage with GLYPH_HIT and GLYPH_INDEX succeeds within the bounds. -/
theorem glyph_stage_requirements_witness :
    clear_decompress_glyph_data refEnv
        { clear_context_new refEnv with
            GlyphCache := fun _ => { size := 1, count := 1, pixels := some (fun _ => 7) } }
        [0, 0] 2 1 1 [] 32 0 0 16 16 none =
      .fail ⟨{ clear_context_new refEnv with
                GlyphCache := fun _ => { size := 1, count := 1, pixels := some (fun _ => 7) } },
             [0, 0], []⟩ ∧
    (∃ d, clear_decompress refEnv (clear_context_new refEnv) [2, 1] 1 1 (some []) 32 0 0 16 16
      none = .ok d ∧ d.rc = -1) ∧
    1 * 1 ≤ 1024 * 1024 ∧
    ∃ g0 g1 s1, ([0, 0] : wStream) = g0 :: g1 :: s1 ∧ le16 g0 g1 < 4000 := by
  have h := glyph_stage_requirements refEnv
    { clear_context_new refEnv with
        GlyphCache := fun _ => { size := 1, count := 1, pixels := some (fun _ => 7) } }
    [0, 0] 2 1 1 [] 32 0 0 16 16 none (by decide) (by decide)
  have h3 := (glyph_stage_requirements refEnv
    { clear_context_new refEnv with
        GlyphCache := fun _ => { size := 1, count := 1, pixels := some (fun _ => 7) } }
    [0, 0] 3 1 1 [] 32 0 0 16 16 none (by decide) (by decide)).2.2 (by decide)
    ⟨{ clear_context_new refEnv with
         GlyphCache := fun _ => { size := 1, count := 1, pixels := some (fun _ => 7) } },
     [], [(0, 0, 7)]⟩ rfl
  obtain ⟨hle, g0, g1, s1, hs, hlt, -⟩ := h3
  exact ⟨h.1 (by decide) (by decide),
    h.2.1 (clear_context_new refEnv) 2 1 [] (by decide) (by decide) (by decide) (by decide),
    hle, g0, g1, s1, hs, hlt⟩

/-! ## The residual decoder -/

/-- A run that does not fit between dstBuffer and the end of the first TempSize
bytes of TempBuffer writes outside them. -/
theorem residual_run_overflow (env : Env) (format TempSize color : Nat)
    (hw : env.WriteColor format color = true) :
    ∀ (n p : Nat) (buf : Nat → Nat),
      p * env.GetBytesPerPixel format ≤ TempSize →
      TempSize < (p + n) * env.GetBytesPerPixel format →
      residual_run env format TempSize color n p buf = none := by
  intro n
  induction n with
  | zero => intro p buf h1 h2; simp at h2; omega
  | succ n ih =>
    intro p buf h1 h2
    unfold residual_run
    rw [if_pos hw]
    split
    · rename_i h3
      exact ih (p + 1) _ h3 (by rw [show p + 1 + n = p + (n + 1) by omega]; exact h2)
    · rfl

/-- A run that fits in TempBuffer is written and leaves dstBuffer behind it. -/
theorem residual_run_fits (env : Env) (format TempSize color : Nat) :
    ∀ (n p : Nat) (buf : Nat → Nat),
      (p + n) * env.GetBytesPerPixel format ≤ TempSize →
      ∃ buf1, residual_run env format TempSize color n p buf = some (p + n, buf1) := by
  intro n
  induction n with
  | zero => intro p buf _; exact ⟨buf, rfl⟩
  | succ n ih =>
    intro p buf h
    unfold residual_run
    have h3 : (p + 1) * env.GetBytesPerPixel format ≤ TempSize :=
      le_trans (Nat.mul_le_mul_right _ (by omega)) h
    have h4 : (p + 1 + n) * env.GetBytesPerPixel format ≤ TempSize := by
      rw [show p + 1 + n = p + (n + 1) by omega]; exact h
    split
    · obtain ⟨b, e⟩ := ih (p + 1) (Function.update buf p color) h4
      exact ⟨b, by rw [e, show p + 1 + n = p + (n + 1) by omega]⟩
    · obtain ⟨b, e⟩ := ih (p + 1) buf h4
      exact ⟨b, by rw [e, show p + 1 + n = p + (n + 1) by omega]⟩


/-- One pass of the record loop of the residual decoder on a record that is
read in full and passes the check of line 384. -/
theorem residual_loop_step (env : Env) (format TempSize residualByteCount pixelCount : Nat)
    (fuel b g r f1 : Nat) (s1 : wStream) (suboffset pixelIndex p : Nat) (buf : Nat → Nat)
    (rlf nread : Nat) (s2 : wStream)
    (h1 : suboffset < residualByteCount)
    (hr : read_runLengthFactor (f1 % 256) s1 = some (rlf, nread, s2))
    (hfit : ¬ add32 pixelIndex rlf > pixelCount) :
    residual_loop env format TempSize residualByteCount pixelCount (fuel + 1)
        ⟨b :: g :: r :: f1 :: s1, suboffset, pixelIndex, p, buf⟩ =
      match residual_run env format TempSize
          (env.GetColor format (r % 256) (g % 256) (b % 256) 0xFF) rlf p buf with
      | none => .fault .bufferWrite
      | some (p1, buf1) =>
        residual_loop env format TempSize residualByteCount pixelCount fuel
          ⟨s2, add32 (add32 suboffset 4) nread, add32 pixelIndex rlf, p1, buf1⟩ := by
  rw [residual_loop]
  simp only [h1, if_true, hr, hfit, if_false]

/-- A fault of the record loop is a fault of clear_decompress_residual_data. -/
theorem residual_data_of_loop_fault (env : Env) (clear : CLEAR_CONTEXT) (s : wStream)
    (residualByteCount nWidth nHeight : Nat) (dst : Image)
    (DstFormat nXDst nYDst nDstWidth nDstHeight : Nat) (palette : Option gdiPalette) (k : Fault)
    (hlen : ¬ Stream_GetRemainingLength s < residualByteCount)
    (h : residual_loop env clear.format clear.TempSize residualByteCount (mul32 nWidth nHeight)
        (Stream_GetRemainingLength s + 1)
        { s := s, suboffset := 0, pixelIndex := 0, p := 0, TempBuffer := clear.TempBuffer } =
        .fault k) :
    clear_decompress_residual_data env clear s residualByteCount nWidth nHeight dst DstFormat
      nXDst nYDst nDstWidth nDstHeight palette = .fault k := by
  unfold clear_decompress_residual_data
  rw [if_neg hlen, h]

/-- A frame without glyph flags whose residual payload makes the residual
decoder fault. -/
theorem clear_decompress_of_residual_fault (env : Env) (clear clear1 : CLEAR_CONTEXT)
    (sq r0 r1 r2 r3 b0 b1 b2 b3 c0 c1 c2 c3 : Nat) (s1 : List Nat) (nWidth nHeight : Nat)
    (dst : Image) (DstFormat nXDst nYDst nDstWidth nDstHeight : Nat)
    (palette : Option gdiPalette) (k : Fault)
    (hW : nDstWidth ≠ 0) (hH : nDstHeight ≠ 0) (hw : nWidth ≤ 0xFFFF) (hh : nHeight ≤ 0xFFFF)
    (hseq : clear_decompress_seq clear (sq % 256) = .ok clear1)
    (hpos : 0 < le32 r0 r1 r2 r3)
    (h : clear_decompress_residual_data env clear1 s1 (le32 r0 r1 r2 r3) nWidth nHeight dst
      DstFormat nXDst nYDst nDstWidth nDstHeight palette = .fault k) :
    clear_decompress env clear
      (0 :: sq :: r0 :: r1 :: r2 :: r3 :: b0 :: b1 :: b2 :: b3 :: c0 :: c1 :: c2 :: c3 :: s1)
      nWidth nHeight (some dst) DstFormat nXDst nYDst nDstWidth nDstHeight palette =
      .error k := by
  simp [clear_decompress, hW, hH, Nat.not_lt.mpr hw, Nat.not_lt.mpr hh, hseq,
    clear_decompress_cache_reset, clear_decompress_glyph_data, CLEARCODEC_FLAG_GLYPH_HIT,
    CLEARCODEC_FLAG_GLYPH_INDEX, CLEARCODEC_FLAG_CACHE_RESET, clear_decompress_composition,
    clear_decompress_payloads, hpos, h]

/-- C10 at the failing input: on a fresh context (TempSize = 512 * 512 * 4) a
residual payload of one run of 513 * 512 pixels, decoded with nWidth = 513 and
nHeight = 512, is written past the first TempSize bytes of TempBuffer. -/
theorem residual_writes_past_TempBuffer :
    clear_decompress refEnv (clear_context_new refEnv)
      [0x00, 0x01, 0x0A, 0, 0, 0, 0, 0, 0, 0, 0, 0, 0, 0,
       0xFF, 0x00, 0x00, 0xFF, 0xFF, 0xFF, 0x00, 0x02, 0x04, 0x00]
      513 512 (some []) 32 0 0 513 512 none = .error .bufferWrite := by
  refine clear_decompress_of_residual_fault refEnv (clear_context_new refEnv)
    { clear_context_new refEnv with seqNumber := 2 } 1 0x0A 0 0 0 0 0 0 0 0 0 0 0 _ 513 512 []
    32 0 0 513 512 none .bufferWrite (by decide) (by decide) (by decide) (by decide) rfl
    (by decide) ?_
  refine residual_data_of_loop_fault _ _ _ _ _ _ _ _ _ _ _ _ _ _ (by decide) ?_
  refine (residual_loop_step refEnv 32 1048576 10 (mul32 513 512) _ 0xFF 0 0 0xFF _ 0 0 0 _
    262656 6 [] (by decide) (by decide) (by decide)).trans ?_
  rw [residual_run_overflow refEnv 32 1048576 _ rfl 262656 0 _ (by decide) (by decide)]

/-- C9 at the failing input: with nWidth = nHeight = 1 the residual payload with
the runs 1, 0xFFFFFFFF and 1 is not rejected: the sum of line 384 wraps to 0, the
check passes, and the second run is written past the end of TempBuffer. -/
theorem residual_run_sum_wraps :
    clear_decompress refEnv (clear_context_new refEnv)
      [0x00, 0x01, 0x12, 0, 0, 0, 0, 0, 0, 0, 0, 0, 0, 0,
       0xFF, 0x00, 0x00, 0x01,
       0xFF, 0x00, 0x00, 0xFF, 0xFF, 0xFF, 0xFF, 0xFF, 0xFF, 0xFF,
       0xFF, 0x00, 0x00, 0x01]
      1 1 (some []) 32 0 0 16 16 none = .error .bufferWrite := by
  refine clear_decompress_of_residual_fault refEnv (clear_context_new refEnv)
    { clear_context_new refEnv with seqNumber := 2 } 1 0x12 0 0 0 0 0 0 0 0 0 0 0 _ 1 1 []
    32 0 0 16 16 none .bufferWrite (by decide) (by decide) (by decide) (by decide) rfl
    (by decide) ?_
  refine residual_data_of_loop_fault _ _ _ _ _ _ _ _ _ _ _ _ _ _ (by decide) ?_
  refine (residual_loop_step refEnv 32 1048576 18 (mul32 1 1) _ 0xFF 0 0 0x01 _ 0 0 0 _
    1 0 [0xFF, 0x00, 0x00, 0xFF, 0xFF, 0xFF, 0xFF, 0xFF, 0xFF, 0xFF, 0xFF, 0x00, 0x00, 0x01]
    (by decide) (by decide) (by decide)).trans ?_
  rw [show residual_run refEnv 32 1048576 (refEnv.GetColor 32 (0 % 256) (0 % 256) (0xFF % 256) 0xFF)
      1 0 (clear_context_new refEnv).TempBuffer =
      some (1, Function.update (clear_context_new refEnv).TempBuffer 0 4278190335) from rfl]
  refine (residual_loop_step refEnv 32 1048576 18 (mul32 1 1) 17 0xFF 0 0 0xFF _ _ _ 1 _
    4294967295 6 [0xFF, 0x00, 0x00, 0x01] (by decide) (by decide) (by decide)).trans ?_
  rw [residual_run_overflow refEnv 32 1048576 _ rfl 4294967295 1 _ (by decide) (by decide)]

/-! ## The loop bounds of the embedding are never used up -/

/-- The escape ladder only takes bytes from the stream. -/
theorem read_runLengthFactor_length (f1 : Nat) (s : wStream) (rlf nread : Nat) (s2 : wStream)
    (h : read_runLengthFactor f1 s = some (rlf, nread, s2)) : s2.length ≤ s.length := by
  unfold read_runLengthFactor at h
  split at h
  · split at h
    · split at h
      · split at h
        · cases h; simp; omega
        · cases h
      · cases h; simp; omega
    · cases h
  · cases h; exact le_refl _

/-- The fuel of the record loop of the residual decoder is never used up. -/
theorem residual_loop_fuel (env : Env) (format TempSize residualByteCount pixelCount : Nat) :
    ∀ (fuel : Nat) (st : ResidualState), st.s.length < fuel →
      residual_loop env format TempSize residualByteCount pixelCount fuel st ≠
        .fault .outOfFuel := by
  intro fuel
  induction fuel with
  | zero => intro st h; exact absurd h (Nat.not_lt_zero _)
  | succ fuel ih =>
    intro st h
    rw [residual_loop]
    split
    · split
      · rename_i b g r f1 s1 hs
        dsimp only
        split
        · simp
        · rename_i rlf nread s2 hr
          split
          · simp
          · split
            · simp
            · apply ih
              have := read_runLengthFactor_length _ _ _ _ _ hr
              simp only [hs, List.length_cons] at h
              show s2.length < fuel
              omega
      · simp
    · simp

/-- The suite loop can only fault by a read outside the palette. -/
theorem rlex_suite_fault (env : Env) (DstFormat nXDstRel nYDstRel nDstWidth nDstHeight width : Nat)
    (palette : Nat → Nat) :
    ∀ (n suiteIndex x y : Nat) (dst : Image) (k : Fault),
      rlex_suite env DstFormat nXDstRel nYDstRel nDstWidth nDstHeight width palette n suiteIndex
        x y dst = .fault k → k = .tableRead := by
  intro n
  induction n with
  | zero => intro suiteIndex x y dst k h; simp [rlex_suite] at h
  | succ n ih =>
    intro suiteIndex x y dst k h
    rw [rlex_suite] at h
    split at h
    · cases h; rfl
    · exact ih _ _ _ _ _ h

/-- The record loop of the RLEX decoder only takes bytes from the stream, and
its fuel is never used up. -/
theorem rlex_loop_fuel (env : Env) (bitmapDataByteCount width : Nat)
    (DstFormat nXDstRel nYDstRel nDstWidth nDstHeight : Nat)
    (paletteCount numBits pixelCount : Nat) (palette : Nat → Nat) :
    ∀ (fuel : Nat) (st : RlexState), st.s.length < fuel →
      rlex_loop env bitmapDataByteCount width DstFormat nXDstRel nYDstRel nDstWidth nDstHeight
          paletteCount numBits pixelCount palette fuel st ≠ .fault .outOfFuel ∧
      ∀ st1, rlex_loop env bitmapDataByteCount width DstFormat nXDstRel nYDstRel nDstWidth
          nDstHeight paletteCount numBits pixelCount palette fuel st = .ok st1 →
        st1.s.length ≤ st.s.length := by
  intro fuel
  induction fuel with
  | zero => intro st h; exact absurd h (Nat.not_lt_zero _)
  | succ fuel ih =>
    intro st h
    rw [rlex_loop]
    split
    · split
      · rename_i tmp f1 s1 hs
        split
        · dsimp only
          split
          · simp
          · rename_i rlf nread s2 hr
            have hlen := read_runLengthFactor_length _ _ _ _ _ hr
            simp only [hs, List.length_cons] at h
            split
            · simp
            · split
              · simp
              · split
                · simp
                · split
                  · simp
                  · split
                    · simp
                    · split
                      · rename_i x y dst hsu
                        have hlt : s2.length < fuel := by omega
                        refine ⟨(ih _ hlt).1, fun st1 h1 => ?_⟩
                        have h2 : st1.s.length ≤ s2.length := (ih _ hlt).2 st1 h1
                        simp only [hs, List.length_cons]
                        omega
                      · simp
                      · rename_i k hk
                        have := rlex_suite_fault _ _ _ _ _ _ _ _ _ _ _ _ _ _ hk
                        simp [this]
        · simp
      · simp
    · simp

/-- The palette loop only takes bytes from the stream. -/
theorem rlex_read_palette_length (env : Env) (DstFormat : Nat) :
    ∀ (n i : Nat) (s : wStream) (palette palette1 : Nat → Nat) (s1 : wStream),
      rlex_read_palette env DstFormat n i s palette = some (palette1, s1) →
      s1.length ≤ s.length := by
  intro n
  induction n with
  | zero => intro i s palette palette1 s1 h; simp [rlex_read_palette] at h; simp [h.2]
  | succ n ih =>
    intro i s palette palette1 s1 h
    match s, h with
    | b :: g :: r :: s2, h =>
      rw [rlex_read_palette] at h
      have := ih _ _ _ _ _ h
      simp only [List.length_cons]
      omega
    | [], h => simp [rlex_read_palette] at h
    | [_], h => simp [rlex_read_palette] at h
    | [_, _], h => simp [rlex_read_palette] at h

/-- The RLEX decoder only takes bytes from the stream, and the fuel of its
record loop is never used up. -/
theorem rlex_fuel (env : Env) (s : wStream) (bitmapDataByteCount width height : Nat)
    (dst : Image) (DstFormat nXDstRel nYDstRel nDstWidth nDstHeight : Nat) :
    clear_decompress_subcode_rlex env s bitmapDataByteCount width height dst DstFormat nXDstRel
        nYDstRel nDstWidth nDstHeight ≠ .fault .outOfFuel ∧
      ∀ r, clear_decompress_subcode_rlex env s bitmapDataByteCount width height dst DstFormat
        nXDstRel nYDstRel nDstWidth nDstHeight = .ok r → r.1.length ≤ s.length := by
  unfold clear_decompress_subcode_rlex
  split
  · simp
  · split
    · simp
    · rename_i pc s1 hlen0
      dsimp only
      split
      · simp
      · split
        · simp
        · rename_i palette s2 hp
          have hl := rlex_read_palette_length _ _ _ _ _ _ _ _ hp
          split
          · simp
          · split
            · simp
            · rename_i l hl2
              have key := rlex_loop_fuel env bitmapDataByteCount width DstFormat nXDstRel nYDstRel
                nDstWidth nDstHeight (pc % 256) (add32 l 1) (mul32 width height) palette
                (Stream_GetRemainingLength s2 + 1)
                { s := s2, bitmapDataOffset := add32 1 (pc % 256 * 3), pixelIndex := 0,
                  x := 0, y := 0, dst := dst }
                (by simp [Stream_GetRemainingLength])
              split
              · rename_i st hst
                have h2 : st.s.length ≤ s2.length := key.2 st hst
                split
                · simp
                · simp only [ne_eq, reduceCtorEq, not_false_eq_true, Res.ok.injEq, true_and]
                  rintro r rfl
                  simp only [List.length_cons]
                  omega
              · simp
              · rename_i k hk
                refine ⟨?_, by simp⟩
                intro h
                cases h
                exact key.1 hk

/-- The inner loop of convert_color can only fault by a read outside the source. -/
theorem convert_color_row_fault (env : Env) (DstFormat nXDst : Nat) (src : PixelSource)
    (lineOff SrcFormat : Nat) (palette : Option gdiPalette) (yDst : Nat) :
    ∀ (n x : Nat) (dst : Image) (k : Fault),
      convert_color_row env DstFormat nXDst src lineOff SrcFormat palette yDst n x dst = .fault k →
      k = .bufferRead := by
  intro n
  induction n with
  | zero => intro x dst k h; simp [convert_color_row] at h
  | succ n ih =>
    intro x dst k h
    rw [convert_color_row] at h
    split at h
    · cases h; rfl
    · dsimp only at h
      split at h
      · exact ih _ _ _ h
      · cases h

/-- The outer loop of convert_color can only fault by a read outside the source. -/
theorem convert_color_rows_fault (env : Env) (DstFormat nXDst nYDst nWidth : Nat)
    (src : PixelSource) (nSrcStep SrcFormat : Nat) (palette : Option gdiPalette) :
    ∀ (n y : Nat) (dst : Image) (k : Fault),
      convert_color_rows env DstFormat nXDst nYDst nWidth src nSrcStep SrcFormat palette n y dst =
        .fault k → k = .bufferRead := by
  intro n
  induction n with
  | zero => intro y dst k h; simp [convert_color_rows] at h
  | succ n ih =>
    intro y dst k h
    rw [convert_color_rows] at h
    split at h
    · exact ih _ _ _ h
    · cases h
    · rename_i k1 hk
      cases h
      exact convert_color_row_fault _ _ _ _ _ _ _ _ _ _ _ _ hk

/-- Function convert_color can only fault by a read outside the source. -/
theorem convert_color_fault (env : Env) (dst : Image)
    (DstFormat nXDst nYDst nWidth nHeight : Nat) (src : PixelSource)
    (nSrcStep SrcFormat nDstWidth nDstHeight : Nat) (palette : Option gdiPalette) (k : Fault)
    (h : convert_color env dst DstFormat nXDst nYDst nWidth nHeight src nSrcStep SrcFormat
      nDstWidth nDstHeight palette = .fault k) : k = .bufferRead := by
  unfold convert_color at h
  exact convert_color_rows_fault _ _ _ _ _ _ _ _ _ _ _ _ _ h

theorem Res.map_ok {σ τ : Type} {f : σ → τ} {r : Res σ} {b : τ} (h : r.map f = .ok b) :
    ∃ a, r = .ok a ∧ f a = b := by
  cases r <;> simp [Res.map] at h
  exact ⟨_, rfl, h⟩

theorem Res.map_fail {σ τ : Type} {f : σ → τ} {r : Res σ} {b : τ} (h : r.map f = .fail b) :
    ∃ a, r = .fail a ∧ f a = b := by
  cases r <;> simp [Res.map] at h
  exact ⟨_, rfl, h⟩

theorem Res.map_fault {σ τ : Type} {f : σ → τ} {r : Res σ} {k : Fault}
    (h : r.map f = .fault k) : r = .fault k := by
  cases r <;> simp [Res.map] at h
  rw [h]

/-- The fuel of the tile loop of the subcodec decoder is never used up. -/
theorem subcodecs_loop_fuel (env : Env) (format subcodecByteCount nWidth nHeight : Nat)
    (DstFormat nXDst nYDst nDstWidth nDstHeight : Nat) (palette : Option gdiPalette) :
    ∀ (fuel : Nat) (st : SubcodecState), st.s.length < fuel →
      subcodecs_loop env format subcodecByteCount nWidth nHeight DstFormat nXDst nYDst
        nDstWidth nDstHeight palette fuel st ≠ .fault .outOfFuel := by
  intro fuel
  induction fuel with
  | zero => intro st h; exact absurd h (Nat.not_lt_zero _)
  | succ fuel ih =>
    intro st h
    rw [subcodecs_loop]
    split
    · split
      · rename_i x0 x1 y0 y1 w0 w1 h0 h1 c0 c1 c2 c3 id s1 hs
        simp only [hs, List.length_cons] at h
        dsimp only
        split
        · simp
        · split
          · simp
          · split
            · simp
            · split
              · split
                · simp
                · split
                  · rename_i s2 dst2 hr
                    obtain ⟨d, -, hd⟩ := Res.map_ok hr
                    cases hd
                    apply ih
                    show (List.drop _ s1).length < fuel
                    simp only [List.length_drop]
                    omega
                  · simp
                  · rename_i k hr
                    have := convert_color_fault _ _ _ _ _ _ _ _ _ _ _ _ _ _
                      (Res.map_fault hr)
                    simp [this]
              · split
                · split
                  · rename_i s2 dst2 hr
                    apply ih
                    show s2.length < fuel
                    unfold clear_decompress_nscodec at hr
                    split at hr
                    · cases hr
                    · dsimp only at hr
                      split at hr
                      · cases hr
                        simp only [List.length_drop]
                        omega
                      · cases hr
                  · simp
                  · rename_i k hr
                    unfold clear_decompress_nscodec at hr
                    split at hr
                    · cases hr
                    · dsimp only at hr
                      split at hr <;> cases hr
                · split
                  · split
                    · rename_i s2 dst2 hr
                      apply ih
                      show s2.length < fuel
                      have := (rlex_fuel env s1 _ _ _ _ _ _ _ _ _).2 _ hr
                      simp only at this
                      omega
                    · simp
                    · rename_i k hr
                      intro hk
                      cases hk
                      exact (rlex_fuel env s1 _ _ _ _ _ _ _ _ _).1 hr
                  · simp
      · simp
    · simp

/-- The pixel loop of a short miss only takes bytes from the stream and does not
use fuel. -/
theorem bands_read_short_length (env : Env) (format size : Nat) :
    ∀ (n y : Nat) (s : wStream) (px : Nat → Nat),
      bands_read_short env format size n y s px ≠ .fault .outOfFuel ∧
      ∀ r, bands_read_short env format size n y s px = .ok r → r.2.length ≤ s.length := by
  intro n
  induction n with
  | zero => intro y s px; simp [bands_read_short]
  | succ n ih =>
    intro y s px
    match s with
    | b :: g :: r :: s2 =>
      rw [bands_read_short]
      split
      · split
        · refine ⟨(ih _ _ _).1, fun r h => ?_⟩
          have := (ih _ _ _).2 r h
          simp only [List.length_cons]
          omega
        · simp
      · simp
    | [] => simp [bands_read_short]
    | [_] => simp [bands_read_short]
    | [_, _] => simp [bands_read_short]

/-- A fill loop of the rebuild does not use fuel. -/
theorem vbar_fill_fuel (env : Env) (format color size : Nat) (checked : Bool) :
    ∀ (n p : Nat) (px : Nat → Nat),
      vbar_fill env format color size checked n p px ≠ .fault .outOfFuel := by
  intro n
  induction n with
  | zero => intro p px; simp [vbar_fill]
  | succ n ih =>
    intro p px
    rw [vbar_fill]
    split
    · split
      · exact ih _ _
      · simp
    · split
      · simp
      · exact ih _ _

/-- The copy loop of the rebuild does not use fuel. -/
theorem vbar_copy_short_fuel (env : Env) (format : Nat) (short : CLEAR_VBAR_ENTRY)
    (size : Nat) :
    ∀ (n x p : Nat) (px : Nat → Nat),
      vbar_copy_short env format short size n x p px ≠ .fault .outOfFuel := by
  intro n
  induction n with
  | zero => intro x p px; simp [vbar_copy_short]
  | succ n ih =>
    intro x p px
    rw [vbar_copy_short]
    split
    · simp
    · split
      · split
        · split
          · exact ih _ _ _
          · simp
        · simp
      · simp

/-- The write-out loop of a column does not use fuel. -/
theorem bands_writeout_fuel (env : Env) (format DstFormat nXDstRel nYDstRel i : Nat)
    (vBarEntry : CLEAR_VBAR_ENTRY) :
    ∀ (n y : Nat) (dst : Image),
      bands_writeout env format DstFormat nXDstRel nYDstRel i vBarEntry n y dst ≠
        .fault .outOfFuel := by
  intro n
  induction n with
  | zero => intro y dst; simp [bands_writeout]
  | succ n ih =>
    intro y dst
    rw [bands_writeout]
    split
    · simp
    · split
      · split
        · exact ih _ _
        · simp
      · simp

/-- The case SHORT_VBAR_CACHE_HIT only takes bytes from the stream. -/
theorem bands_short_hit_length (st : BandsState) (vBarHeader : Nat) :
    bands_short_hit st vBarHeader ≠ .fault .outOfFuel ∧
    ∀ r, bands_short_hit st vBarHeader = .ok r → r.1.s.length ≤ st.s.length := by
  unfold bands_short_hit
  dsimp only
  split
  · rename_i yOn s1 hs
    simp [hs]
  · simp

/-- The case SHORT_VBAR_CACHE_MISS only takes bytes from the stream. -/
theorem bands_short_miss_length (env : Env) (format : Nat) (st : BandsState)
    (vBarHeader : Nat) :
    bands_short_miss env format st vBarHeader ≠ .fault .outOfFuel ∧
    ∀ r, bands_short_miss env format st vBarHeader = .ok r → r.1.s.length ≤ st.s.length := by
  unfold bands_short_miss
  dsimp only
  split
  · simp
  · split
    · simp
    · split
      · simp
      · split
        · simp
        · split
          · simp
          · have key := bands_read_short_length env format
              (resize_vbar_entry env
                { (st.ShortVBarStorage st.ShortVBarStorageCursor) with
                    count := (vBarHeader >>> 8 &&& 0x3F) - (vBarHeader &&& 0xFF) }).2.size
              ((vBarHeader >>> 8 &&& 0x3F) - (vBarHeader &&& 0xFF)) 0 st.s
              ((resize_vbar_entry env
                { (st.ShortVBarStorage st.ShortVBarStorageCursor) with
                    count := (vBarHeader >>> 8 &&& 0x3F) - (vBarHeader &&& 0xFF) }).2.pixels.getD
                env.heap)
            split
            · rename_i k hk
              refine ⟨?_, by simp⟩
              intro h
              cases h
              exact key.1 hk
            · simp
            · rename_i px s1 hk
              refine ⟨by simp, ?_⟩
              intro r hr
              cases hr
              exact key.2 _ hk

/-- The three zones of the rebuild do not use fuel. -/
theorem vbar_zones_fuel (env : Env)
    (format colorBkg vBarPixelCount vBarYOn vBarShortPixelCount : Nat)
    (vBarShortEntry : CLEAR_VBAR_ENTRY) (size : Nat) (px : Nat → Nat) :
    vbar_zones env format colorBkg vBarPixelCount vBarYOn vBarShortPixelCount vBarShortEntry
      size px ≠ .fault .outOfFuel := by
  unfold vbar_zones
  dsimp only
  split
  · rename_i k hk
    intro h
    cases h
    exact vbar_fill_fuel _ _ _ _ _ _ _ _ hk
  · simp
  · split
    · rename_i k hk
      intro h
      cases h
      exact vbar_copy_short_fuel _ _ _ _ _ _ _ _ hk
    · simp
    · exact vbar_fill_fuel _ _ _ _ _ _ _ _

/-- The rebuild leaves the stream alone. -/
theorem bands_rebuild_length (env : Env) (format colorBkg vBarHeight : Nat) (st : BandsState)
    (vBarYOn vBarShortPixelCount : Nat) (vBarShortEntry : CLEAR_VBAR_ENTRY) :
    bands_rebuild env format colorBkg vBarHeight st vBarYOn vBarShortPixelCount vBarShortEntry ≠
        .fault .outOfFuel ∧
    ∀ r, bands_rebuild env format colorBkg vBarHeight st vBarYOn vBarShortPixelCount
      vBarShortEntry = .ok r → r.1.s = st.s := by
  unfold bands_rebuild
  dsimp only
  split
  · simp
  · split
    · simp
    · split
      · simp
      · split
        · rename_i k hk
          refine ⟨?_, by simp⟩
          intro h
          cases h
          exact vbar_zones_fuel _ _ _ _ _ _ _ _ _ hk
        · simp
        · refine ⟨by simp, ?_⟩
          intro r hr
          cases hr
          rfl

/-- The resolution of a vBarHeader only takes bytes from the stream. -/
theorem bands_resolve_length (env : Env) (format colorBkg vBarHeight : Nat) (st : BandsState)
    (vBarHeader : Nat) :
    bands_resolve env format colorBkg vBarHeight st vBarHeader ≠ .fault .outOfFuel ∧
    ∀ r, bands_resolve env format colorBkg vBarHeight st vBarHeader = .ok r →
      r.1.s.length ≤ st.s.length := by
  unfold bands_resolve
  dsimp only
  split
  · have key := bands_short_hit_length st vBarHeader
    rcases hq : bands_short_hit st vBarHeader with ⟨st1, yOn, spc, e⟩ | ⟨st1, yOn, spc, e⟩ | k
    · dsimp only
      have hb := bands_rebuild_length env format colorBkg vBarHeight st1 yOn spc e
      refine ⟨hb.1, fun r hr => ?_⟩
      have := key.2 _ hq
      rw [hb.2 r hr]
      exact this
    · simp
    · refine ⟨?_, by simp⟩
      intro h
      cases h
      exact key.1 hq
  · split
    · have key := bands_short_miss_length env format st vBarHeader
      rcases hq : bands_short_miss env format st vBarHeader with
        ⟨st1, yOn, spc, e⟩ | ⟨st1, yOn, spc, e⟩ | k
      · dsimp only
        have hb := bands_rebuild_length env format colorBkg vBarHeight st1 yOn spc e
        refine ⟨hb.1, fun r hr => ?_⟩
        have := key.2 _ hq
        rw [hb.2 r hr]
        exact this
      · simp
      · refine ⟨?_, by simp⟩
        intro h
        cases h
        exact key.1 hq
    · split
      · simp
      · simp

/-- One pass of the column loop only takes bytes from the stream. -/
theorem bands_column_length (env : Env) (format nWidth nHeight DstFormat nXDst nYDst : Nat)
    (xStart yStart yEnd colorBkg i : Nat) (st : BandsState) :
    bands_column env format nWidth nHeight DstFormat nXDst nYDst xStart yStart yEnd colorBkg i
        st ≠ .fault .outOfFuel ∧
    ∀ r, bands_column env format nWidth nHeight DstFormat nXDst nYDst xStart yStart yEnd
      colorBkg i st = .ok r → r.s.length ≤ st.s.length := by
  unfold bands_column
  split
  · rename_i h0 h1 s1 hs
    dsimp only
    split
    · simp
    · have key := bands_resolve_length env format colorBkg (yEnd - yStart + 1)
        { st with s := s1, suboffset := add32 st.suboffset 2 } (le16 h0 h1)
      split
      · rename_i k hk
        refine ⟨?_, by simp⟩
        intro h
        cases h
        exact key.1 hk
      · simp
      · rename_i st2 vBarEntry hk
        have hl : st2.s.length ≤ s1.length := key.2 _ hk
        split
        · simp
        · split
          · constructor
            · intro h
              exact bands_writeout_fuel _ _ _ _ _ _ _ _ _ _ (Res.map_fault h)
            · intro r hr
              obtain ⟨d, -, hd⟩ := Res.map_ok hr
              cases hd
              simp only [hs, List.length_cons]
              omega
          · refine ⟨by simp, ?_⟩
            intro r hr
            cases hr
            simp only [hs, List.length_cons]
            omega
  · simp

/-- The column loop only takes bytes from the stream. -/
theorem bands_columns_length (env : Env) (format nWidth nHeight DstFormat nXDst nYDst : Nat)
    (xStart yStart yEnd colorBkg : Nat) :
    ∀ (n i : Nat) (st : BandsState),
      bands_columns env format nWidth nHeight DstFormat nXDst nYDst xStart yStart yEnd colorBkg
          n i st ≠ .fault .outOfFuel ∧
      ∀ r, bands_columns env format nWidth nHeight DstFormat nXDst nYDst xStart yStart yEnd
        colorBkg n i st = .ok r → r.s.length ≤ st.s.length := by
  intro n
  induction n with
  | zero => intro i st; simp [bands_columns]
  | succ n ih =>
    intro i st
    rw [bands_columns]
    have key := bands_column_length env format nWidth nHeight DstFormat nXDst nYDst xStart yStart
      yEnd colorBkg i st
    split
    · rename_i st1 hk
      refine ⟨(ih _ _).1, fun r hr => ?_⟩
      exact le_trans ((ih _ _).2 r hr) (key.2 _ hk)
    · simp
    · rename_i k hk
      refine ⟨?_, by simp⟩
      intro h
      cases h
      exact key.1 hk

/-- The fuel of the band loop is never used up. -/
theorem bands_loop_fuel (env : Env)
    (format bandsByteCount nWidth nHeight DstFormat nXDst nYDst : Nat) :
    ∀ (fuel : Nat) (st : BandsState), st.s.length < fuel →
      bands_loop env format bandsByteCount nWidth nHeight DstFormat nXDst nYDst fuel st ≠
        .fault .outOfFuel := by
  intro fuel
  induction fuel with
  | zero => intro st h; exact absurd h (Nat.not_lt_zero _)
  | succ fuel ih =>
    intro st h
    rw [bands_loop]
    split
    · split
      · rename_i x0 x1 x2 x3 y0 y1 y2 y3 b g r s1 hs
        simp only [hs, List.length_cons] at h
        dsimp only
        split
        · simp
        · split
          · simp
          · have key := bands_columns_length env format nWidth nHeight DstFormat nXDst nYDst
              (le16 x0 x1) (le16 y0 y1) (le16 y2 y3)
              (env.GetColor format (r % 256) (g % 256) (b % 256) 0xFF)
              (le16 x2 x3 - le16 x0 x1 + 1) 0
              { st with s := s1, suboffset := add32 st.suboffset 11 }
            split
            · rename_i st2 hk
              apply ih
              have : st2.s.length ≤ s1.length := key.2 _ hk
              omega
            · simp
            · rename_i k hk
              intro h
              cases h
              exact key.1 hk
      · simp
    · simp

/-- The glyph stage does not use fuel. -/
theorem glyph_data_fuel (env : Env) (clear : CLEAR_CONTEXT) (s : wStream)
    (glyphFlags nWidth nHeight : Nat) (dst : Image)
    (DstFormat nXDst nYDst nDstWidth nDstHeight : Nat) (palette : Option gdiPalette) :
    clear_decompress_glyph_data env clear s glyphFlags nWidth nHeight dst DstFormat nXDst nYDst
      nDstWidth nDstHeight palette ≠ .fault .outOfFuel := by
  intro h
  unfold clear_decompress_glyph_data at h
  dsimp only at h
  repeat' split at h
  all_goals first
    | cases h
    | exact Fault.noConfusion (convert_color_fault _ _ _ _ _ _ _ _ _ _ _ _ _ _ (Res.map_fault h))

/-- The fuel of the residual decoder is never used up. -/
theorem residual_data_fuel (env : Env) (clear : CLEAR_CONTEXT) (s : wStream)
    (residualByteCount nWidth nHeight : Nat) (dst : Image)
    (DstFormat nXDst nYDst nDstWidth nDstHeight : Nat) (palette : Option gdiPalette) :
    clear_decompress_residual_data env clear s residualByteCount nWidth nHeight dst DstFormat
      nXDst nYDst nDstWidth nDstHeight palette ≠ .fault .outOfFuel := by
  intro h
  unfold clear_decompress_residual_data at h
  split at h
  · cases h
  · split at h
    · rename_i k hk
      cases h
      exact residual_loop_fuel _ _ _ _ _ _ _ (by simp [Stream_GetRemainingLength]) hk
    · cases h
    · dsimp only at h
      split at h
      · cases h
      · have := convert_color_fault _ _ _ _ _ _ _ _ _ _ _ _ _ _ (Res.map_fault h)
        cases this

/-- The fuel of the bands decoder is never used up. -/
theorem bands_data_fuel (env : Env) (clear : CLEAR_CONTEXT) (s : wStream)
    (bandsByteCount nWidth nHeight : Nat) (dst : Image) (DstFormat nXDst nYDst : Nat) :
    clear_decompress_bands_data env clear s bandsByteCount nWidth nHeight dst DstFormat
      nXDst nYDst ≠ .fault .outOfFuel := by
  intro h
  unfold clear_decompress_bands_data at h
  split at h
  · cases h
  · exact bands_loop_fuel _ _ _ _ _ _ _ _ _ _ (by simp [Stream_GetRemainingLength])
      (Res.map_fault h)

/-- The fuel of the subcodec decoder is never used up. -/
theorem subcodecs_data_fuel (env : Env) (clear : CLEAR_CONTEXT) (s : wStream)
    (subcodecByteCount nWidth nHeight : Nat) (dst : Image)
    (DstFormat nXDst nYDst nDstWidth nDstHeight : Nat) (palette : Option gdiPalette) :
    clear_decompress_subcodecs_data env clear s subcodecByteCount nWidth nHeight dst DstFormat
      nXDst nYDst nDstWidth nDstHeight palette ≠ .fault .outOfFuel := by
  intro h
  unfold clear_decompress_subcodecs_data at h
  split at h
  · cases h
  · exact subcodecs_loop_fuel _ _ _ _ _ _ _ _ _ _ _ _ _ (by simp [Stream_GetRemainingLength])
      (Res.map_fault h)

/-- The loop bounds of the embedding are never used up: no call of
clear_decompress ends in the fault outOfFuel. -/
theorem clear_decompress_fuel (env : Env) (clear : CLEAR_CONTEXT) (pSrcData : List Nat)
    (nWidth nHeight : Nat) (pDstData : Option Image)
    (DstFormat nXDst nYDst nDstWidth nDstHeight : Nat) (palette : Option gdiPalette) :
    clear_decompress env clear pSrcData nWidth nHeight pDstData DstFormat nXDst nYDst
      nDstWidth nDstHeight palette ≠ .error .outOfFuel := by
  intro h
  unfold clear_decompress at h
  split at h
  · cases h
  · split at h
    · cases h
    · split at h
      · cases h
      · split at h
        · dsimp only at h
          split at h
          · rename_i k hk
            exact seq_no_fault _ _ _ hk
          · cases h
          · split at h
            · rename_i k hk
              cases h
              exact glyph_data_fuel _ _ _ _ _ _ _ _ _ _ _ _ _ hk
            · cases h
            · unfold clear_decompress_composition at h
              split at h
              · split at h
                · rename_i k hk
                  cases h
                  unfold clear_decompress_payloads at hk
                  dsimp only at hk
                  split at hk
                  · rename_i k1 h1
                    cases hk
                    split at h1
                    · exact residual_data_fuel _ _ _ _ _ _ _ _ _ _ _ _ _ h1
                    · cases h1
                  · cases hk
                  · split at hk
                    · rename_i k1 h1
                      cases hk
                      split at h1
                      · exact bands_data_fuel _ _ _ _ _ _ _ _ _ _ h1
                      · cases h1
                    · cases hk
                    · split at hk
                      · exact subcodecs_data_fuel _ _ _ _ _ _ _ _ _ _ _ _ _ hk
                      · cases hk
                · cases h
                · cases h
              · split at h <;> cases h
        · cases h

/-! ## A frame after the sequence check -/

/-- A frame that passes the preflight checks and the sequence check continues
with the cache reset, the glyph stage and the composition payload. -/
theorem clear_decompress_of_seq_ok (env : Env) (clear clear1 : CLEAR_CONTEXT) (gf sq : Nat)
    (s : List Nat) (nWidth nHeight : Nat) (dst : Image)
    (DstFormat nXDst nYDst nDstWidth nDstHeight : Nat) (palette : Option gdiPalette)
    (hW : nDstWidth ≠ 0) (hH : nDstHeight ≠ 0) (hw : nWidth ≤ 0xFFFF) (hh : nHeight ≤ 0xFFFF)
    (hseq : clear_decompress_seq clear (sq % 256) = .ok clear1) :
    clear_decompress env clear (gf :: sq :: s) nWidth nHeight (some dst) DstFormat nXDst nYDst
      nDstWidth nDstHeight palette =
      match clear_decompress_glyph_data env (clear_decompress_cache_reset clear1 (gf % 256))
          s (gf % 256) nWidth nHeight dst DstFormat nXDst nYDst nDstWidth nDstHeight palette with
      | .fault k => .error k
      | .fail st => .ok ⟨-1, st.clear, some st.dst⟩
      | .ok st =>
        clear_decompress_composition env st (gf % 256) nWidth nHeight DstFormat nXDst nYDst
          nDstWidth nDstHeight palette := by
  unfold clear_decompress
  have h1 : ¬ (nDstWidth = 0 ∨ nDstHeight = 0) := by tauto
  have h2 : ¬ (nWidth > 0xFFFF ∨ nHeight > 0xFFFF) := by omega
  simp only [h1, h2, if_false, hseq]

/-- What a frame that passes the sequence check leaves in seqNumber, whatever it
returns. -/
theorem clear_decompress_seqNumber_of_seq_ok (env : Env) (clear clear1 : CLEAR_CONTEXT)
    (gf sq : Nat) (s : List Nat) (nWidth nHeight : Nat) (dst : Image)
    (DstFormat nXDst nYDst nDstWidth nDstHeight : Nat) (palette : Option gdiPalette)
    (d : Decoded)
    (hW : nDstWidth ≠ 0) (hH : nDstHeight ≠ 0) (hw : nWidth ≤ 0xFFFF) (hh : nHeight ≤ 0xFFFF)
    (hseq : clear_decompress_seq clear (sq % 256) = .ok clear1)
    (h : clear_decompress env clear (gf :: sq :: s) nWidth nHeight (some dst) DstFormat nXDst
      nYDst nDstWidth nDstHeight palette = .ok d) :
    d.clear.seqNumber = (sq % 256 + 1) % 256 := by
  rw [clear_decompress_of_seq_ok env clear clear1 gf sq s nWidth nHeight dst DstFormat nXDst
    nYDst nDstWidth nDstHeight palette hW hH hw hh hseq] at h
  have e1 := seq_ok_seqNumber _ _ _ hseq
  have hg := glyph_data_frame env (clear_decompress_cache_reset clear1 (gf % 256)) s
    (gf % 256) nWidth nHeight dst DstFormat nXDst nYDst nDstWidth nDstHeight palette
  split at h
  · cases h
  · rename_i st hst
    cases h
    obtain ⟨gc, e⟩ := Res.holds_fail hg hst
    simp [e, cache_reset_seqNumber, e1]
  · rename_i st hst
    obtain ⟨gc, e⟩ := Res.holds_ok hg hst
    rw [composition_seqNumber env st _ _ _ _ _ _ _ _ _ d h, e]
    simp [cache_reset_seqNumber, e1]

/-- C25: when a frame with seqNumber byte 255 passes the sequence check, the
context it leaves has seqNumber 0, whatever the frame returns, and the sequence
check of the next frame accepts every seqNumber byte. -/
theorem seqNumber_255_wraps (env : Env) (clear clear1 : CLEAR_CONTEXT)
    (gf sq : Nat) (s : List Nat) (nWidth nHeight : Nat) (dst : Image)
    (DstFormat nXDst nYDst nDstWidth nDstHeight : Nat) (palette : Option gdiPalette)
    (d : Decoded)
    (hW : nDstWidth ≠ 0) (hH : nDstHeight ≠ 0) (hw : nWidth ≤ 0xFFFF) (hh : nHeight ≤ 0xFFFF)
    (h255 : sq % 256 = 255)
    (hseq : clear_decompress_seq clear (sq % 256) = .ok clear1)
    (h : clear_decompress env clear (gf :: sq :: s) nWidth nHeight (some dst) DstFormat nXDst
      nYDst nDstWidth nDstHeight palette = .ok d) :
    d.clear.seqNumber = 0 ∧
      ∀ next : Nat, clear_decompress_seq d.clear (next % 256) =
        .ok { d.clear with seqNumber := (next % 256 + 1) % 256 } := by
  have e := clear_decompress_seqNumber_of_seq_ok env clear clear1 gf sq s nWidth nHeight dst
    DstFormat nXDst nYDst nDstWidth nDstHeight palette d hW hH hw hh hseq h
  rw [h255] at e
  have e0 : d.clear.seqNumber = 0 := by simpa using e
  refine ⟨e0, fun next => ?_⟩
  unfold clear_decompress_seq
  by_cases hn : next % 256 = 0
  · simp [e0, hn]
  · simp [e0, hn]

/-- C25, witness: on a context that expects 255, the frame 00 FF with an empty
composition payload returns 0 and leaves seqNumber 0. -/
theorem seqNumber_255_wraps_witness :
    ({ clear_context_new refEnv with seqNumber := 0 } : CLEAR_CONTEXT).seqNumber = 0 ∧
      ∀ next : Nat,
        clear_decompress_seq ({ clear_context_new refEnv with seqNumber := 0 } : CLEAR_CONTEXT)
          (next % 256) =
        .ok { ({ clear_context_new refEnv with seqNumber := 0 } : CLEAR_CONTEXT) with
                seqNumber := (next % 256 + 1) % 256 } :=
  seqNumber_255_wraps refEnv { clear_context_new refEnv with seqNumber := 255 }
    { clear_context_new refEnv with seqNumber := 0 } 0 255
    [0, 0, 0, 0, 0, 0, 0, 0, 0, 0, 0, 0] 16 16 [] 32 0 0 16 16 none
    ⟨0, { clear_context_new refEnv with seqNumber := 0 }, some []⟩
    (by decide) (by decide) (by decide) (by decide) (by decide) rfl rfl

/-- The sequence check neither reads nor writes the two cursors. -/
theorem seq_cursors (clear : CLEAR_CONTEXT) (seqNumber a b : Nat) :
    clear_decompress_seq { clear with VBarStorageCursor := a, ShortVBarStorageCursor := b }
        seqNumber =
      (clear_decompress_seq clear seqNumber).map
        (fun c => { c with VBarStorageCursor := a, ShortVBarStorageCursor := b }) := by
  unfold clear_decompress_seq
  dsimp only
  split_ifs <;> simp_all [Res.map]

/-- Under CACHE_RESET the cache reset forgets the two cursors. -/
theorem cache_reset_cursors (clear : CLEAR_CONTEXT) (glyphFlags a b : Nat)
    (hf : glyphFlags &&& CLEARCODEC_FLAG_CACHE_RESET ≠ 0) :
    clear_decompress_cache_reset
        { clear with VBarStorageCursor := a, ShortVBarStorageCursor := b } glyphFlags =
      clear_decompress_cache_reset clear glyphFlags ∧
    (clear_decompress_cache_reset clear glyphFlags).VBarStorageCursor = 0 ∧
    (clear_decompress_cache_reset clear glyphFlags).ShortVBarStorageCursor = 0 := by
  unfold clear_decompress_cache_reset
  simp [hf]

/-- Without a bands payload the three payloads leave the two cursors alone. -/
theorem payloads_cursors (env : Env) (st : St)
    (residualByteCount subcodecByteCount nWidth nHeight : Nat)
    (DstFormat nXDst nYDst nDstWidth nDstHeight : Nat) (palette : Option gdiPalette) :
    (clear_decompress_payloads env st residualByteCount 0 subcodecByteCount
      nWidth nHeight DstFormat nXDst nYDst nDstWidth nDstHeight palette).Holds
      (fun st1 => st1.clear.VBarStorageCursor = st.clear.VBarStorageCursor ∧
        st1.clear.ShortVBarStorageCursor = st.clear.ShortVBarStorageCursor) := by
  have hres : (if residualByteCount > 0 then
      clear_decompress_residual_data env st.clear st.s residualByteCount nWidth nHeight st.dst
        DstFormat nXDst nYDst nDstWidth nDstHeight palette else Res.ok st).Holds
      (fun a => a.clear.VBarStorageCursor = st.clear.VBarStorageCursor ∧
        a.clear.ShortVBarStorageCursor = st.clear.ShortVBarStorageCursor) := by
    split
    · refine Res.holds_mono _ ?_ (residual_data_frame env st.clear st.s residualByteCount nWidth
        nHeight st.dst DstFormat nXDst nYDst nDstWidth nDstHeight palette)
      rintro a ⟨tb, e⟩
      simp [e]
    · simp [Res.Holds]
  have hsub : ∀ (b : St), (if subcodecByteCount > 0 then
      clear_decompress_subcodecs_data env b.clear b.s subcodecByteCount nWidth nHeight b.dst
        DstFormat nXDst nYDst nDstWidth nDstHeight palette else Res.ok b).Holds
      (fun a => a.clear.VBarStorageCursor = b.clear.VBarStorageCursor ∧
        a.clear.ShortVBarStorageCursor = b.clear.ShortVBarStorageCursor) := by
    intro b
    split
    · refine Res.holds_mono _ ?_ (subcodecs_data_frame env b.clear b.s subcodecByteCount nWidth
        nHeight b.dst DstFormat nXDst nYDst nDstWidth nDstHeight palette)
      rintro a ⟨ts, e⟩
      simp [e]
    · simp [Res.Holds]
  unfold clear_decompress_payloads
  dsimp only
  split
  · trivial
  · rename_i st1 h1
    have e1 := Res.holds_fail hres h1
    exact e1
  · rename_i st1 h1
    have e1 := Res.holds_ok hres h1
    simp only [gt_iff_lt, lt_self_iff_false, if_false]
    refine Res.holds_mono _ ?_ (hsub st1)
    rintro a ⟨h2, h3⟩
    exact ⟨h2.trans e1.1, h3.trans e1.2⟩

/-- C24: a frame that passes the sequence check has advanced seqNumber to its
seqNumber byte plus one, modulo 256, whatever clear_decompress then returns, in
particular when it returns -1.  Under CACHE_RESET the cursor reset has been
applied before the failure: the outcome does not depend on the cursors the
context had, and both cursors are 0 afterwards unless the frame has a
composition payload header with a non-zero bandsByteCount (the bands decoder may
then have moved them on from 0). -/
theorem failed_frame_keeps_seq_and_reset (env : Env) (clear clear1 : CLEAR_CONTEXT)
    (gf sq : Nat) (s : List Nat) (nWidth nHeight : Nat) (dst : Image)
    (DstFormat nXDst nYDst nDstWidth nDstHeight : Nat) (palette : Option gdiPalette)
    (d : Decoded)
    (hW : nDstWidth ≠ 0) (hH : nDstHeight ≠ 0) (hw : nWidth ≤ 0xFFFF) (hh : nHeight ≤ 0xFFFF)
    (hseq : clear_decompress_seq clear (sq % 256) = .ok clear1)
    (h : clear_decompress env clear (gf :: sq :: s) nWidth nHeight (some dst) DstFormat nXDst
      nYDst nDstWidth nDstHeight palette = .ok d) :
    d.clear.seqNumber = (sq % 256 + 1) % 256 ∧
    ((gf % 256) &&& CLEARCODEC_FLAG_CACHE_RESET ≠ 0 →
      (∀ a b : Nat, clear_decompress env
          { clear with VBarStorageCursor := a, ShortVBarStorageCursor := b } (gf :: sq :: s)
          nWidth nHeight (some dst) DstFormat nXDst nYDst nDstWidth nDstHeight palette = .ok d) ∧
      ((d.clear.VBarStorageCursor = 0 ∧ d.clear.ShortVBarStorageCursor = 0) ∨
        ∃ st r0 r1 r2 r3 b0 b1 b2 b3 c0 c1 c2 c3 s1,
          clear_decompress_glyph_data env (clear_decompress_cache_reset clear1 (gf % 256)) s
            (gf % 256) nWidth nHeight dst DstFormat nXDst nYDst nDstWidth nDstHeight palette =
            .ok st ∧
          st.s = r0 :: r1 :: r2 :: r3 :: b0 :: b1 :: b2 :: b3 :: c0 :: c1 :: c2 :: c3 :: s1 ∧
          0 < le32 b0 b1 b2 b3)) := by
  refine ⟨clear_decompress_seqNumber_of_seq_ok env clear clear1 gf sq s nWidth nHeight dst
    DstFormat nXDst nYDst nDstWidth nDstHeight palette d hW hH hw hh hseq h, fun hf => ⟨?_, ?_⟩⟩
  · intro a b
    have hseq2 : clear_decompress_seq
        { clear with VBarStorageCursor := a, ShortVBarStorageCursor := b } (sq % 256) =
        .ok { clear1 with VBarStorageCursor := a, ShortVBarStorageCursor := b } := by
      rw [seq_cursors, hseq]; rfl
    rw [clear_decompress_of_seq_ok env _ _ gf sq s nWidth nHeight dst DstFormat nXDst
      nYDst nDstWidth nDstHeight palette hW hH hw hh hseq2,
      (cache_reset_cursors clear1 (gf % 256) a b hf).1,
      ← clear_decompress_of_seq_ok env clear clear1 gf sq s nWidth nHeight dst DstFormat nXDst
      nYDst nDstWidth nDstHeight palette hW hH hw hh hseq]
    exact h
  · rw [clear_decompress_of_seq_ok env clear clear1 gf sq s nWidth nHeight dst DstFormat nXDst
      nYDst nDstWidth nDstHeight palette hW hH hw hh hseq] at h
    have hz := (cache_reset_cursors clear1 (gf % 256) 0 0 hf).2
    have hg := glyph_data_frame env (clear_decompress_cache_reset clear1 (gf % 256)) s
      (gf % 256) nWidth nHeight dst DstFormat nXDst nYDst nDstWidth nDstHeight palette
    split at h
    · cases h
    · rename_i st hst
      cases h
      obtain ⟨gc, e⟩ := Res.holds_fail hg hst
      left
      simp [e, hz]
    · rename_i st hst
      obtain ⟨gc, e⟩ := Res.holds_ok hg hst
      have hst0 : st.clear.VBarStorageCursor = 0 ∧ st.clear.ShortVBarStorageCursor = 0 := by
        simp [e, hz]
      unfold clear_decompress_composition at h
      split at h
      · rename_i r0 r1 r2 r3 b0 b1 b2 b3 c0 c1 c2 c3 s1 hs
        by_cases hb : le32 b0 b1 b2 b3 = 0
        · left
          rw [hb] at h
          have hp := payloads_cursors env { st with s := s1 } (le32 r0 r1 r2 r3)
            (le32 c0 c1 c2 c3) nWidth nHeight DstFormat nXDst nYDst nDstWidth nDstHeight palette
          split at h
          · cases h
          · rename_i st1 h1
            cases h
            have := Res.holds_fail hp h1
            simpa [hst0] using this
          · rename_i st1 h1
            cases h
            have := Res.holds_ok hp h1
            simpa [hst0] using this
        · right
          exact ⟨st, r0, r1, r2, r3, b0, b1, b2, b3, c0, c1, c2, c3, s1, hst, hs,
            Nat.pos_of_ne_zero hb⟩
      · left
        split at h <;> cases h <;> exact hst0

/-- C24, witness: on a fresh context with the cursors at 7 and 3, the frame
20 05 (CACHE_RESET, seqNumber 5, no composition payload header) returns -1 and
leaves seqNumber 6 and both cursors 0. -/
theorem failed_frame_keeps_seq_and_reset_witness :
    clear_decompress refEnv
        { clear_context_new refEnv with VBarStorageCursor := 7, ShortVBarStorageCursor := 3 }
        [0x20, 5] 16 16 (some []) 32 0 0 16 16 none =
      .ok ⟨-1, { clear_context_new refEnv with seqNumber := 6 }, some []⟩ ∧
    (⟨-1, { clear_context_new refEnv with seqNumber := 6 }, some []⟩ : Decoded).clear.seqNumber =
      (5 % 256 + 1) % 256 :=
  ⟨rfl, (failed_frame_keeps_seq_and_reset refEnv
    { clear_context_new refEnv with VBarStorageCursor := 7, ShortVBarStorageCursor := 3 }
    { clear_context_new refEnv with
        seqNumber := 6, VBarStorageCursor := 7, ShortVBarStorageCursor := 3 }
    0x20 5 [] 16 16 [] 32 0 0 16 16 none
    ⟨-1, { clear_context_new refEnv with seqNumber := 6 }, some []⟩
    (by decide) (by decide) (by decide) (by decide) rfl rfl).1⟩

/-- The sequence check accepts a frame when the context expects its seqNumber
byte or has seqNumber 0, and then only writes seqNumber. -/
theorem seq_accepts (clear : CLEAR_CONTEXT) (seqNumber : Nat)
    (hacc : clear.seqNumber = 0 ∨ clear.seqNumber = seqNumber) :
    clear_decompress_seq clear seqNumber =
      .ok { clear with seqNumber := (seqNumber + 1) % 256 } := by
  unfold clear_decompress_seq
  dsimp only
  rcases hacc with h | h
  · by_cases hs : seqNumber = 0
    · simp [h, hs]
    · simp [h, hs]
  · by_cases h0 : clear.seqNumber = 0
    · by_cases hs : seqNumber = 0
      · simp [h0, hs]
      · simp [h0, hs]
    · simp [h0, h]

/-- The glyph stage of a frame without GLYPH_INDEX and GLYPH_HIT does nothing. -/
theorem glyph_data_no_flags (env : Env) (clear : CLEAR_CONTEXT) (s : wStream)
    (glyphFlags nWidth nHeight : Nat) (dst : Image)
    (DstFormat nXDst nYDst nDstWidth nDstHeight : Nat) (palette : Option gdiPalette)
    (hi : glyphFlags &&& CLEARCODEC_FLAG_GLYPH_INDEX = 0)
    (hh : glyphFlags &&& CLEARCODEC_FLAG_GLYPH_HIT = 0) :
    clear_decompress_glyph_data env clear s glyphFlags nWidth nHeight dst DstFormat nXDst nYDst
      nDstWidth nDstHeight palette = .ok ⟨clear, s, dst⟩ := by
  unfold clear_decompress_glyph_data
  simp [hi, hh]

/-- A composition payload whose three byte counts are 0 decodes nothing. -/
theorem composition_empty (env : Env) (st : St) (glyphFlags nWidth nHeight : Nat)
    (DstFormat nXDst nYDst nDstWidth nDstHeight : Nat) (palette : Option gdiPalette)
    (r0 r1 r2 r3 b0 b1 b2 b3 c0 c1 c2 c3 : Nat) (s1 : List Nat)
    (hs : st.s = r0 :: r1 :: r2 :: r3 :: b0 :: b1 :: b2 :: b3 :: c0 :: c1 :: c2 :: c3 :: s1)
    (hr : le32 r0 r1 r2 r3 = 0) (hb : le32 b0 b1 b2 b3 = 0) (hc : le32 c0 c1 c2 c3 = 0) :
    clear_decompress_composition env st glyphFlags nWidth nHeight DstFormat nXDst nYDst
      nDstWidth nDstHeight palette = .ok ⟨0, st.clear, some st.dst⟩ := by
  unfold clear_decompress_composition
  rw [hs]
  simp only [hr, hb, hc]
  unfold clear_decompress_payloads
  simp

/-- C19: on a context whose seqNumber accepts the frame, a frame whose
glyphFlags byte is exactly CACHE_RESET and whose three payload byte counts are 0
returns 0, leaves both cursors 0 whatever they were, sets seqNumber to the
seqNumber byte plus one, modulo 256, and changes nothing else. -/
theorem cache_reset_frame (env : Env) (clear : CLEAR_CONTEXT) (gf sq : Nat)
    (r0 r1 r2 r3 b0 b1 b2 b3 c0 c1 c2 c3 : Nat) (rest : List Nat)
    (nWidth nHeight : Nat) (dst : Image)
    (DstFormat nXDst nYDst nDstWidth nDstHeight : Nat) (palette : Option gdiPalette)
    (hW : nDstWidth ≠ 0) (hH : nDstHeight ≠ 0) (hw : nWidth ≤ 0xFFFF) (hh : nHeight ≤ 0xFFFF)
    (hacc : clear.seqNumber = 0 ∨ clear.seqNumber = sq % 256)
    (hgf : gf % 256 = CLEARCODEC_FLAG_CACHE_RESET)
    (hr : le32 r0 r1 r2 r3 = 0) (hb : le32 b0 b1 b2 b3 = 0) (hc : le32 c0 c1 c2 c3 = 0) :
    clear_decompress env clear
      (gf :: sq :: r0 :: r1 :: r2 :: r3 :: b0 :: b1 :: b2 :: b3 :: c0 :: c1 :: c2 :: c3 :: rest)
      nWidth nHeight (some dst) DstFormat nXDst nYDst nDstWidth nDstHeight palette =
      .ok ⟨0, { clear with seqNumber := (sq % 256 + 1) % 256,
                           VBarStorageCursor := 0, ShortVBarStorageCursor := 0 }, some dst⟩ := by
  rw [clear_decompress_of_seq_ok env clear _ gf sq _ nWidth nHeight dst DstFormat nXDst
    nYDst nDstWidth nDstHeight palette hW hH hw hh (seq_accepts clear _ hacc),
    glyph_data_no_flags env _ _ _ _ _ _ _ _ _ _ _ _ (by rw [hgf]; decide) (by rw [hgf]; decide)]
  dsimp only
  rw [composition_empty env _ _ _ _ _ _ _ _ _ _ r0 r1 r2 r3 b0 b1 b2 b3 c0 c1 c2 c3 rest rfl
    hr hb hc]
  simp [clear_decompress_cache_reset, hgf, CLEARCODEC_FLAG_CACHE_RESET]

/-- C19, witness: a context that expects 7, with the cursors at 9 and 4. -/
theorem cache_reset_frame_witness :
    clear_decompress refEnv
      { clear_context_new refEnv with
          seqNumber := 7, VBarStorageCursor := 9, ShortVBarStorageCursor := 4 }
      (0x20 :: 7 :: 0 :: 0 :: 0 :: 0 :: 0 :: 0 :: 0 :: 0 :: 0 :: 0 :: 0 :: 0 :: [])
      16 16 (some []) 32 0 0 16 16 none =
      .ok ⟨0, { ({ clear_context_new refEnv with
                    seqNumber := 7, VBarStorageCursor := 9, ShortVBarStorageCursor := 4 } :
                  CLEAR_CONTEXT) with
                seqNumber := (7 % 256 + 1) % 256,
                VBarStorageCursor := 0, ShortVBarStorageCursor := 0 }, some []⟩ :=
  cache_reset_frame refEnv
    { clear_context_new refEnv with
        seqNumber := 7, VBarStorageCursor := 9, ShortVBarStorageCursor := 4 }
    0x20 7 0 0 0 0 0 0 0 0 0 0 0 0 [] 16 16 [] 32 0 0 16 16 none
    (by decide) (by decide) (by decide) (by decide) (Or.inr rfl) rfl rfl rfl rfl

/-- C20: on a context whose seqNumber accepts the frame, a frame whose
glyphFlags has none of GLYPH_INDEX, GLYPH_HIT and CACHE_RESET set and whose three
payload byte counts are 0 returns 0 and changes only seqNumber: the destination,
the glyph cache, both VBar storages, both cursors and the scratch buffer are
those of before. -/
theorem empty_frame_changes_only_seqNumber (env : Env) (clear : CLEAR_CONTEXT) (gf sq : Nat)
    (r0 r1 r2 r3 b0 b1 b2 b3 c0 c1 c2 c3 : Nat) (rest : List Nat)
    (nWidth nHeight : Nat) (dst : Image)
    (DstFormat nXDst nYDst nDstWidth nDstHeight : Nat) (palette : Option gdiPalette)
    (hW : nDstWidth ≠ 0) (hH : nDstHeight ≠ 0) (hw : nWidth ≤ 0xFFFF) (hh : nHeight ≤ 0xFFFF)
    (hacc : clear.seqNumber = 0 ∨ clear.seqNumber = sq % 256)
    (hi : (gf % 256) &&& CLEARCODEC_FLAG_GLYPH_INDEX = 0)
    (hg : (gf % 256) &&& CLEARCODEC_FLAG_GLYPH_HIT = 0)
    (hcr : (gf % 256) &&& CLEARCODEC_FLAG_CACHE_RESET = 0)
    (hr : le32 r0 r1 r2 r3 = 0) (hb : le32 b0 b1 b2 b3 = 0) (hc : le32 c0 c1 c2 c3 = 0) :
    clear_decompress env clear
      (gf :: sq :: r0 :: r1 :: r2 :: r3 :: b0 :: b1 :: b2 :: b3 :: c0 :: c1 :: c2 :: c3 :: rest)
      nWidth nHeight (some dst) DstFormat nXDst nYDst nDstWidth nDstHeight palette =
      .ok ⟨0, { clear with seqNumber := (sq % 256 + 1) % 256 }, some dst⟩ := by
  rw [clear_decompress_of_seq_ok env clear _ gf sq _ nWidth nHeight dst DstFormat nXDst
    nYDst nDstWidth nDstHeight palette hW hH hw hh (seq_accepts clear _ hacc),
    glyph_data_no_flags env _ _ _ _ _ _ _ _ _ _ _ _ hi hg]
  dsimp only
  rw [composition_empty env _ _ _ _ _ _ _ _ _ _ r0 r1 r2 r3 b0 b1 b2 b3 c0 c1 c2 c3 rest rfl
    hr hb hc]
  simp [clear_decompress_cache_reset, hcr]

/-- C20, witness: the frame 00 03 with an empty composition payload on a
context that expects 3 and has rendered before. -/
theorem empty_frame_changes_only_seqNumber_witness :
    clear_decompress refEnv
      { clear_context_new refEnv with
          seqNumber := 3, VBarStorageCursor := 9, ShortVBarStorageCursor := 4 }
      (0 :: 3 :: 0 :: 0 :: 0 :: 0 :: 0 :: 0 :: 0 :: 0 :: 0 :: 0 :: 0 :: 0 :: [])
      16 16 (some [(1, 1, 5)]) 32 0 0 16 16 none =
      .ok ⟨0, { ({ clear_context_new refEnv with
                    seqNumber := 3, VBarStorageCursor := 9, ShortVBarStorageCursor := 4 } :
                  CLEAR_CONTEXT) with seqNumber := (3 % 256 + 1) % 256 }, some [(1, 1, 5)]⟩ :=
  empty_frame_changes_only_seqNumber refEnv
    { clear_context_new refEnv with
        seqNumber := 3, VBarStorageCursor := 9, ShortVBarStorageCursor := 4 }
    0 3 0 0 0 0 0 0 0 0 0 0 0 0 [] 16 16 [(1, 1, 5)] 32 0 0 16 16 none
    (by decide) (by decide) (by decide) (by decide) (Or.inr rfl) rfl rfl rfl rfl rfl rfl

/-! ## The band record and the vBarHeader -/

/-- C15: when the band loop of clear_decompress_bands_data reads a band record
whose header has xEnd < xStart, yEnd < yStart or yEnd - yStart + 1 > 52, it
returns FALSE, and the destination, the two VBar storages and their cursors are
as they were when the record was reached: no column of the band is written or
stored.  In particular the function returns FALSE on a payload that starts with
such a record and leaves the context and the destination as they were. -/
theorem bands_rejects_bad_band (env : Env) (format bandsByteCount nWidth nHeight : Nat)
    (DstFormat nXDst nYDst fuel : Nat) (st : BandsState)
    (x0 x1 x2 x3 y0 y1 y2 y3 b g r : Nat) (s1 : wStream)
    (hs : st.s = x0 :: x1 :: x2 :: x3 :: y0 :: y1 :: y2 :: y3 :: b :: g :: r :: s1)
    (hlt : st.suboffset < bandsByteCount)
    (hbad : le16 x2 x3 < le16 x0 x1 ∨ le16 y2 y3 < le16 y0 y1 ∨
      le16 y2 y3 - le16 y0 y1 + 1 > 52) :
    (∃ st1, bands_loop env format bandsByteCount nWidth nHeight DstFormat nXDst nYDst
        (fuel + 1) st = .fail st1 ∧
      st1.dst = st.dst ∧ st1.VBarStorage = st.VBarStorage ∧
      st1.ShortVBarStorage = st.ShortVBarStorage ∧
      st1.VBarStorageCursor = st.VBarStorageCursor ∧
      st1.ShortVBarStorageCursor = st.ShortVBarStorageCursor) ∧
    ∀ clear : CLEAR_CONTEXT, format = clear.format → st.suboffset = 0 →
      bandsByteCount ≤ st.s.length →
      ∃ s2, clear_decompress_bands_data env clear st.s bandsByteCount nWidth nHeight st.dst
        DstFormat nXDst nYDst = .fail ⟨clear, s2, st.dst⟩ := by
  have key : ∀ (fuel : Nat) (st : BandsState),
      st.s = x0 :: x1 :: x2 :: x3 :: y0 :: y1 :: y2 :: y3 :: b :: g :: r :: s1 →
      st.suboffset < bandsByteCount →
      ∃ st1, bands_loop env format bandsByteCount nWidth nHeight DstFormat nXDst nYDst
          (fuel + 1) st = .fail st1 ∧
        st1.dst = st.dst ∧ st1.VBarStorage = st.VBarStorage ∧
        st1.ShortVBarStorage = st.ShortVBarStorage ∧
        st1.VBarStorageCursor = st.VBarStorageCursor ∧
        st1.ShortVBarStorageCursor = st.ShortVBarStorageCursor := by
    intro fuel st hs hlt
    rw [bands_loop]
    simp only [hlt, if_true, hs]
    by_cases hx : le16 x2 x3 < le16 x0 x1
    · simp only [hx, if_true]
      exact ⟨_, rfl, rfl, rfl, rfl, rfl, rfl⟩
    · by_cases hy : le16 y2 y3 < le16 y0 y1
      · simp only [hx, hy, if_true, if_false]
        exact ⟨_, rfl, rfl, rfl, rfl, rfl, rfl⟩
      · have h52 : le16 y2 y3 - le16 y0 y1 + 1 > 52 := by
          rcases hbad with h | h | h
          · exact absurd h hx
          · exact absurd h hy
          · exact h
        simp only [hx, hy, if_false]
        rw [bands_columns, bands_column]
        dsimp only
        cases s1 with
        | nil => exact ⟨_, rfl, rfl, rfl, rfl, rfl, rfl⟩
        | cons h0 t =>
          cases t with
          | nil => exact ⟨_, rfl, rfl, rfl, rfl, rfl, rfl⟩
          | cons h1 t1 =>
            simp only [h52, if_true]
            exact ⟨_, rfl, rfl, rfl, rfl, rfl, rfl⟩
  refine ⟨key fuel st hs hlt, ?_⟩
  intro clear hf h0 hlen
  unfold clear_decompress_bands_data
  have hl : ¬ Stream_GetRemainingLength st.s < bandsByteCount := by
    unfold Stream_GetRemainingLength; omega
  simp only [hl, if_false]
  obtain ⟨st1, e, e1, e2, e3, e4, e5⟩ := key (Stream_GetRemainingLength st.s)
    { s := st.s, suboffset := 0,
      VBarStorageCursor := clear.VBarStorageCursor, VBarStorage := clear.VBarStorage,
      ShortVBarStorageCursor := clear.ShortVBarStorageCursor,
      ShortVBarStorage := clear.ShortVBarStorage, dst := st.dst } hs (by simpa [h0] using hlt)
  subst hf
  rw [e]
  refine ⟨st1.s, ?_⟩
  simp only [Res.map]
  dsimp only at e1 e2 e3 e4 e5
  rw [e1, e2, e3, e4, e5]

/-- C15, witness: a band 0..0 x 0..52 (53 rows) at the start of a payload. -/
theorem bands_rejects_bad_band_witness :
    ∃ s2, clear_decompress_bands_data refEnv (clear_context_new refEnv)
        [0, 0, 0, 0, 0, 0, 52, 0, 0, 0, 0xFF, 0x00, 0x40, 0x00] 14 1 1 [] 32 0 0 =
      .fail ⟨clear_context_new refEnv, s2, []⟩ :=
  (bands_rejects_bad_band refEnv 32 14 1 1 32 0 0 14
    ⟨[0, 0, 0, 0, 0, 0, 52, 0, 0, 0, 0xFF, 0x00, 0x40, 0x00], 0, 0,
      (clear_context_new refEnv).VBarStorage, 0, (clear_context_new refEnv).ShortVBarStorage, []⟩
    0 0 0 0 0 0 52 0 0 0 0xFF [0x00, 0x40, 0x00] rfl (by decide)
    (Or.inr (Or.inr (by decide)))).2 (clear_context_new refEnv) rfl rfl (by decide)

/-- A mask of bits 14 and above only looks at the bits 14 and above. -/
theorem and_high_bits (q r : Nat) (hr : r < 16384) (m : Nat) :
    (16384 * q + r) &&& (16384 * m) = 16384 * (q &&& m) := by
  apply Nat.eq_of_testBit_eq
  intro j
  have h14 : (16384 : Nat) = 2 ^ 14 := by norm_num
  rw [h14] at hr ⊢
  rw [Nat.testBit_and, Nat.testBit_mul_pow_two_add _ hr, Nat.testBit_mul_pow_two,
    Nat.testBit_mul_pow_two, Nat.testBit_and]
  by_cases hj : j < 14
  · simp [hj, Nat.not_le.mpr hj]
  · simp [hj, Nat.le_of_not_lt hj]


/-- Stream_Read_UINT16 yields a 16-bit value. -/
theorem le16_lt (b0 b1 : Nat) : le16 b0 b1 < 65536 := by
  unfold le16
  omega

/-- Exactly one of the three tests of lines 675, 698 and 758 holds for a 16-bit
vBarHeader. -/
theorem vBarHeader_tests (vBarHeader : Nat) (h16 : vBarHeader < 65536) :
    (vBarHeader &&& 0xC000 = 0x4000 ∧ vBarHeader &&& 0xC000 ≠ 0x0000 ∧
        vBarHeader &&& 0x8000 ≠ 0x8000) ∨
      (vBarHeader &&& 0xC000 ≠ 0x4000 ∧ vBarHeader &&& 0xC000 = 0x0000 ∧
        vBarHeader &&& 0x8000 ≠ 0x8000) ∨
      (vBarHeader &&& 0xC000 ≠ 0x4000 ∧ vBarHeader &&& 0xC000 ≠ 0x0000 ∧
        vBarHeader &&& 0x8000 = 0x8000) := by
  have hq : vBarHeader / 16384 < 4 := by omega
  have hr : vBarHeader % 16384 < 16384 := Nat.mod_lt _ (by norm_num)
  have hsplit : vBarHeader = 16384 * (vBarHeader / 16384) + vBarHeader % 16384 :=
    (Nat.div_add_mod vBarHeader 16384).symm
  have hC : vBarHeader &&& 0xC000 = 16384 * ((vBarHeader / 16384) &&& 3) := by
    conv_lhs => rw [hsplit]
    exact and_high_bits _ _ hr 3
  have h8 : vBarHeader &&& 0x8000 = 16384 * ((vBarHeader / 16384) &&& 2) := by
    conv_lhs => rw [hsplit]
    exact and_high_bits _ _ hr 2
  rw [hC, h8]
  generalize vBarHeader / 16384 = q at hq
  interval_cases q <;> decide

/-- C27: for every 16-bit vBarHeader exactly one of the three tests of lines
675, 698 and 758 holds, so that a header that is neither a SHORT_VBAR_CACHE_HIT
nor a SHORT_VBAR_CACHE_MISS is resolved as a VBAR_CACHE_HIT and never as an
invalid vBarHeader; the index of a short hit is below CLEARCODEC_VBAR_SHORT_SIZE
and the index of a full hit below CLEARCODEC_VBAR_SIZE. -/
theorem vBarHeader_three_cases (env : Env) (format colorBkg vBarHeight : Nat) (st : BandsState)
    (vBarHeader : Nat) (h16 : vBarHeader < 65536) :
    ((vBarHeader &&& 0xC000 = 0x4000 ∧ vBarHeader &&& 0xC000 ≠ 0x0000 ∧
        vBarHeader &&& 0x8000 ≠ 0x8000) ∨
      (vBarHeader &&& 0xC000 ≠ 0x4000 ∧ vBarHeader &&& 0xC000 = 0x0000 ∧
        vBarHeader &&& 0x8000 ≠ 0x8000) ∨
      (vBarHeader &&& 0xC000 ≠ 0x4000 ∧ vBarHeader &&& 0xC000 ≠ 0x0000 ∧
        vBarHeader &&& 0x8000 = 0x8000)) ∧
    (vBarHeader &&& 0xC000 ≠ 0x4000 → vBarHeader &&& 0xC000 ≠ 0x0000 →
      bands_resolve env format colorBkg vBarHeight st vBarHeader =
        .ok (st, st.VBarStorage (vBarHeader &&& 0x7FFF))) ∧
    vBarHeader &&& 0x3FFF < CLEARCODEC_VBAR_SHORT_SIZE ∧
    vBarHeader &&& 0x7FFF < CLEARCODEC_VBAR_SIZE := by
  have hcases := vBarHeader_tests vBarHeader h16
  refine ⟨hcases, ?_, ?_, ?_⟩
  · intro h1 h2
    have h3 : vBarHeader &&& 0x8000 = 0x8000 := by
      rcases hcases with ⟨a, _, _⟩ | ⟨_, b, _⟩ | ⟨_, _, c⟩
      · exact absurd a h1
      · exact absurd b h2
      · exact c
    unfold bands_resolve
    simp only [h1, h2, h3, if_false, if_true]
  · have := Nat.and_pow_two_sub_one_eq_mod vBarHeader 14
    norm_num at this
    rw [this]
    exact Nat.mod_lt _ (by decide)
  · have := Nat.and_pow_two_sub_one_eq_mod vBarHeader 15
    norm_num at this
    rw [this]
    exact Nat.mod_lt _ (by decide)

/-- C27, witness: the header 0x8005 is a VBAR_CACHE_HIT of slot 5. -/
theorem vBarHeader_three_cases_witness :
    bands_resolve refEnv 32 0 1
      ⟨[], 0, 0, fun _ => ⟨0, 0, none⟩, 0, fun _ => ⟨0, 0, none⟩, []⟩ 0x8005 =
      .ok (⟨[], 0, 0, fun _ => ⟨0, 0, none⟩, 0, fun _ => ⟨0, 0, none⟩, []⟩,
        (fun _ => (⟨0, 0, none⟩ : CLEAR_VBAR_ENTRY)) (0x8005 &&& 0x7FFF)) :=
  (vBarHeader_three_cases refEnv 32 0 1
    ⟨[], 0, 0, fun _ => ⟨0, 0, none⟩, 0, fun _ => ⟨0, 0, none⟩, []⟩ 0x8005 (by decide)).2.1
    (by decide) (by decide)

/-! ## The rebuild of a full VBar -/

/-- A fill loop that returns TRUE, with a colour that can be written, has set
the `n` cells from `p` on to the colour and no other cell. -/
theorem vbar_fill_ok (env : Env) (format color size : Nat) (checked : Bool)
    (hw : env.WriteColor format color = true) :
    ∀ (n p : Nat) (px : Nat → Nat) (r : Nat × (Nat → Nat)),
      vbar_fill env format color size checked n p px = .ok r →
      r.1 = p + n ∧ ∀ j, r.2 j = if p ≤ j ∧ j < p + n then color else px j := by
  intro n
  induction n with
  | zero =>
    intro p px r h
    rw [vbar_fill] at h
    cases h
    refine ⟨rfl, fun j => ?_⟩
    rw [if_neg (by omega)]
  | succ n ih =>
    intro p px r h
    rw [vbar_fill] at h
    simp only [hw, if_true] at h
    split at h
    · obtain ⟨e1, e2⟩ := ih _ _ _ h
      refine ⟨by omega, fun j => ?_⟩
      rw [e2 j]
      by_cases hj : j = p
      · subst hj
        simp
      · have h1 : (p + 1 ≤ j ∧ j < p + 1 + n) ↔ (p ≤ j ∧ j < p + (n + 1)) := by omega
        simp only [h1, Function.update_noteq hj]
    · cases h

/-- A fill loop whose cells lie inside the buffer returns TRUE when the colour
can be written. -/
theorem vbar_fill_total (env : Env) (format color size : Nat) (checked : Bool)
    (hw : env.WriteColor format color = true) :
    ∀ (n p : Nat) (px : Nat → Nat), p + n ≤ size →
      ∃ r, vbar_fill env format color size checked n p px = .ok r := by
  intro n
  induction n with
  | zero => intro p px _; exact ⟨_, rfl⟩
  | succ n ih =>
    intro p px h
    rw [vbar_fill]
    have hp : p < size := by omega
    simp only [hw, if_true, hp]
    exact ih _ _ (by omega)

/-- A copy loop that returns TRUE has copied the `n` cells from `x` on of the
short entry to the cells from `p` on and has written no other cell. -/
theorem vbar_copy_short_ok (env : Env) (format : Nat) (short : CLEAR_VBAR_ENTRY) (size : Nat)
    (d : Nat → Nat) :
    ∀ (n x p : Nat) (px : Nat → Nat) (r : Nat × (Nat → Nat)),
      vbar_copy_short env format short size n x p px = .ok r →
      r.1 = p + n ∧
      ∀ j, r.2 j = if p ≤ j ∧ j < p + n then (short.pixels.getD d) (x + (j - p)) else px j := by
  intro n
  induction n with
  | zero =>
    intro x p px r h
    rw [vbar_copy_short] at h
    cases h
    refine ⟨rfl, fun j => ?_⟩
    rw [if_neg (by omega)]
  | succ n ih =>
    intro x p px r h
    rw [vbar_copy_short] at h
    split at h
    · cases h
    · rename_i sp hsp
      split at h
      · split at h
        · split at h
          · obtain ⟨e1, e2⟩ := ih _ _ _ _ h
            refine ⟨by omega, fun j => ?_⟩
            rw [e2 j]
            by_cases hj : j = p
            · subst hj
              simp [hsp]
            · have h1 : (p + 1 ≤ j ∧ j < p + 1 + n) ↔ (p ≤ j ∧ j < p + (n + 1)) := by omega
              simp only [h1, Function.update_noteq hj]
              split
              · rename_i hin
                have : x + 1 + (j - (p + 1)) = x + (j - p) := by omega
                rw [this]
              · rfl
          · cases h
        · cases h
      · cases h

/-- A copy loop whose cells lie inside the two buffers returns TRUE when the
colours it copies can be written. -/
theorem vbar_copy_short_total (env : Env) (format : Nat) (short : CLEAR_VBAR_ENTRY) (size : Nat)
    (hw : ∀ c, env.WriteColor format c = true) :
    ∀ (n x p : Nat) (px : Nat → Nat), p + n ≤ size → x + n ≤ short.size →
      (n ≠ 0 → short.pixels ≠ none) →
      ∃ r, vbar_copy_short env format short size n x p px = .ok r := by
  intro n
  induction n with
  | zero => intro x p px _ _ _; exact ⟨_, rfl⟩
  | succ n ih =>
    intro x p px h1 h2 h3
    rw [vbar_copy_short]
    cases hsp : short.pixels with
    | none => exact absurd hsp (h3 (by omega))
    | some sp =>
      have hx : x < short.size := by omega
      have hp : p < size := by omega
      simp only [hx, hw, if_true, hp]
      exact ih _ _ _ (by omega) (by omega) (fun _ => by simp [hsp])

/-- The three zones of a rebuild that returns TRUE, with a background colour
that can be written: the cells below vBarPixelCount hold the pixels of the short
entry from row vBarYOn on and the background colour elsewhere, and no cell from
vBarPixelCount on is written. -/
theorem vbar_zones_ok (env : Env) (format colorBkg vBarPixelCount vBarYOn : Nat)
    (vBarShortPixelCount : Nat) (vBarShortEntry : CLEAR_VBAR_ENTRY) (size : Nat)
    (px : Nat → Nat) (d : Nat → Nat) (r : Nat × (Nat → Nat))
    (hw : env.WriteColor format colorBkg = true)
    (h : vbar_zones env format colorBkg vBarPixelCount vBarYOn vBarShortPixelCount
      vBarShortEntry size px = .ok r) :
    r.1 = vBarPixelCount ∧
    ∀ j, r.2 j =
      if j < vBarPixelCount then
        (if vBarYOn ≤ j ∧ j < vBarYOn + vBarShortPixelCount then
          (vBarShortEntry.pixels.getD d) (j - vBarYOn) else colorBkg)
      else px j := by
  unfold vbar_zones at h
  dsimp only at h
  split at h
  · cases h
  · cases h
  · rename_i p1 px1 h1
    obtain ⟨a1, a2⟩ := vbar_fill_ok env format colorBkg size false hw _ _ _ _ h1
    split at h
    · cases h
    · cases h
    · rename_i p2 px2 h2
      obtain ⟨b1, b2⟩ := vbar_copy_short_ok env format vBarShortEntry size d _ _ _ _ _ h2
      obtain ⟨c1, c2⟩ := vbar_fill_ok env format colorBkg size true hw _ _ _ _ h
      dsimp only at a1 a2 b1 b2 c1 c2
      constructor
      · rw [c1, b1, a1]
        split_ifs <;> omega
      · intro j
        rw [c2 j, b2 j, a2 j, b1, a1]
        simp only [Nat.zero_add]
        split_ifs <;> first | rfl | (exfalso; omega)

/-- The three zones of a rebuild return TRUE when every colour can be written,
the buffer holds vBarPixelCount cells and the short entry holds its
vBarShortPixelCount pixels. -/
theorem vbar_zones_total (env : Env) (format colorBkg vBarPixelCount vBarYOn : Nat)
    (vBarShortPixelCount : Nat) (vBarShortEntry : CLEAR_VBAR_ENTRY) (size : Nat)
    (px : Nat → Nat)
    (hw : ∀ c, env.WriteColor format c = true)
    (hsize : vBarPixelCount ≤ size)
    (hshort : vBarShortPixelCount ≤ vBarShortEntry.size)
    (hpx : vBarShortPixelCount ≠ 0 → vBarShortEntry.pixels ≠ none) :
    ∃ r, vbar_zones env format colorBkg vBarPixelCount vBarYOn vBarShortPixelCount
      vBarShortEntry size px = .ok r := by
  unfold vbar_zones
  dsimp only
  obtain ⟨r1, h1⟩ := vbar_fill_total env format colorBkg size false (hw _)
    (if 0 + vBarYOn > vBarPixelCount then
      (if vBarPixelCount > 0 then vBarPixelCount - 0 else 0) else vBarYOn) 0 px
    (by split_ifs <;> omega)
  have e1 := (vbar_fill_ok env format colorBkg size false (hw _) _ _ _ _ h1).1
  obtain ⟨p1, px1⟩ := r1
  rw [h1]
  dsimp only at e1 ⊢
  obtain ⟨r2, h2⟩ := vbar_copy_short_total env format vBarShortEntry size hw
    (if vBarYOn + vBarShortPixelCount > vBarPixelCount then
      (if vBarPixelCount > vBarYOn then vBarPixelCount - vBarYOn else 0)
     else vBarShortPixelCount) 0 p1 px1
    (by rw [e1]; split_ifs <;> omega) (by split_ifs <;> omega)
    (fun hn => hpx (by intro h0; apply hn; rw [h0]; split_ifs <;> omega))
  have e2 := (vbar_copy_short_ok env format vBarShortEntry size (fun _ => 0) _ _ _ _ _ h2).1
  obtain ⟨p2, px2⟩ := r2
  rw [h2]
  dsimp only at e2 ⊢
  exact vbar_fill_total env format colorBkg size true (hw _) _ _ _
    (by rw [e2, e1]; split_ifs <;> omega)

/-- A rebuild that returns TRUE, with a background colour that can be written:
the new entry is stored at the cursor, has count vBarHeight and the pixels of the
three zones, and the cursor has moved on by one, modulo CLEARCODEC_VBAR_SIZE. -/
theorem bands_rebuild_ok (env : Env) (format colorBkg vBarHeight : Nat) (st st1 : BandsState)
    (vBarYOn vBarShortPixelCount : Nat) (vBarShortEntry e : CLEAR_VBAR_ENTRY) (d : Nat → Nat)
    (hw : env.WriteColor format colorBkg = true)
    (h : bands_rebuild env format colorBkg vBarHeight st vBarYOn vBarShortPixelCount
      vBarShortEntry = .ok (st1, e)) :
    st1 = { st with VBarStorage := Function.update st.VBarStorage st.VBarStorageCursor e,
                    VBarStorageCursor := (st.VBarStorageCursor + 1) % CLEARCODEC_VBAR_SIZE } ∧
    e.count = vBarHeight ∧
    ∀ j, (e.pixels.getD d) j =
      if j < vBarHeight then
        (if vBarYOn ≤ j ∧ j < vBarYOn + vBarShortPixelCount then
          (vBarShortEntry.pixels.getD d) (j - vBarYOn) else colorBkg)
      else ((resize_vbar_entry env
        { (st.VBarStorage st.VBarStorageCursor) with count := vBarHeight }).2.pixels.getD d) j := by
  unfold bands_rebuild at h
  dsimp only at h
  split at h
  · cases h
  · split at h
    · cases h
    · split at h
      · cases h
      · rename_i px hpx
        split at h
        · cases h
        · cases h
        · rename_i p1 px1 hz
          obtain ⟨_, z2⟩ := vbar_zones_ok env format colorBkg vBarHeight vBarYOn
            vBarShortPixelCount vBarShortEntry _ px d _ hw hz
          simp only [Res.ok.injEq, Prod.mk.injEq] at h
          obtain ⟨hst, he⟩ := h
          subst he
          refine ⟨hst.symm, rfl, fun j => ?_⟩
          simp only [Option.getD_some, hpx]
          exact z2 j

/-- The rebuild returns TRUE when the cursor is in range, the band has a row,
every colour can be written, the entry at the cursor has a pixel buffer unless
its size is 0, and the short entry holds its vBarShortPixelCount pixels. -/
theorem bands_rebuild_total (env : Env) (format colorBkg vBarHeight : Nat) (st : BandsState)
    (vBarYOn vBarShortPixelCount : Nat) (vBarShortEntry : CLEAR_VBAR_ENTRY)
    (hcur : st.VBarStorageCursor < CLEARCODEC_VBAR_SIZE)
    (hh : 1 ≤ vBarHeight)
    (hw : ∀ c, env.WriteColor format c = true)
    (halloc : (st.VBarStorage st.VBarStorageCursor).size ≠ 0 →
      (st.VBarStorage st.VBarStorageCursor).pixels ≠ none)
    (hshort : vBarShortPixelCount ≤ vBarShortEntry.size)
    (hpx : vBarShortPixelCount ≠ 0 → vBarShortEntry.pixels ≠ none) :
    ∃ r, bands_rebuild env format colorBkg vBarHeight st vBarYOn vBarShortPixelCount
      vBarShortEntry = .ok r := by
  unfold bands_rebuild
  dsimp only
  have hc : ¬ st.VBarStorageCursor ≥ CLEARCODEC_VBAR_SIZE := by omega
  simp only [hc, if_false]
  have hres : ∃ sz px, resize_vbar_entry env
      { (st.VBarStorage st.VBarStorageCursor) with count := vBarHeight } =
      (true, ⟨sz, vBarHeight, some px⟩) ∧ vBarHeight ≤ sz := by
    unfold resize_vbar_entry
    dsimp only
    by_cases hg : vBarHeight > (st.VBarStorage st.VBarStorageCursor).size
    · simp only [hg, if_true]
      exact ⟨vBarHeight, _, rfl, le_refl _⟩
    · simp only [hg, if_false]
      have hs : (st.VBarStorage st.VBarStorageCursor).size ≠ 0 := by omega
      have hp := halloc hs
      cases hq : (st.VBarStorage st.VBarStorageCursor).pixels with
      | none => exact absurd hq hp
      | some px =>
        refine ⟨(st.VBarStorage st.VBarStorageCursor).size, px, ?_, by omega⟩
        simp [hq]
  obtain ⟨sz, px, hr, hsz⟩ := hres
  rw [hr]
  dsimp only
  obtain ⟨⟨p1, px1⟩, hz⟩ := vbar_zones_total env format colorBkg vBarHeight vBarYOn
    vBarShortPixelCount vBarShortEntry sz px hw hsz hshort hpx
  simp only [if_false, Bool.true_eq_false, hz]
  exact ⟨_, rfl⟩

/-- The case SHORT_VBAR_CACHE_HIT writes neither VBarStorage nor its cursor. -/
theorem bands_short_hit_vbar (st : BandsState) (vBarHeader : Nat) :
    (bands_short_hit st vBarHeader).Holds (fun r =>
      r.1.VBarStorage = st.VBarStorage ∧ r.1.VBarStorageCursor = st.VBarStorageCursor) := by
  unfold bands_short_hit
  dsimp only
  split <;> exact ⟨rfl, rfl⟩

/-- The case SHORT_VBAR_CACHE_MISS writes neither VBarStorage nor its cursor. -/
theorem bands_short_miss_vbar (env : Env) (format : Nat) (st : BandsState) (vBarHeader : Nat) :
    (bands_short_miss env format st vBarHeader).Holds (fun r =>
      r.1.VBarStorage = st.VBarStorage ∧ r.1.VBarStorageCursor = st.VBarStorageCursor) := by
  unfold bands_short_miss
  dsimp only
  repeat' split
  all_goals first
    | exact ⟨rfl, rfl⟩
    | trivial

/-- What a SHORT_VBAR_CACHE_MISS that returns TRUE hands to the rebuild: vBarYOn
is the low byte of the header, the short entry has the count
vBarShortPixelCount, and it is the entry stored at the short cursor. -/
theorem bands_short_miss_ok (env : Env) (format : Nat) (st st1 : BandsState)
    (vBarHeader vBarYOn vBarShortPixelCount : Nat) (e : CLEAR_VBAR_ENTRY)
    (h : bands_short_miss env format st vBarHeader =
      .ok (st1, vBarYOn, vBarShortPixelCount, e)) :
    vBarYOn = vBarHeader &&& 0xFF ∧ e.count = vBarShortPixelCount ∧
      st1.ShortVBarStorage st.ShortVBarStorageCursor = e := by
  unfold bands_short_miss at h
  dsimp only at h
  split at h
  · cases h
  · split at h
    · cases h
    · split at h
      · cases h
      · split at h
        · cases h
        · split at h
          · cases h
          · split at h
            · cases h
            · cases h
            · simp only [Res.ok.injEq, Prod.mk.injEq] at h
              obtain ⟨h1, h2, h3, h4⟩ := h
              subst h1 h4
              refine ⟨h2.symm, ?_, by simp⟩
              rw [← h3]
              unfold resize_vbar_entry
              dsimp only
              split <;> rfl

/-- C21: for both short cases, when the short stage has handed vBarYOn,
vBarShortPixelCount and the short entry to the rebuild, the cursor is in range,
the band has a row, every colour can be written, the entry at the cursor has a
pixel buffer unless its size is 0 and the short entry holds its
vBarShortPixelCount pixels, the resolution of the header returns TRUE and stores
at VBarStorage[old VBarStorageCursor] the entry it returns, with count
vBarHeight, whose pixel at every row j < vBarHeight is pixel j - vBarYOn of the
short entry when vBarYOn <= j < vBarYOn + vBarShortPixelCount and colorBkg
otherwise; no cell from row vBarHeight on is written, and VBarStorageCursor
becomes (old cursor + 1) mod CLEARCODEC_VBAR_SIZE. -/
theorem short_cases_rebuild_vbar (env : Env) (format colorBkg vBarHeight : Nat)
    (st st1 : BandsState) (vBarHeader vBarYOn vBarShortPixelCount : Nat)
    (vBarShortEntry : CLEAR_VBAR_ENTRY)
    (hcase : (vBarHeader &&& 0xC000 = 0x4000 ∧
        bands_short_hit st vBarHeader =
          .ok (st1, vBarYOn, vBarShortPixelCount, vBarShortEntry)) ∨
      (vBarHeader &&& 0xC000 = 0x0000 ∧
        bands_short_miss env format st vBarHeader =
          .ok (st1, vBarYOn, vBarShortPixelCount, vBarShortEntry)))
    (hcur : st.VBarStorageCursor < CLEARCODEC_VBAR_SIZE)
    (hh : 1 ≤ vBarHeight)
    (hw : ∀ c, env.WriteColor format c = true)
    (halloc : (st.VBarStorage st.VBarStorageCursor).size ≠ 0 →
      (st.VBarStorage st.VBarStorageCursor).pixels ≠ none)
    (hshort : vBarShortPixelCount ≤ vBarShortEntry.size)
    (hpx : vBarShortPixelCount ≠ 0 → vBarShortEntry.pixels ≠ none) :
    ∃ e, bands_resolve env format colorBkg vBarHeight st vBarHeader =
        .ok ({ st1 with
                VBarStorage := Function.update st.VBarStorage st.VBarStorageCursor e,
                VBarStorageCursor := (st.VBarStorageCursor + 1) % CLEARCODEC_VBAR_SIZE }, e) ∧
      e.count = vBarHeight ∧
      (∀ j, j < vBarHeight → (e.pixels.getD env.heap) j =
        if vBarYOn ≤ j ∧ j < vBarYOn + vBarShortPixelCount then
          (vBarShortEntry.pixels.getD env.heap) (j - vBarYOn) else colorBkg) ∧
      (∀ j, vBarHeight ≤ j → (e.pixels.getD env.heap) j =
        ((resize_vbar_entry env
          { (st.VBarStorage st.VBarStorageCursor) with count := vBarHeight }).2.pixels.getD
            env.heap) j) := by
  have hv : st1.VBarStorage = st.VBarStorage ∧ st1.VBarStorageCursor = st.VBarStorageCursor := by
    rcases hcase with ⟨_, hc⟩ | ⟨_, hc⟩
    · have := bands_short_hit_vbar st vBarHeader
      rw [hc] at this
      exact this
    · have := bands_short_miss_vbar env format st vBarHeader
      rw [hc] at this
      exact this
  have hres : bands_resolve env format colorBkg vBarHeight st vBarHeader =
      bands_rebuild env format colorBkg vBarHeight st1 vBarYOn vBarShortPixelCount
        vBarShortEntry := by
    unfold bands_resolve
    dsimp only
    rcases hcase with ⟨hb, hc⟩ | ⟨hb, hc⟩
    · simp only [hb, if_true, hc]
    · have hb1 : ¬ vBarHeader &&& 0xC000 = 0x4000 := by rw [hb]; decide
      rw [if_neg hb1, if_pos hb, hc]
  obtain ⟨⟨st2, e⟩, hr⟩ := bands_rebuild_total env format colorBkg vBarHeight st1 vBarYOn
    vBarShortPixelCount vBarShortEntry (by rw [hv.2]; exact hcur) hh hw
    (by rw [hv.1, hv.2]; exact halloc) hshort hpx
  obtain ⟨e1, e2, e3⟩ := bands_rebuild_ok env format colorBkg vBarHeight st1 st2 vBarYOn
    vBarShortPixelCount vBarShortEntry e env.heap (hw _) hr
  rw [hv.1, hv.2] at e1 e3
  refine ⟨e, ?_, e2, ?_, ?_⟩
  · rw [hres, hr, e1]
  · intro j hj
    rw [e3 j, if_pos hj]
  · intro j hj
    rw [e3 j, if_neg (by omega)]

/-- C21, witness: a SHORT_VBAR_CACHE_HIT of a short slot that holds the two
pixels 0xA and 0xB, with vBarYOn 1 and a band of five rows, on a VBarStorage
whose slot at the cursor 7 has room for eight pixels: the rebuilt entry has
count 5 and the rows background, 0xA, 0xB, background, background. -/
theorem short_cases_rebuild_vbar_witness :
    ∃ e : CLEAR_VBAR_ENTRY, e.count = 5 ∧
      (e.pixels.getD refEnv.heap) 0 = 0xFF0000FF ∧
      (e.pixels.getD refEnv.heap) 1 = 0xA ∧
      (e.pixels.getD refEnv.heap) 2 = 0xB ∧
      (e.pixels.getD refEnv.heap) 3 = 0xFF0000FF ∧
      (e.pixels.getD refEnv.heap) 4 = 0xFF0000FF ∧
      (e.pixels.getD refEnv.heap) 5 = 7 :=
  (short_cases_rebuild_vbar refEnv 32 0xFF0000FF 5
    ⟨[1], 0, 7, fun _ => ⟨8, 0, some (fun _ => 7)⟩, 0,
      fun _ => ⟨2, 2, some (fun i => if i = 0 then 0xA else 0xB)⟩, []⟩
    ⟨[], 1, 7, fun _ => ⟨8, 0, some (fun _ => 7)⟩, 0,
      fun _ => ⟨2, 2, some (fun i => if i = 0 then 0xA else 0xB)⟩, []⟩
    0x4003 1 2 ⟨2, 2, some (fun i => if i = 0 then 0xA else 0xB)⟩
    (Or.inl ⟨by decide, rfl⟩) (by decide) (by decide)
    (fun _ => rfl) (fun _ => Option.some_ne_none _) (le_refl _)
    (fun _ => Option.some_ne_none _)).elim
    (fun e h => ⟨e, h.2.1,
      (h.2.2.1 0 (by decide)).trans rfl, (h.2.2.1 1 (by decide)).trans rfl,
      (h.2.2.1 2 (by decide)).trans rfl, (h.2.2.1 3 (by decide)).trans rfl,
      (h.2.2.1 4 (by decide)).trans rfl, (h.2.2.2 5 (by decide)).trans rfl⟩)

/-- C17: when a SHORT_VBAR_CACHE_MISS column has stored its pixels in the slot
at the short cursor and its rebuild has returned the VBar v1, then a
SHORT_VBAR_CACHE_HIT column that names this slot while the slot still holds that
entry, with the same vBarYOn, the same background colour and the same band
height, rebuilds a VBar v2 with the count of v1 and, at every row below the band
height, the pixel of v1. -/
theorem short_hit_rebuilds_as_miss (env : Env) (format colorBkg vBarHeight : Nat)
    (st st1 : BandsState) (missHeader : Nat) (v1 : CLEAR_VBAR_ENTRY)
    (st2 st3 : BandsState) (hitHeader : Nat) (v2 : CLEAR_VBAR_ENTRY)
    (yOn : Nat) (rest : wStream)
    (hw : env.WriteColor format colorBkg = true)
    (hm : missHeader &&& 0xC000 = 0x0000)
    (hmiss : bands_resolve env format colorBkg vBarHeight st missHeader = .ok (st1, v1))
    (hh : hitHeader &&& 0xC000 = 0x4000)
    (hidx : hitHeader &&& 0x3FFF = st.ShortVBarStorageCursor)
    (hkeep : st2.ShortVBarStorage st.ShortVBarStorageCursor =
      st1.ShortVBarStorage st.ShortVBarStorageCursor)
    (hs : st2.s = yOn :: rest) (hyOn : yOn % 256 = missHeader &&& 0xFF)
    (hhit : bands_resolve env format colorBkg vBarHeight st2 hitHeader = .ok (st3, v2)) :
    v2.count = v1.count ∧
      ∀ j, j < vBarHeight → (v2.pixels.getD env.heap) j = (v1.pixels.getD env.heap) j := by
  -- the miss
  unfold bands_resolve at hmiss
  dsimp only at hmiss
  have hm1 : ¬ missHeader &&& 0xC000 = 0x4000 := by rw [hm]; decide
  simp only [hm1, hm, if_true, if_false] at hmiss
  rcases hq : bands_short_miss env format st missHeader with
    ⟨sta, a, b, e⟩ | ⟨sta, a, b, e⟩ | k
  · rw [hq] at hmiss
    dsimp only at hmiss
    obtain ⟨ha, hb, he⟩ := bands_short_miss_ok env format st sta missHeader a b e hq
    obtain ⟨m1, m2, m3⟩ := bands_rebuild_ok env format colorBkg vBarHeight sta st1 a b e
      v1 env.heap hw hmiss
    have hslot : st2.ShortVBarStorage (hitHeader &&& 0x3FFF) = e := by
      rw [hidx, hkeep, m1]
      exact he
    -- the hit
    unfold bands_resolve at hhit
    dsimp only at hhit
    simp only [hh, if_true] at hhit
    unfold bands_short_hit at hhit
    simp only [hs, hslot] at hhit
    obtain ⟨n1, n2, n3⟩ := bands_rebuild_ok env format colorBkg vBarHeight _ st3 _ _ e
      v2 env.heap hw hhit
    refine ⟨n2.trans m2.symm, fun j hj => ?_⟩
    rw [n3 j, m3 j, if_pos hj, if_pos hj, hyOn, ← ha, hb]
  · rw [hq] at hmiss
    cases hmiss
  · rw [hq] at hmiss
    cases hmiss

/-- C17, witness: on fresh storages the SHORT_VBAR_CACHE_MISS header 0x0100 with
the pixel 00 00 FF fills short slot 0 and rebuilds a column of one row; the
SHORT_VBAR_CACHE_HIT header 0x4000 with vBarYOn 0 rebuilds the same column. -/
theorem short_hit_rebuilds_as_miss_witness :
    ∃ v1 v2 : CLEAR_VBAR_ENTRY, v2.count = v1.count ∧
      ∀ j, j < 1 → (v2.pixels.getD refEnv.heap) j = (v1.pixels.getD refEnv.heap) j :=
  have hok : (bands_resolve refEnv 32 0xFF00FF00 1
      ⟨[0, 0, 0xFF], 0, 0, fun _ => ⟨0, 0, none⟩, 0, fun _ => ⟨0, 0, none⟩, []⟩
      0x0100).toOption.isSome = true := rfl
  have hok2 : (bands_resolve refEnv 32 0xFF00FF00 1
      { ((bands_resolve refEnv 32 0xFF00FF00 1
          ⟨[0, 0, 0xFF], 0, 0, fun _ => ⟨0, 0, none⟩, 0, fun _ => ⟨0, 0, none⟩, []⟩
          0x0100).toOption.get hok).1 with s := [0] }
      0x4000).toOption.isSome = true := rfl
  ⟨_, _, short_hit_rebuilds_as_miss refEnv 32 0xFF00FF00 1
    ⟨[0, 0, 0xFF], 0, 0, fun _ => ⟨0, 0, none⟩, 0, fun _ => ⟨0, 0, none⟩, []⟩
    ((bands_resolve refEnv 32 0xFF00FF00 1
      ⟨[0, 0, 0xFF], 0, 0, fun _ => ⟨0, 0, none⟩, 0, fun _ => ⟨0, 0, none⟩, []⟩
      0x0100).toOption.get hok).1
    0x0100
    ((bands_resolve refEnv 32 0xFF00FF00 1
      ⟨[0, 0, 0xFF], 0, 0, fun _ => ⟨0, 0, none⟩, 0, fun _ => ⟨0, 0, none⟩, []⟩
      0x0100).toOption.get hok).2
    { ((bands_resolve refEnv 32 0xFF00FF00 1
        ⟨[0, 0, 0xFF], 0, 0, fun _ => ⟨0, 0, none⟩, 0, fun _ => ⟨0, 0, none⟩, []⟩
        0x0100).toOption.get hok).1 with s := [0] }
    ((bands_resolve refEnv 32 0xFF00FF00 1
      { ((bands_resolve refEnv 32 0xFF00FF00 1
          ⟨[0, 0, 0xFF], 0, 0, fun _ => ⟨0, 0, none⟩, 0, fun _ => ⟨0, 0, none⟩, []⟩
          0x0100).toOption.get hok).1 with s := [0] }
      0x4000).toOption.get hok2).1
    0x4000
    ((bands_resolve refEnv 32 0xFF00FF00 1
      { ((bands_resolve refEnv 32 0xFF00FF00 1
          ⟨[0, 0, 0xFF], 0, 0, fun _ => ⟨0, 0, none⟩, 0, fun _ => ⟨0, 0, none⟩, []⟩
          0x0100).toOption.get hok).1 with s := [0] }
      0x4000).toOption.get hok2).2
    0 [] rfl (by decide) rfl (by decide) (by decide) rfl rfl (by decide) rfl⟩

/-! ## Invariants of the VBar storages -/

/-- The case SHORT_VBAR_CACHE_HIT writes neither a VBar storage nor a cursor. -/
theorem bands_short_hit_inv (P : VBarProp) (st : BandsState) (vBarHeader : Nat)
    (h : st.Sat P) :
    (bands_short_hit st vBarHeader).Holds (fun r => r.1.Sat P) := by
  unfold bands_short_hit
  dsimp only
  split <;> exact h

/-- The resolution of a vBarHeader keeps an invariant of the VBar storages. -/
theorem bands_resolve_inv (env : Env) (P : VBarProp) (hP : VBarInvariant env P)
    (format colorBkg vBarHeight : Nat) (st : BandsState)
    (vBarHeader : Nat) (h : st.Sat P) :
    (bands_resolve env format colorBkg vBarHeight st vBarHeader).Holds
      (fun r => r.1.Sat P) := by
  unfold bands_resolve
  dsimp only
  split
  · have h1 := bands_short_hit_inv P st vBarHeader h
    rcases hq : bands_short_hit st vBarHeader with ⟨st1, a, b, e⟩ | ⟨st1, a, b, e⟩ | k
    · rw [hq] at h1
      exact hP.rebuild format colorBkg vBarHeight st1 a b e h1
    · rw [hq] at h1
      exact h1
    · trivial
  · split
    · have h1 := hP.miss format st vBarHeader h
      rcases hq : bands_short_miss env format st vBarHeader with
        ⟨st1, a, b, e⟩ | ⟨st1, a, b, e⟩ | k
      · rw [hq] at h1
        exact hP.rebuild format colorBkg vBarHeight st1 a b e h1
      · rw [hq] at h1
        exact h1
      · trivial
    · split <;> exact h

/-- One pass of the column loop keeps an invariant of the VBar storages. -/
theorem bands_column_inv (env : Env) (P : VBarProp) (hP : VBarInvariant env P)
    (format nWidth nHeight DstFormat nXDst nYDst : Nat)
    (xStart yStart yEnd colorBkg i : Nat) (st : BandsState) (h : st.Sat P) :
    (bands_column env format nWidth nHeight DstFormat nXDst nYDst xStart yStart yEnd colorBkg i
      st).Holds (BandsState.Sat P) := by
  unfold bands_column
  split
  · rename_i h0 h1 s1 hs
    dsimp only
    split
    · exact h
    · have hr := bands_resolve_inv env P hP format colorBkg (yEnd - yStart + 1)
        { st with s := s1, suboffset := add32 st.suboffset 2 } (le16 h0 h1) h
      split
      · trivial
      · rename_i st2 e he
        rw [he] at hr
        exact hr
      · rename_i st2 e he
        rw [he] at hr
        split
        · exact hr
        · split
          · rw [Res.holds_map]
            exact Res.holds_of_forall _ (fun _ => hr)
          · exact hr
  · exact h

/-- The column loop keeps an invariant of the VBar storages. -/
theorem bands_columns_inv (env : Env) (P : VBarProp) (hP : VBarInvariant env P)
    (format nWidth nHeight DstFormat nXDst nYDst : Nat)
    (xStart yStart yEnd colorBkg : Nat) :
    ∀ (n i : Nat) (st : BandsState), st.Sat P →
      (bands_columns env format nWidth nHeight DstFormat nXDst nYDst xStart yStart yEnd colorBkg
        n i st).Holds (BandsState.Sat P) := by
  intro n
  induction n with
  | zero => intro i st h; exact h
  | succ n ih =>
    intro i st h
    rw [bands_columns]
    have hc := bands_column_inv env P hP format nWidth nHeight DstFormat nXDst nYDst xStart
      yStart yEnd colorBkg i st h
    split
    · rename_i st1 he
      rw [he] at hc
      exact ih _ _ hc
    · rename_i st1 he
      rw [he] at hc
      exact hc
    · trivial

/-- The band loop keeps an invariant of the VBar storages. -/
theorem bands_loop_inv (env : Env) (P : VBarProp) (hP : VBarInvariant env P)
    (format bandsByteCount nWidth nHeight DstFormat nXDst nYDst : Nat) :
    ∀ (fuel : Nat) (st : BandsState), st.Sat P →
      (bands_loop env format bandsByteCount nWidth nHeight DstFormat nXDst nYDst fuel st).Holds
        (BandsState.Sat P) := by
  intro fuel
  induction fuel with
  | zero => intro st h; trivial
  | succ fuel ih =>
    intro st h
    rw [bands_loop]
    split
    · split
      · rename_i x0 x1 x2 x3 y0 y1 y2 y3 b g r s1 hs
        dsimp only
        split
        · exact h
        · split
          · exact h
          · have hc := bands_columns_inv env P hP format nWidth nHeight DstFormat nXDst nYDst
              (le16 x0 x1) (le16 y0 y1) (le16 y2 y3)
              (env.GetColor format (r % 256) (g % 256) (b % 256) 0xFF)
              (le16 x2 x3 - le16 x0 x1 + 1) 0
              { st with s := s1, suboffset := add32 st.suboffset 11 } h
            split
            · rename_i st2 he
              rw [he] at hc
              exact ih _ hc
            · rename_i st2 he
              rw [he] at hc
              exact hc
            · trivial
      · exact h
    · exact h

/-- The bands decoder keeps an invariant of the VBar storages. -/
theorem bands_data_inv (env : Env) (P : VBarProp) (hP : VBarInvariant env P)
    (clear : CLEAR_CONTEXT) (s : wStream)
    (bandsByteCount nWidth nHeight : Nat) (dst : Image) (DstFormat nXDst nYDst : Nat)
    (h : clear.Sat P) :
    (clear_decompress_bands_data env clear s bandsByteCount nWidth nHeight dst DstFormat
      nXDst nYDst).Holds (fun st => st.clear.Sat P) := by
  unfold clear_decompress_bands_data
  split
  · exact h
  · rw [Res.holds_map]
    exact bands_loop_inv env P hP clear.format bandsByteCount nWidth nHeight DstFormat nXDst
      nYDst _ _ h

/-- The three payloads keep an invariant of the VBar storages. -/
theorem payloads_inv (env : Env) (P : VBarProp) (hP : VBarInvariant env P) (st : St)
    (residualByteCount bandsByteCount subcodecByteCount nWidth nHeight : Nat)
    (DstFormat nXDst nYDst nDstWidth nDstHeight : Nat) (palette : Option gdiPalette)
    (h : st.clear.Sat P) :
    (clear_decompress_payloads env st residualByteCount bandsByteCount subcodecByteCount
      nWidth nHeight DstFormat nXDst nYDst nDstWidth nDstHeight palette).Holds
      (fun st1 => st1.clear.Sat P) := by
  have hres : (if residualByteCount > 0 then
      clear_decompress_residual_data env st.clear st.s residualByteCount nWidth nHeight st.dst
        DstFormat nXDst nYDst nDstWidth nDstHeight palette else Res.ok st).Holds
      (fun a => a.clear.Sat P) := by
    split
    · refine Res.holds_mono _ ?_ (residual_data_frame env st.clear st.s residualByteCount nWidth
        nHeight st.dst DstFormat nXDst nYDst nDstWidth nDstHeight palette)
      rintro a ⟨tb, e⟩
      rw [e]; exact h
    · exact h
  have hbands : ∀ (b : St), b.clear.Sat P → (if bandsByteCount > 0 then
      clear_decompress_bands_data env b.clear b.s bandsByteCount nWidth nHeight b.dst
        DstFormat nXDst nYDst else Res.ok b).Holds (fun a => a.clear.Sat P) := by
    intro b hb
    split
    · exact bands_data_inv env P hP b.clear b.s bandsByteCount nWidth nHeight b.dst DstFormat
        nXDst nYDst hb
    · exact hb
  have hsub : ∀ (b : St), b.clear.Sat P → (if subcodecByteCount > 0 then
      clear_decompress_subcodecs_data env b.clear b.s subcodecByteCount nWidth nHeight b.dst
        DstFormat nXDst nYDst nDstWidth nDstHeight palette else Res.ok b).Holds
      (fun a => a.clear.Sat P) := by
    intro b hb
    split
    · refine Res.holds_mono _ ?_ (subcodecs_data_frame env b.clear b.s subcodecByteCount nWidth
        nHeight b.dst DstFormat nXDst nYDst nDstWidth nDstHeight palette)
      rintro a ⟨ts, e⟩
      rw [e]; exact hb
    · exact hb
  unfold clear_decompress_payloads
  dsimp only
  split
  · trivial
  · rename_i st1 h1
    rw [h1] at hres
    exact hres
  · rename_i st1 h1
    rw [h1] at hres
    have hb := hbands st1 hres
    split
    · trivial
    · rename_i st2 h2
      rw [h2] at hb
      exact hb
    · rename_i st2 h2
      rw [h2] at hb
      exact hsub st2 hb

/-- A call of clear_decompress, whatever it returns, keeps an invariant of the
VBar storages. -/
theorem clear_decompress_inv (env : Env) (P : VBarProp) (hP : VBarInvariant env P)
    (clear : CLEAR_CONTEXT)
    (pSrcData : List Nat) (nWidth nHeight : Nat) (pDstData : Option Image)
    (DstFormat nXDst nYDst nDstWidth nDstHeight : Nat) (palette : Option gdiPalette)
    (d : Decoded) (hc : clear.Sat P)
    (h : clear_decompress env clear pSrcData nWidth nHeight pDstData DstFormat nXDst nYDst
      nDstWidth nDstHeight palette = .ok d) :
    d.clear.Sat P := by
  unfold clear_decompress at h
  split at h
  · cases h; exact hc
  · rename_i dst
    split at h
    · cases h; exact hc
    · split at h
      · cases h; exact hc
      · split at h
        · rename_i gf sq s
          dsimp only at h
          have hseq : (clear_decompress_seq clear (sq % 256)).Holds (CLEAR_CONTEXT.Sat P) := by
            unfold clear_decompress_seq
            dsimp only
            split_ifs <;> exact hc
          split at h
          · cases h
          · rename_i clear1 h1
            cases h
            rw [h1] at hseq
            exact hseq
          · rename_i clear1 h1
            rw [h1] at hseq
            have hcr : (clear_decompress_cache_reset clear1 (gf % 256)).Sat P := by
              unfold clear_decompress_cache_reset
              split
              · exact hP.reset _ _ _ _ hseq
              · exact hseq
            have hg := glyph_data_frame env (clear_decompress_cache_reset clear1 (gf % 256)) s
              (gf % 256) nWidth nHeight dst DstFormat nXDst nYDst nDstWidth nDstHeight palette
            split at h
            · cases h
            · rename_i st hst
              cases h
              obtain ⟨gc, e⟩ := Res.holds_fail hg hst
              dsimp only
              rw [e]; exact hcr
            · rename_i st hst
              obtain ⟨gc, e⟩ := Res.holds_ok hg hst
              have hst : st.clear.Sat P := by rw [e]; exact hcr
              unfold clear_decompress_composition at h
              split at h
              · rename_i r0 r1 r2 r3 b0 b1 b2 b3 c0 c1 c2 c3 s1 hs
                have hp := payloads_inv env P hP { st with s := s1 } (le32 r0 r1 r2 r3)
                  (le32 b0 b1 b2 b3) (le32 c0 c1 c2 c3) nWidth nHeight DstFormat nXDst nYDst
                  nDstWidth nDstHeight palette hst
                split at h
                · cases h
                · rename_i st1 h1
                  cases h
                  rw [h1] at hp
                  exact hp
                · rename_i st1 h1
                  cases h
                  rw [h1] at hp
                  exact hp
              · split at h <;> (cases h; exact hst)
        · cases h; exact hc

/-- An invariant of the VBar storages that holds for the context of
clear_context_new holds for every reachable context. -/
theorem reachable_inv (env : Env) (P : VBarProp) (hP : VBarInvariant env P)
    (h0 : (clear_context_new env).Sat P) (c : CLEAR_CONTEXT) (h : Reachable env c) :
    c.Sat P := by
  induction h with
  | new => exact h0
  | reset c _ ih => exact hP.reset _ _ _ _ ih
  | decompress c pSrcData nWidth nHeight pDstData DstFormat nXDst nYDst nDstWidth nDstHeight
      palette d _ hd ih =>
    exact clear_decompress_inv env P hP c pSrcData nWidth nHeight pDstData DstFormat nXDst nYDst
      nDstWidth nDstHeight palette d ih hd

/-- The writes of the cursors keep them inside their storages. -/
theorem cursorsInRange_invariant (env : Env) : VBarInvariant env CursorsInRange where
  miss := by
    intro format st vBarHeader h
    unfold bands_short_miss
    dsimp only
    repeat' split
    all_goals first
      | exact h
      | trivial
      | exact ⟨h.1, Nat.mod_lt _ (by decide)⟩
  rebuild := by
    intro format colorBkg vBarHeight st vBarYOn vBarShortPixelCount vBarShortEntry h
    unfold bands_rebuild
    dsimp only
    repeat' split
    all_goals first
      | exact h
      | trivial
      | exact ⟨Nat.mod_lt _ (by decide), h.2⟩
  reset := by
    intro c v sc sv _
    exact ⟨by decide, by decide⟩

/-- What resize_vbar_entry leaves is an allocated entry when the entry had a
pixel buffer unless its capacity was 0. -/
theorem resize_vbar_entry_allocated (env : Env) (e : CLEAR_VBAR_ENTRY)
    (h : e.size ≠ 0 → e.pixels ≠ none) :
    VBarEntryAllocated (resize_vbar_entry env e).2 := by
  unfold resize_vbar_entry VBarEntryAllocated
  dsimp only
  split
  · exact ⟨le_refl _, fun _ => by simp⟩
  · exact ⟨by omega, h⟩

/-- What resize_vbar_entry leaves has room for the count of the entry. -/
theorem resize_vbar_entry_size (env : Env) (e : CLEAR_VBAR_ENTRY) :
    e.count ≤ (resize_vbar_entry env e).2.size := by
  unfold resize_vbar_entry
  dsimp only
  split
  · exact le_refl _
  · omega

/-- The writes of VBarStorage store allocated entries. -/
theorem vbarStorageAllocated_invariant (env : Env) : VBarInvariant env VBarStorageAllocated where
  miss := by
    intro format st vBarHeader h
    have hv := bands_short_miss_vbar env format st vBarHeader
    refine Res.holds_mono _ ?_ hv
    rintro r ⟨e1, _⟩
    show ∀ i, VBarEntryAllocated (r.1.VBarStorage i)
    rw [e1]
    exact h
  rebuild := by
    intro format colorBkg vBarHeight st vBarYOn vBarShortPixelCount vBarShortEntry h
    have hr := resize_vbar_entry_allocated env
      { (st.VBarStorage st.VBarStorageCursor) with count := vBarHeight }
      (h st.VBarStorageCursor).2
    have hput : ∀ e : CLEAR_VBAR_ENTRY, VBarEntryAllocated e →
        ∀ i, VBarEntryAllocated (Function.update st.VBarStorage st.VBarStorageCursor e i) := by
      intro e he i
      by_cases hi : i = st.VBarStorageCursor
      · subst hi; simpa using he
      · simpa [Function.update_noteq hi] using h i
    unfold bands_rebuild
    dsimp only
    split
    · exact h
    · split
      · exact hput _ hr
      · split
        · trivial
        · split
          · trivial
          · exact hput _ ⟨hr.1, fun _ => by simp⟩
          · refine hput _ ⟨?_, fun _ => by simp⟩
            exact resize_vbar_entry_size env
              { (st.VBarStorage st.VBarStorageCursor) with count := vBarHeight }
  reset := by
    intro c v sc sv h
    exact h

/-- C22: in every reachable context (the one of clear_context_new, and what
clear_context_reset or a call of clear_decompress, successful or failing, leaves
from a reachable context) VBarStorageCursor is below CLEARCODEC_VBAR_SIZE and
ShortVBarStorageCursor below CLEARCODEC_VBAR_SHORT_SIZE; and every state of the
bands decoder whose cursors are in range fails the two tests of lines 724 and
775, and the short stages and the pass of the column loop leave the cursors in
range for the next test, so that the two defensive branches are not taken. -/
theorem reachable_cursors_in_range (env : Env) (c : CLEAR_CONTEXT) (h : Reachable env c) :
    c.VBarStorageCursor < CLEARCODEC_VBAR_SIZE ∧
    c.ShortVBarStorageCursor < CLEARCODEC_VBAR_SHORT_SIZE ∧
    ∀ st : BandsState, st.Sat CursorsInRange →
      ¬ st.ShortVBarStorageCursor ≥ CLEARCODEC_VBAR_SHORT_SIZE ∧
      ¬ st.VBarStorageCursor ≥ CLEARCODEC_VBAR_SIZE ∧
      (∀ vBarHeader : Nat,
        (bands_short_hit st vBarHeader).Holds (fun r => r.1.Sat CursorsInRange)) ∧
      (∀ format vBarHeader : Nat,
        (bands_short_miss env format st vBarHeader).Holds (fun r => r.1.Sat CursorsInRange)) ∧
      (∀ format nWidth nHeight DstFormat nXDst nYDst xStart yStart yEnd colorBkg i : Nat,
        (bands_column env format nWidth nHeight DstFormat nXDst nYDst xStart yStart yEnd
          colorBkg i st).Holds (BandsState.Sat CursorsInRange)) := by
  have hc := reachable_inv env CursorsInRange (cursorsInRange_invariant env)
    ⟨show (0 : Nat) < CLEARCODEC_VBAR_SIZE by decide,
      show (0 : Nat) < CLEARCODEC_VBAR_SHORT_SIZE by decide⟩ c h
  refine ⟨hc.1, hc.2, fun st hst => ⟨Nat.not_le.mpr hst.2, Nat.not_le.mpr hst.1,
    fun hdr => bands_short_hit_inv _ st hdr hst,
    fun format hdr => (cursorsInRange_invariant env).miss format st hdr hst, ?_⟩⟩
  intro format nWidth nHeight DstFormat nXDst nYDst xStart yStart yEnd colorBkg i
  exact bands_column_inv env _ (cursorsInRange_invariant env) format nWidth nHeight DstFormat
    nXDst nYDst xStart yStart yEnd colorBkg i st hst

/-- C22, witness: the context left by a bands frame on a fresh context. -/
theorem reachable_cursors_in_range_witness :
    (Decoded.context (clear_decompress refEnv (clear_context_new refEnv)
        [0x00, 0x01, 0, 0, 0, 0, 0x10, 0, 0, 0, 0, 0, 0, 0,
         0, 0, 0, 0, 0, 0, 0, 0, 0xFF, 0, 0,
         0x00, 0x01, 0x00, 0x00, 0xFF]
        1 1 (some []) 32 0 0 16 16 none) (clear_context_new refEnv)).VBarStorageCursor <
      CLEARCODEC_VBAR_SIZE :=
  (reachable_cursors_in_range refEnv _
    (Reachable.decompress (clear_context_new refEnv)
      [0x00, 0x01, 0, 0, 0, 0, 0x10, 0, 0, 0, 0, 0, 0, 0,
       0, 0, 0, 0, 0, 0, 0, 0, 0xFF, 0, 0,
       0x00, 0x01, 0x00, 0x00, 0xFF]
      1 1 (some []) 32 0 0 16 16 none
      ((clear_decompress refEnv (clear_context_new refEnv)
        [0x00, 0x01, 0, 0, 0, 0, 0x10, 0, 0, 0, 0, 0, 0, 0,
         0, 0, 0, 0, 0, 0, 0, 0, 0xFF, 0, 0,
         0x00, 0x01, 0x00, 0x00, 0xFF]
        1 1 (some []) 32 0 0 16 16 none).toOption.get rfl)
      Reachable.new rfl)).1

/-- C16 at the failing input: on a fresh context, where slot 0 of
ShortVBarStorage was never filled (count 0, no pixel buffer), a frame whose bands
payload holds one band with one column SHORT_VBAR_CACHE_HIT of slot 0 is not
rejected: the test of line 680 is made on the address of the slot and does not
fire, the call returns 0 and renders the column in the background colour. -/
theorem short_hit_unfilled_slot_accepted :
    ((clear_context_new refEnv).ShortVBarStorage 0).count = 0 ∧
    ((clear_context_new refEnv).ShortVBarStorage 0).pixels.isNone = true ∧
    (clear_decompress refEnv (clear_context_new refEnv)
      [0x00, 0x01, 0, 0, 0, 0, 0x0E, 0, 0, 0, 0, 0, 0, 0,
       0, 0, 0, 0, 0, 0, 0, 0, 0xFF, 0, 0,
       0x00, 0x40, 0x00]
      1 1 (some []) 32 0 0 16 16 none).toOption.map Decoded.view =
      some ⟨0, 2, 1, 0, some [(0, 0, 0xFF0000FF)]⟩ := by
  refine ⟨rfl, rfl, ?_⟩
  decide

/-- The sibling case VBAR_CACHE_HIT does reject a slot that was never filled:
when the column loop accepts a column resolved through a VBAR_CACHE_HIT and the
entries of VBarStorage are allocated, as they are in every reachable context,
the entry named by the header has the count of the band height, which is not 0,
and a pixel buffer; a VBAR_CACHE_HIT of an entry with count 0 returns FALSE at
line 846. -/
theorem vbar_hit_rejects_unfilled_slot (env : Env) (format nWidth nHeight DstFormat nXDst nYDst : Nat)
    (xStart yStart yEnd colorBkg i : Nat) (st : BandsState) (h0 h1 : Nat) (s1 : wStream)
    (hs : st.s = h0 :: h1 :: s1)
    (hhit : le16 h0 h1 &&& 0x8000 = 0x8000)
    (hinv : st.Sat VBarStorageAllocated) :
    (∀ st2, bands_column env format nWidth nHeight DstFormat nXDst nYDst xStart yStart yEnd
        colorBkg i st = .ok st2 →
      (st.VBarStorage (le16 h0 h1 &&& 0x7FFF)).count = yEnd - yStart + 1 ∧
      (st.VBarStorage (le16 h0 h1 &&& 0x7FFF)).count ≠ 0 ∧
      (st.VBarStorage (le16 h0 h1 &&& 0x7FFF)).pixels ≠ none) ∧
    ((st.VBarStorage (le16 h0 h1 &&& 0x7FFF)).count = 0 →
      ∃ st2, bands_column env format nWidth nHeight DstFormat nXDst nYDst xStart yStart yEnd
        colorBkg i st = .fail st2) ∧
    (∀ c : CLEAR_CONTEXT, Reachable env c → c.Sat VBarStorageAllocated) := by
  have hres : bands_resolve env format colorBkg (yEnd - yStart + 1)
      { st with s := s1, suboffset := add32 st.suboffset 2 } (le16 h0 h1) =
      .ok ({ st with s := s1, suboffset := add32 st.suboffset 2 },
        st.VBarStorage (le16 h0 h1 &&& 0x7FFF)) := by
    have h3 := vBarHeader_tests (le16 h0 h1) (le16_lt h0 h1)
    have h1' : ¬ le16 h0 h1 &&& 0xC000 = 0x4000 := by
      rcases h3 with ⟨_, _, c⟩ | ⟨_, _, c⟩ | ⟨a, _, _⟩
      · exact absurd hhit c
      · exact absurd hhit c
      · exact a
    have h2' : ¬ le16 h0 h1 &&& 0xC000 = 0x0000 := by
      rcases h3 with ⟨_, _, c⟩ | ⟨_, _, c⟩ | ⟨_, b, _⟩
      · exact absurd hhit c
      · exact absurd hhit c
      · exact b
    unfold bands_resolve
    simp only [h1', h2', hhit, if_false, if_true]
  refine ⟨?_, ?_, ?_⟩
  · intro st2 hok
    unfold bands_column at hok
    rw [hs] at hok
    dsimp only at hok
    split at hok
    · cases hok
    · rw [hres] at hok
      dsimp only at hok
      split at hok
      · cases hok
      · rename_i hcount
        have hc : (st.VBarStorage (le16 h0 h1 &&& 0x7FFF)).count = yEnd - yStart + 1 := by
          by_contra hne
          exact hcount hne
        have ha := hinv (le16 h0 h1 &&& 0x7FFF)
        generalize st.VBarStorage (le16 h0 h1 &&& 0x7FFF) = e at hc ha ⊢
        exact ⟨hc, by omega, ha.2 (by have := ha.1; omega)⟩
  · intro hz
    unfold bands_column
    rw [hs]
    dsimp only
    split
    · exact ⟨_, rfl⟩
    · rw [hres]
      dsimp only
      have hne : (st.VBarStorage (le16 h0 h1 &&& 0x7FFF)).count ≠ yEnd - yStart + 1 := by
        rw [hz]
        omega
      rw [if_pos hne]
      exact ⟨_, rfl⟩
  · intro c hc
    exact reachable_inv env VBarStorageAllocated (vbarStorageAllocated_invariant env)
      (fun _ => ⟨le_refl _, fun h => absurd rfl h⟩) c hc

/-! ## Frames that the decoders do not reject -/

/-- C13 at the failing input: on a fresh context a 1x1 frame whose subcodec
payload holds one RLEX tile with bitmapDataByteCount = 1 and the paletteCount
byte 2 as the last byte of the stream: the check of line 140 passes with one
byte left, and the palette loop of lines 156-165 reads six bytes past the end of
the stream instead of returning FALSE. -/
theorem rlex_palette_read_past_stream :
    clear_decompress refEnv (clear_context_new refEnv)
      [0x00, 0x01, 0, 0, 0, 0, 0, 0, 0, 0, 0x0E, 0, 0, 0,
       0, 0, 0, 0, 1, 0, 1, 0, 1, 0, 0, 0, 2,
       0x02]
      1 1 (some []) 32 0 0 16 16 none = .error .streamRead := by
  rfl

/-- C26 at the failing input: on a fresh context a 1x1 frame whose subcodec
payload holds one RLEX tile with the paletteCount byte 0: the byte passes the
check of line 150, and line 169 reads CLEAR_LOG2_FLOOR at the index
paletteCount - 1 = -1, outside the table. -/
theorem rlex_paletteCount_zero_reads_outside_table :
    clear_decompress refEnv (clear_context_new refEnv)
      [0x00, 0x01, 0, 0, 0, 0, 0, 0, 0, 0, 0x0E, 0, 0, 0,
       0, 0, 0, 0, 1, 0, 1, 0, 1, 0, 0, 0, 2,
       0x00]
      1 1 (some []) 32 0 0 16 16 none = .error .tableRead := by
  rfl

/-- C14 at the failing input: a frame for a 0xFFFF x 0xFFFF rectangle whose
subcodec payload holds one uncompressed tile of width 34179 and height 41887
with bitmapDataByteCount = 23 is accepted (the call returns 0 and renders a
pixel), although width * height * 3 = 4294967319: the product of lines 498-499
is taken in 32 bits and wraps to 23. -/
theorem uncompressed_tile_size_wraps :
    (clear_decompress refEnv (clear_context_new refEnv)
      [0x00, 0x01, 0, 0, 0, 0, 0, 0, 0, 0, 0x24, 0, 0, 0,
       0, 0, 0, 0, 0x83, 0x85, 0x9F, 0xA3, 23, 0, 0, 0, 0,
       0x11, 0x22, 0x33, 0, 0, 0, 0, 0, 0, 0, 0, 0, 0, 0, 0, 0, 0, 0, 0, 0, 0, 0, 0]
      0xFFFF 0xFFFF (some []) 32 0 0 1 1 none).toOption.map Decoded.view =
      some ⟨0, 2, 0, 0, some [(0, 0, 0x332211)]⟩ ∧
    le16 0x83 0x85 = 34179 ∧ le16 0x9F 0xA3 = 41887 ∧
    le32 23 0 0 0 ≠ le16 0x83 0x85 * le16 0x9F 0xA3 * 3 ∧
    le32 23 0 0 0 =
      mul32 (mul32 (le16 0x83 0x85) (refEnv.GetBytesPerPixel 24)) (le16 0x9F 0xA3) := by
  refine ⟨?_, ?_, ?_, ?_, ?_⟩ <;> decide

/-- C18 at the failing input: a frame with nWidth = 32 decoded into a
destination 16 pixels wide at nXDst = 0, so that nXDst + nWidth > nDstWidth,
whose bands payload holds one band at column 20 with one SHORT_VBAR_CACHE_MISS
column: the call returns 0 and writes the pixel at column 20, which is not below
nDstWidth = 16. -/
theorem bands_write_outside_destination :
    (clear_decompress refEnv (clear_context_new refEnv)
      [0x00, 0x01, 0, 0, 0, 0, 0x10, 0, 0, 0, 0, 0, 0, 0,
       0x14, 0, 0x14, 0, 0, 0, 0, 0, 0xFF, 0, 0,
       0x00, 0x01, 0x00, 0x00, 0xFF]
      32 1 (some []) 32 0 0 16 16 none).toOption.map Decoded.view =
      some ⟨0, 2, 1, 1, some [(20, 0, 0xFFFF0000)]⟩ ∧ ¬ 20 < 16 := by
  constructor <;> decide

/-! ## The bytes the residual decoder takes -/

/-- The escape ladder takes `nread` bytes, at most six, from the front of the
stream. -/
theorem read_runLengthFactor_drop (f1 : Nat) (s : wStream) (rlf nread : Nat) (s2 : wStream)
    (h : read_runLengthFactor f1 s = some (rlf, nread, s2)) :
    s2 = s.drop nread ∧ nread ≤ s.length ∧ nread ≤ 6 := by
  unfold read_runLengthFactor at h
  split at h
  · split at h
    · rename_i lo hi s1
      split at h
      · split at h
        · rename_i b0 b1 b2 b3 s3
          simp only [Option.some.injEq, Prod.mk.injEq] at h
          obtain ⟨_, h2, h3⟩ := h
          subst h2 h3
          simp
        · cases h
      · simp only [Option.some.injEq, Prod.mk.injEq] at h
        obtain ⟨_, h2, h3⟩ := h
        subst h2 h3
        simp
    · cases h
  · simp only [Option.some.injEq, Prod.mk.injEq] at h
    obtain ⟨_, h2, h3⟩ := h
    subst h2 h3
    simp

/-- The record loop of the residual decoder, when it returns TRUE on a stream of
fewer than 2^32 bytes: suboffset counts the bytes taken from the stream, and the
loop stops with the first record that ends at or after residualByteCount. -/
theorem residual_loop_consumed (env : Env) (format TempSize residualByteCount pixelCount : Nat)
    (s : wStream) (hlen : s.length < 4294967296) :
    ∀ (fuel : Nat) (st st1 : ResidualState),
      st.suboffset ≤ s.length → st.s = s.drop st.suboffset →
      st.suboffset < residualByteCount + 10 →
      residual_loop env format TempSize residualByteCount pixelCount fuel st = .ok st1 →
      st1.suboffset ≤ s.length ∧ st1.s = s.drop st1.suboffset ∧
        residualByteCount ≤ st1.suboffset ∧ st1.suboffset < residualByteCount + 10 := by
  intro fuel
  induction fuel with
  | zero =>
    intro st st1 _ _ _ h
    rw [residual_loop] at h
    cases h
  | succ fuel ih =>
    intro st st1 hle hs hlt h
    rw [residual_loop] at h
    split at h
    · rename_i hsub
      split at h
      · rename_i b g r f1 s1 hst
        dsimp only at h
        split at h
        · cases h
        · rename_i rlf nread s2 hr
          obtain ⟨e2, n1, n2⟩ := read_runLengthFactor_drop _ _ _ _ _ hr
          have hl : (s.drop st.suboffset).length = s1.length + 4 := by
            rw [← hs, hst]; simp
          rw [List.length_drop] at hl
          have hs1 : s1 = s.drop (st.suboffset + 4) := by
            have : (s.drop st.suboffset).drop 4 = s1 := by rw [← hs, hst]; rfl
            rw [← this, List.drop_drop]
          have hsub2 : add32 (add32 st.suboffset 4) nread = st.suboffset + 4 + nread := by
            unfold add32
            rw [Nat.mod_eq_of_lt (by omega), Nat.mod_eq_of_lt (by omega)]
          split at h
          · cases h
          · split at h
            · cases h
            · rename_i p buf hrun
              refine ih _ st1 ?_ ?_ ?_ h
              · dsimp only
                rw [hsub2]; omega
              · dsimp only
                rw [hsub2, e2, hs1, List.drop_drop]
              · dsimp only
                rw [hsub2]; omega
      · cases h
    · cases h
      exact ⟨hle, hs, by omega, hlt⟩

/-- C23, as stated, fails: with residualByteCount = 1 and nWidth = nHeight = 1
the residual decoder reads the record FF 00 00 01 of four bytes, returns TRUE and
has taken four bytes from the stream, not one. -/
theorem residual_record_crosses_declared_end :
    ∃ st, clear_decompress_residual_data refEnv (clear_context_new refEnv) [0xFF, 0, 0, 1]
        1 1 1 [] 32 0 0 16 16 none = .ok st ∧
      ([0xFF, 0, 0, 1] : wStream).length - st.s.length = 4 ∧ (4 : Nat) ≠ 1 :=
  ⟨(clear_decompress_residual_data refEnv (clear_context_new refEnv) [0xFF, 0, 0, 1]
      1 1 1 [] 32 0 0 16 16 none).toOption.get rfl, rfl, rfl, by decide⟩

/-- C23, amended: whenever clear_decompress_residual_data returns TRUE on a
stream of fewer than 2^32 bytes, it has taken from the front of the stream at
least residualByteCount bytes and fewer than residualByteCount + 10: it reads
whole records, each of 4 to 10 bytes, as long as fewer than residualByteCount
bytes have been taken, and the next payload is read from where the last record
ended. -/
theorem residual_data_consumed (env : Env) (clear : CLEAR_CONTEXT) (s : wStream)
    (residualByteCount nWidth nHeight : Nat) (dst : Image)
    (DstFormat nXDst nYDst nDstWidth nDstHeight : Nat) (palette : Option gdiPalette)
    (st : St) (hlen : s.length < 4294967296)
    (h : clear_decompress_residual_data env clear s residualByteCount nWidth nHeight dst
      DstFormat nXDst nYDst nDstWidth nDstHeight palette = .ok st) :
    ∃ n, st.s = s.drop n ∧ n ≤ s.length ∧ residualByteCount ≤ n ∧
      n < residualByteCount + 10 := by
  unfold clear_decompress_residual_data at h
  split at h
  · cases h
  · split at h
    · cases h
    · cases h
    · rename_i rs hloop
      obtain ⟨a1, a2, a3, a4⟩ := residual_loop_consumed env clear.format clear.TempSize
        residualByteCount (mul32 nWidth nHeight) s hlen _ _ rs (Nat.zero_le _) rfl
        (show 0 < residualByteCount + 10 by omega) hloop
      dsimp only at h
      split at h
      · cases h
      · have hs : st.s = rs.s := by
          generalize convert_color env dst DstFormat nXDst nYDst nWidth nHeight
            (cellSource (env.GetBytesPerPixel clear.format) clear.TempSize rs.TempBuffer)
            (mul32 nWidth (env.GetBytesPerPixel clear.format)) clear.format
            nDstWidth nDstHeight palette = r at h
          cases r with
          | ok d => simp only [Res.map, Res.ok.injEq] at h; rw [← h]
          | fail d => simp [Res.map] at h
          | fault k => simp [Res.map] at h
        exact ⟨rs.suboffset, hs.trans a2, a1, a3, a4⟩

/-- C23, amended, witness: the record FF 00 00 01 with residualByteCount = 1. -/
theorem residual_data_consumed_witness :
    ∃ n, ([] : wStream) = ([0xFF, 0, 0, 1] : wStream).drop n ∧
      n ≤ ([0xFF, 0, 0, 1] : wStream).length ∧ 1 ≤ n ∧ n < 1 + 10 :=
  residual_data_consumed refEnv (clear_context_new refEnv) [0xFF, 0, 0, 1] 1 1 1 []
    32 0 0 16 16 none
    ((clear_decompress_residual_data refEnv (clear_context_new refEnv) [0xFF, 0, 0, 1]
      1 1 1 [] 32 0 0 16 16 none).toOption.get rfl) (by decide) rfl

/-! ## The RLEX decoder: tables, indices and the index sequence -/

set_option maxRecDepth 100000 in
/-- The first 127 entries of CLEAR_LOG2_FLOOR: entry n is at most 6 and, for n
above 0, the floor of the binary logarithm of n. -/
theorem CLEAR_LOG2_FLOOR_low : ∀ n : Fin 127,
    CLEAR_LOG2_FLOOR[n.val]? = some (CLEAR_LOG2_FLOOR.getD n.val 0) ∧
    CLEAR_LOG2_FLOOR.getD n.val 0 ≤ 6 ∧
    (n.val = 0 → CLEAR_LOG2_FLOOR.getD n.val 0 = 0) ∧
    (1 ≤ n.val → 2 ^ CLEAR_LOG2_FLOOR.getD n.val 0 ≤ n.val ∧
      n.val < 2 ^ (CLEAR_LOG2_FLOOR.getD n.val 0 + 1)) := by
  decide

/-- Entry n of CLEAR_8BIT_MASKS is the mask of the n low bits. -/
theorem CLEAR_8BIT_MASKS_eq : ∀ n : Fin 9, CLEAR_8BIT_MASKS[n.val]? = some (2 ^ n.val - 1) := by
  decide

/-- The table lookups of lines 169, 187 and 188 for a paletteCount from 1 to
127: numBits lies between 1 and 7 and the two masks are those of 8 - numBits and
of numBits low bits. -/
theorem rlex_tables (paletteCount : Nat) (h1 : 1 ≤ paletteCount) (h127 : paletteCount ≤ 127) :
    ∃ l, CLEAR_LOG2_FLOOR[paletteCount - 1]? = some l ∧ 1 ≤ add32 l 1 ∧ add32 l 1 ≤ 7 ∧
      add32 l 1 = l + 1 ∧
      (paletteCount = 1 → l = 0) ∧
      (2 ≤ paletteCount → 2 ^ l ≤ paletteCount - 1 ∧ paletteCount - 1 < 2 ^ (l + 1)) ∧
      CLEAR_8BIT_MASKS[8 - add32 l 1]? = some (2 ^ (8 - add32 l 1) - 1) ∧
      CLEAR_8BIT_MASKS[add32 l 1]? = some (2 ^ add32 l 1 - 1) := by
  obtain ⟨a, b, c, d⟩ := CLEAR_LOG2_FLOOR_low ⟨paletteCount - 1, by omega⟩
  dsimp only at a b c d
  have hadd : add32 (CLEAR_LOG2_FLOOR.getD (paletteCount - 1) 0) 1 =
      CLEAR_LOG2_FLOOR.getD (paletteCount - 1) 0 + 1 := by
    unfold add32
    exact Nat.mod_eq_of_lt (by omega)
  refine ⟨_, a, by rw [hadd]; omega, by rw [hadd]; omega, hadd, fun h => c (by omega),
    fun h => d (by omega), ?_, ?_⟩
  · exact CLEAR_8BIT_MASKS_eq ⟨8 - add32 (CLEAR_LOG2_FLOOR.getD (paletteCount - 1) 0) 1, by omega⟩
  · exact CLEAR_8BIT_MASKS_eq ⟨add32 (CLEAR_LOG2_FLOOR.getD (paletteCount - 1) 0) 1,
      by rw [hadd]; omega⟩

/-- The expression of line 187 on a byte: the bits above the numBits low ones. -/
theorem rlex_suiteDepth_eq (numBits tmp : Nat) (hn : numBits ≤ 8) :
    (((tmp % 256) >>> numBits) &&& (2 ^ (8 - numBits) - 1)) % 256 = (tmp % 256) / 2 ^ numBits := by
  rw [Nat.and_pow_two_sub_one_eq_mod, Nat.shiftRight_eq_div_pow]
  have hlt : tmp % 256 / 2 ^ numBits < 2 ^ (8 - numBits) := by
    rw [Nat.div_lt_iff_lt_mul (by positivity)]
    rw [← pow_add]
    have : 8 - numBits + numBits = 8 := by omega
    rw [this]
    exact Nat.mod_lt _ (by norm_num)
  rw [Nat.mod_eq_of_lt hlt]
  apply Nat.mod_eq_of_lt
  calc tmp % 256 / 2 ^ numBits ≤ tmp % 256 := Nat.div_le_self _ _
    _ < 256 := Nat.mod_lt _ (by norm_num)

/-- The expression of line 188 on a byte: the numBits low bits. -/
theorem rlex_stopIndex_eq (numBits tmp : Nat) :
    ((tmp % 256) &&& (2 ^ numBits - 1)) % 256 = (tmp % 256) % 2 ^ numBits := by
  rw [Nat.and_pow_two_sub_one_eq_mod]
  apply Nat.mod_eq_of_lt
  calc tmp % 256 % 2 ^ numBits ≤ tmp % 256 := Nat.mod_le _ _
    _ < 256 := Nat.mod_lt _ (by norm_num)

/-- The colours the suite loop reads are those of the palette entries from
`suiteIndex` on: two palettes that agree on them give the same outcome. -/
theorem rlex_suite_agree (env : Env)
    (DstFormat nXDstRel nYDstRel nDstWidth nDstHeight width : Nat)
    (palette palette1 : Nat → Nat) :
    ∀ (n suiteIndex x y : Nat) (dst : Image), suiteIndex + n ≤ 128 →
      (∀ i, suiteIndex ≤ i → i < suiteIndex + n → palette i = palette1 i) →
      rlex_suite env DstFormat nXDstRel nYDstRel nDstWidth nDstHeight width palette n suiteIndex
          x y dst =
        rlex_suite env DstFormat nXDstRel nYDstRel nDstWidth nDstHeight width palette1 n
          suiteIndex x y dst ∧
      ∀ k, rlex_suite env DstFormat nXDstRel nYDstRel nDstWidth nDstHeight width palette n
          suiteIndex x y dst ≠ .fault k := by
  intro n
  induction n with
  | zero => intro suiteIndex x y dst _ _; simp [rlex_suite]
  | succ n ih =>
    intro suiteIndex x y dst hs hp
    rw [rlex_suite, rlex_suite]
    have h127 : ¬ suiteIndex > 127 := by omega
    simp only [h127, if_false]
    rw [Nat.mod_eq_of_lt (by omega : suiteIndex + 1 < 256), hp suiteIndex (le_refl _) (by omega)]
    exact ih (suiteIndex + 1) _ _ _ (by omega) (fun i h1 h2 => hp i (by omega) (by omega))

/-- The arithmetic of lines 187-189 on a byte, for numBits from 1 to 7: either
suiteDepth is at most stopIndex and startIndex is their difference, or the
subtraction wraps and startIndex is above 127. -/
theorem rlex_startIndex_cases (numBits tmp : Nat) (h1 : 1 ≤ numBits) :
    ((tmp % 256) / 2 ^ numBits ≤ (tmp % 256) % 2 ^ numBits ∧
      ((tmp % 256) % 2 ^ numBits + 256 - (tmp % 256) / 2 ^ numBits) % 256 =
        (tmp % 256) % 2 ^ numBits - (tmp % 256) / 2 ^ numBits) ∨
    ((tmp % 256) / 2 ^ numBits > (tmp % 256) % 2 ^ numBits ∧
      ((tmp % 256) % 2 ^ numBits + 256 - (tmp % 256) / 2 ^ numBits) % 256 > 127) := by
  have hb : tmp % 256 < 256 := Nat.mod_lt _ (by norm_num)
  have h2 : 2 ≤ 2 ^ numBits := by
    calc 2 = 2 ^ 1 := by norm_num
      _ ≤ 2 ^ numBits := Nat.pow_le_pow_right (by norm_num) h1
  have hsd : (tmp % 256) / 2 ^ numBits ≤ 127 := by
    have : (tmp % 256) / 2 ^ numBits ≤ (tmp % 256) / 2 :=
      Nat.div_le_div_left h2 (by norm_num)
    omega
  have hstop : (tmp % 256) % 2 ^ numBits ≤ tmp % 256 := Nat.mod_le _ _
  generalize (tmp % 256) / 2 ^ numBits = sd at hsd ⊢
  generalize (tmp % 256) % 2 ^ numBits = stop at hstop ⊢
  by_cases hc : sd ≤ stop
  · left
    refine ⟨hc, ?_⟩
    omega
  · right
    refine ⟨by omega, ?_⟩
    omega

/-- C11: for a paletteCount from 1 to 127 the table lookups of lines 169, 187
and 188 succeed, and for every record byte tmp, with suiteDepth, stopIndex and
startIndex as lines 187-189 compute them: if the record passes the index checks
of lines 217 and 223 then suiteDepth <= stopIndex and startIndex + suiteDepth =
stopIndex without a wrap, every index startIndex + i of the run phase (i = 0)
and of the suite phase (i <= suiteDepth) is below paletteCount, and the suite
loop reads no other palette entry (two palettes that agree below paletteCount
give the same outcome, which is not a fault); and if suiteDepth > stopIndex then
startIndex >= paletteCount and the record loop returns FALSE at the record. -/
theorem rlex_indices_below_paletteCount (env : Env) (paletteCount : Nat)
    (h1 : 1 ≤ paletteCount) (h127 : paletteCount ≤ 127) :
    ∃ l maskHi maskLo, CLEAR_LOG2_FLOOR[paletteCount - 1]? = some l ∧
      CLEAR_8BIT_MASKS[8 - add32 l 1]? = some maskHi ∧
      CLEAR_8BIT_MASKS[add32 l 1]? = some maskLo ∧
      ∀ tmp : Nat,
        let suiteDepth := (((tmp % 256) >>> add32 l 1) &&& maskHi) % 256
        let stopIndex := ((tmp % 256) &&& maskLo) % 256
        let startIndex := (stopIndex + 256 - suiteDepth) % 256
        (startIndex < paletteCount → stopIndex < paletteCount →
          suiteDepth ≤ stopIndex ∧ startIndex + suiteDepth = stopIndex ∧
          (∀ i, i ≤ suiteDepth → startIndex + i < paletteCount) ∧
          ∀ (palette palette1 : Nat → Nat), (∀ i, i < paletteCount → palette i = palette1 i) →
            ∀ (DstFormat nXDstRel nYDstRel nDstWidth nDstHeight width x y : Nat) (dst : Image),
              palette startIndex = palette1 startIndex ∧
              rlex_suite env DstFormat nXDstRel nYDstRel nDstWidth nDstHeight width palette
                  (suiteDepth + 1) startIndex x y dst =
                rlex_suite env DstFormat nXDstRel nYDstRel nDstWidth nDstHeight width palette1
                  (suiteDepth + 1) startIndex x y dst ∧
              ∀ k, rlex_suite env DstFormat nXDstRel nYDstRel nDstWidth nDstHeight width palette
                  (suiteDepth + 1) startIndex x y dst ≠ .fault k) ∧
        (suiteDepth > stopIndex →
          startIndex ≥ paletteCount ∧
          ∀ (bitmapDataByteCount width DstFormat nXDstRel nYDstRel nDstWidth nDstHeight : Nat)
            (pixelCount : Nat) (palette : Nat → Nat) (fuel : Nat) (st : RlexState)
            (f1 : Nat) (s1 : wStream) (runLengthFactor nread : Nat) (s2 : wStream),
            st.bitmapDataOffset < bitmapDataByteCount → st.s = tmp :: f1 :: s1 →
            read_runLengthFactor (f1 % 256) s1 = some (runLengthFactor, nread, s2) →
            rlex_loop env bitmapDataByteCount width DstFormat nXDstRel nYDstRel nDstWidth
                nDstHeight paletteCount (add32 l 1) pixelCount palette (fuel + 1) st =
              .fail { st with s := s2,
                              bitmapDataOffset := add32 (add32 st.bitmapDataOffset 2) nread }) := by
  obtain ⟨l, hl, hn1, hn7, _, _, _, hhi, hlo⟩ := rlex_tables paletteCount h1 h127
  refine ⟨l, _, _, hl, hhi, hlo, fun tmp => ?_⟩
  have esd := rlex_suiteDepth_eq (add32 l 1) tmp (by omega)
  have estop := rlex_stopIndex_eq (add32 l 1) tmp
  have hcases := rlex_startIndex_cases (add32 l 1) tmp hn1
  dsimp only
  constructor
  · intro hstart hstop
    simp only [esd, estop] at hstart hstop ⊢
    rcases hcases with ⟨hle, he⟩ | ⟨_, hgt⟩
    · rw [he] at hstart ⊢
      refine ⟨hle, by omega, fun i hi => by omega, ?_⟩
      intro palette palette1 hp DstFormat nXDstRel nYDstRel nDstWidth nDstHeight width x y dst
      refine ⟨hp _ hstart, ?_⟩
      exact rlex_suite_agree env DstFormat nXDstRel nYDstRel nDstWidth nDstHeight width palette
        palette1 _ _ x y dst (by omega) (fun i _ h2 => hp i (by omega))
    · omega
  · intro hgt
    simp only [esd, estop] at hgt ⊢
    have hstart : ((tmp % 256) % 2 ^ add32 l 1 + 256 - (tmp % 256) / 2 ^ add32 l 1) % 256 ≥
        paletteCount := by
      rcases hcases with ⟨hle, _⟩ | ⟨_, h⟩
      · omega
      · omega
    refine ⟨hstart, ?_⟩
    intro bitmapDataByteCount width DstFormat nXDstRel nYDstRel nDstWidth nDstHeight pixelCount
      palette fuel st f1 s1 runLengthFactor nread s2 hoff hs hr
    rw [rlex_loop]
    simp only [hoff, if_true, hs, hhi, hlo, hr, esd, estop, hstart]

/-- C11, witness: paletteCount 3 uses two bits for stopIndex.  The record byte 6
(stopIndex 2, suiteDepth 1) passes the index checks, and startIndex + suiteDepth
= stopIndex; for the record byte 4 (stopIndex 0, suiteDepth 1) the subtraction
wraps and startIndex is not below paletteCount. -/
theorem rlex_indices_below_paletteCount_witness :
    ∃ l maskHi maskLo, CLEAR_LOG2_FLOOR[3 - 1]? = some l ∧
      CLEAR_8BIT_MASKS[8 - add32 l 1]? = some maskHi ∧
      CLEAR_8BIT_MASKS[add32 l 1]? = some maskLo ∧
      (((6 % 256) >>> add32 l 1) &&& maskHi) % 256 ≤ ((6 % 256) &&& maskLo) % 256 ∧
      (((6 % 256) &&& maskLo) % 256 + 256 - (((6 % 256) >>> add32 l 1) &&& maskHi) % 256) % 256 +
          (((6 % 256) >>> add32 l 1) &&& maskHi) % 256 = ((6 % 256) &&& maskLo) % 256 ∧
      (((4 % 256) &&& maskLo) % 256 + 256 - (((4 % 256) >>> add32 l 1) &&& maskHi) % 256) % 256 ≥
        3 := by
  obtain ⟨l, maskHi, maskLo, h1, h2, h3, h⟩ :=
    rlex_indices_below_paletteCount refEnv 3 (by decide) (by decide)
  have hl : l = 1 := by
    obtain ⟨l1, e1, _, e7, eadd, _, e2, _, _⟩ := rlex_tables 3 (by decide) (by decide)
    rw [h1] at e1
    cases e1
    obtain ⟨a, b⟩ := e2 (by decide)
    have hl6 : l ≤ 6 := by omega
    clear h h1 h2 h3 eadd e7
    interval_cases l <;> first | rfl | (exfalso; norm_num at a b)
  subst hl
  have hhi : maskHi = 0x3F := by
    have : CLEAR_8BIT_MASKS[8 - add32 1 1]? = some 0x3F := by decide
    rw [this] at h2
    exact (Option.some.inj h2).symm
  have hlo : maskLo = 0x03 := by
    have : CLEAR_8BIT_MASKS[add32 1 1]? = some 0x03 := by decide
    rw [this] at h3
    exact (Option.some.inj h3).symm
  subst hhi hlo
  have h6 := (h 6).1 (by decide) (by decide)
  have h4 := (h 4).2 (by decide)
  exact ⟨1, 0x3F, 0x03, h1, h2, h3, h6.1, h6.2.1, h4.1⟩

end ClearCodec
